import Mathlib

/-!
# Scene manager: transform builder, texture registry, material registry

A shallow embedding of `SceneManager.cpp`, `SceneManager.h` and
`ViewManager.cpp` (directory `7-1 FINAL PROJECT ENHANCED/Source`).

Conventions of the embedding.

* C++ `float` is replaced by an arbitrary commutative ring `α`; the
  non-algebraic scalar functions of the numeric library (`cos`, `sin`,
  `inversesqrt`, the degree-to-radian factor) are the fields of `Numerics α`.
  Rounding in arithmetic is therefore not part of the model. In the view
  manager, `α` is a field and a conversion from `double` to `float` is an
  explicit function of the environment; it is also applied to the one `float`
  product whose exact value a statement depends on.
* A C++ object is a Lean structure and a member function is a function from
  the old object to the new one. A function that may index the fixed array
  `m_textureIDs` outside `0 .. 15` returns `Except Fault _`; the C++ behaviour
  is undefined there and the model stops with `Fault.outOfBounds`.
* `while` loops are run with an explicit fuel; exhausting the fuel is
  `Fault.outOfFuel`. A top-level function hands its loop the number of entries
  to scan, and the theorems about it give its result, so that fuel is enough.
-/

/-- The scalar functions of the numeric library that are not ring operations. -/
structure Numerics (α : Type) where
  /-- The cosine `glm::cos`. -/
  cos : α → α
  /-- The sine `glm::sin`. -/
  sin : α → α
  /-- The reciprocal square root `glm::inversesqrt`. -/
  inversesqrt : α → α
  /-- The literal `0.01745329251994329576923690768489` of `glm::radians`. -/
  degToRad : α

/-- A computable instance over the rationals, built from the leading terms of
the series of the three functions; it serves to evaluate the model on
concrete inputs. -/
def Numerics.rational : Numerics ℚ where
  cos := fun x => 1 - x * x / 2
  sin := fun x => x - x * x * x / 6
  inversesqrt := fun x => (3 - x) / 2
  degToRad := 355 / 20340

/-! ## The GLM vector and matrix library (column-major `mat4`) -/

namespace glm

/-- The type `glm::vec3`. -/
structure vec3 (α : Type) where
  x : α
  y : α
  z : α
deriving DecidableEq, Repr

/-- The type `glm::vec4`. -/
structure vec4 (α : Type) where
  x : α
  y : α
  z : α
  w : α
deriving DecidableEq, Repr

/-- The type `glm::mat4`: four columns, `m[i]` is column `i`. -/
structure mat4 (α : Type) where
  c0 : vec4 α
  c1 : vec4 α
  c2 : vec4 α
  c3 : vec4 α
deriving DecidableEq, Repr

variable {α : Type} [CommRing α]

/-- The product `v * s` of a `vec4` and a scalar. -/
def vec4.scale (v : vec4 α) (s : α) : vec4 α :=
  ⟨v.x * s, v.y * s, v.z * s, v.w * s⟩

/-- The sum `a + b` of two `vec4`. -/
def vec4.add (a b : vec4 α) : vec4 α :=
  ⟨a.x + b.x, a.y + b.y, a.z + b.z, a.w + b.w⟩

instance : Add (vec4 α) := ⟨vec4.add⟩

/-- The identity matrix `mat4(1.0f)`. -/
def mat4.identity : mat4 α :=
  ⟨⟨1, 0, 0, 0⟩, ⟨0, 1, 0, 0⟩, ⟨0, 0, 1, 0⟩, ⟨0, 0, 0, 1⟩⟩

/-- The product `m1 * m2` of two `mat4`: column `j` of the result is the
combination of the columns of `m1` with the entries of column `j` of `m2`. -/
def mat4.mul (m1 m2 : mat4 α) : mat4 α :=
  { c0 := m1.c0.scale m2.c0.x + m1.c1.scale m2.c0.y + m1.c2.scale m2.c0.z + m1.c3.scale m2.c0.w
    c1 := m1.c0.scale m2.c1.x + m1.c1.scale m2.c1.y + m1.c2.scale m2.c1.z + m1.c3.scale m2.c1.w
    c2 := m1.c0.scale m2.c2.x + m1.c1.scale m2.c2.y + m1.c2.scale m2.c2.z + m1.c3.scale m2.c2.w
    c3 := m1.c0.scale m2.c3.x + m1.c1.scale m2.c3.y + m1.c2.scale m2.c3.z + m1.c3.scale m2.c3.w }

instance : Mul (mat4 α) := ⟨mat4.mul⟩

/-- The product `m * v` of a `mat4` and a `vec4`. -/
def mat4.mulVec (m : mat4 α) (v : vec4 α) : vec4 α :=
  (m.c0.scale v.x + m.c1.scale v.y) + (m.c2.scale v.z + m.c3.scale v.w)

/-- The function `glm::radians`. -/
def radians (F : Numerics α) (degrees : α) : α :=
  degrees * F.degToRad

/-- The function `glm::dot` on `vec3`. -/
def dot (a b : vec3 α) : α :=
  a.x * b.x + a.y * b.y + a.z * b.z

/-- The function `glm::normalize` on `vec3`: `v * inversesqrt(dot(v, v))`. -/
def normalize (F : Numerics α) (v : vec3 α) : vec3 α :=
  ⟨v.x * F.inversesqrt (dot v v), v.y * F.inversesqrt (dot v v), v.z * F.inversesqrt (dot v v)⟩

/-- The function `glm::translate(m, v)`: only column 3 changes. -/
def translateM (m : mat4 α) (v : vec3 α) : mat4 α :=
  { m with c3 := m.c0.scale v.x + m.c1.scale v.y + m.c2.scale v.z + m.c3 }

/-- The function `glm::scale(m, v)`: the first three columns are scaled. -/
def scaleM (m : mat4 α) (v : vec3 α) : mat4 α :=
  { c0 := m.c0.scale v.x, c1 := m.c1.scale v.y, c2 := m.c2.scale v.z, c3 := m.c3 }

/-- The function `glm::rotate(m, angle, v)`: the axis-angle rotation about the
normalised axis `v`, applied on the right of `m`. The local names follow the
library: `Rij` is `Rotate[i][j]`, column `i`, row `j`. -/
def rotateM (F : Numerics α) (m : mat4 α) (angle : α) (v : vec3 α) : mat4 α :=
  let c := F.cos angle
  let s := F.sin angle
  let axis := normalize F v
  let temp : vec3 α := ⟨(1 - c) * axis.x, (1 - c) * axis.y, (1 - c) * axis.z⟩
  let R00 := c + temp.x * axis.x
  let R01 := temp.x * axis.y + s * axis.z
  let R02 := temp.x * axis.z - s * axis.y
  let R10 := temp.y * axis.x - s * axis.z
  let R11 := c + temp.y * axis.y
  let R12 := temp.y * axis.z + s * axis.x
  let R20 := temp.z * axis.x + s * axis.y
  let R21 := temp.z * axis.y - s * axis.x
  let R22 := c + temp.z * axis.z
  { c0 := m.c0.scale R00 + m.c1.scale R01 + m.c2.scale R02
    c1 := m.c0.scale R10 + m.c1.scale R11 + m.c2.scale R12
    c2 := m.c0.scale R20 + m.c1.scale R21 + m.c2.scale R22
    c3 := m.c3 }

/-- The one-argument `glm::translate(v)` of `glm/gtx/transform.hpp`. -/
def translate (v : vec3 α) : mat4 α :=
  translateM mat4.identity v

/-- The one-argument `glm::scale(v)` of `glm/gtx/transform.hpp`. -/
def scale (v : vec3 α) : mat4 α :=
  scaleM mat4.identity v

/-- The two-argument `glm::rotate(angle, v)` of `glm/gtx/transform.hpp`. -/
def rotate (F : Numerics α) (angle : α) (v : vec3 α) : mat4 α :=
  rotateM F mat4.identity angle v

/-- The entry of a column at row `i`. -/
def vec4.get (v : vec4 α) : Fin 4 → α
  | 0 => v.x
  | 1 => v.y
  | 2 => v.z
  | 3 => v.w

/-- Column `j` of a matrix. -/
def mat4.col (m : mat4 α) : Fin 4 → vec4 α
  | 0 => m.c0
  | 1 => m.c1
  | 2 => m.c2
  | 3 => m.c3

/-- The mathematical matrix (row index first) that a column-major `mat4` stands for. -/
def mat4.toMatrix (m : mat4 α) : Matrix (Fin 4) (Fin 4) α :=
  Matrix.of fun i j => (m.col j).get i

/-- The image of the point `p` under `m`: the first three components of
`m * vec4(p, 1)`, as the vertex stage computes it. -/
def transformPoint (m : mat4 α) (p : vec3 α) : vec3 α :=
  let q := m.mulVec ⟨p.x, p.y, p.z, 1⟩
  ⟨q.x, q.y, q.z⟩

end glm

/-! ## The transformation matrices as the specification names them -/

namespace Spec

variable {α : Type} [CommRing α]

/-- The homogeneous translation by `p`. -/
def Translate (p : glm.vec3 α) : Matrix (Fin 4) (Fin 4) α :=
  !![1, 0, 0, p.x; 0, 1, 0, p.y; 0, 0, 1, p.z; 0, 0, 0, 1]

/-- The homogeneous scaling by `s`. -/
def Scale (s : glm.vec3 α) : Matrix (Fin 4) (Fin 4) α :=
  !![s.x, 0, 0, 0; 0, s.y, 0, 0; 0, 0, s.z, 0; 0, 0, 0, 1]

/-- The rotation about the x axis by `deg` degrees. -/
def RotateX (F : Numerics α) (deg : α) : Matrix (Fin 4) (Fin 4) α :=
  !![1, 0, 0, 0;
     0, F.cos (deg * F.degToRad), -F.sin (deg * F.degToRad), 0;
     0, F.sin (deg * F.degToRad), F.cos (deg * F.degToRad), 0;
     0, 0, 0, 1]

/-- The rotation about the y axis by `deg` degrees. -/
def RotateY (F : Numerics α) (deg : α) : Matrix (Fin 4) (Fin 4) α :=
  !![F.cos (deg * F.degToRad), 0, F.sin (deg * F.degToRad), 0;
     0, 1, 0, 0;
     -F.sin (deg * F.degToRad), 0, F.cos (deg * F.degToRad), 0;
     0, 0, 0, 1]

/-- The rotation about the z axis by `deg` degrees. -/
def RotateZ (F : Numerics α) (deg : α) : Matrix (Fin 4) (Fin 4) α :=
  !![F.cos (deg * F.degToRad), -F.sin (deg * F.degToRad), 0, 0;
     F.sin (deg * F.degToRad), F.cos (deg * F.degToRad), 0, 0;
     0, 0, 1, 0;
     0, 0, 0, 1]

end Spec

/-! ## The shader manager -/

/-- The value written to a named uniform, one constructor per setter. -/
inductive UniformValue (α : Type) where
  | int (v : Int)
  | bool (b : Bool)
  | float (v : α)
  | vec2 (x y : α)
  | vec3 (v : glm.vec3 α)
  | vec4 (v : glm.vec4 α)
  | mat4 (m : glm.mat4 α)
  | sampler2D (slot : Int)
deriving DecidableEq, Repr

/-- Modelled from the spec: the class `ShaderManager` (`ShaderManager.h` is not
among the sources). The specification asks of a setter only that the named
uniform is updated; the model records every write, the latest last. -/
structure ShaderManager (α : Type) where
  writes : List (String × UniformValue α)
deriving DecidableEq, Repr

namespace ShaderManager

variable {α : Type}

/-- Modelled from the spec: `setMat4Value(name, value)` updates the named uniform. -/
def setMat4Value (sh : ShaderManager α) (name : String) (value : glm.mat4 α) : ShaderManager α :=
  ⟨sh.writes ++ [(name, UniformValue.mat4 value)]⟩

/-- The current value of a uniform: the latest write under that name. -/
def value? (sh : ShaderManager α) (name : String) : Option (UniformValue α) :=
  (sh.writes.reverse.find? fun w => w.1 == name).map Prod.snd

end ShaderManager

/-! ## The scene manager -/

/-- The struct `SceneManager::TEXTURE_INFO`; `ID` is a `uint32_t`. -/
structure TEXTURE_INFO where
  tag : String
  ID : Nat
deriving DecidableEq, Repr

/-- The struct `SceneManager::OBJECT_MATERIAL`. -/
structure OBJECT_MATERIAL (α : Type) where
  ambientStrength : α
  ambientColor : glm.vec3 α
  diffuseColor : glm.vec3 α
  specularColor : glm.vec3 α
  shininess : α
  tag : String
deriving DecidableEq, Repr

/-- The ways in which a run of the model stops without a C++ result. -/
inductive Fault where
  /-- An access to `m_textureIDs` outside `0 .. 15` (undefined behaviour in C++). -/
  | outOfBounds
  /-- A loop used up its fuel. -/
  | outOfFuel
  /-- A member access through a null pointer (undefined behaviour in C++). -/
  | nullPointer
  /-- An `assert` whose condition is false: the program aborts. -/
  | assertionFailed
deriving DecidableEq, Repr

/-- What `stbi_load` hands back for a readable file. -/
structure Image where
  width : Int
  height : Int
  colorChannels : Int
deriving DecidableEq, Repr

/-- The data members of `SceneManager` that the modelled functions touch.
`m_pShaderManager` is `none` for a null pointer. -/
structure SceneManager (α : Type) where
  m_pShaderManager : Option (ShaderManager α)
  m_loadedTextures : Int
  m_textureIDs : Fin 16 → TEXTURE_INFO
  m_objectMaterials : List (OBJECT_MATERIAL α)

/-- The uniform name `g_ModelName`. -/
def g_ModelName : String := "model"

namespace SceneManager

variable {α : Type}

/-- The constructor: every array entry gets the tag `"/0"` and the ID `-1`
(as a `uint32_t`, `4294967295`); no texture is loaded. -/
def new (pShaderManager : Option (ShaderManager α)) : SceneManager α :=
  { m_pShaderManager := pShaderManager
    m_loadedTextures := 0
    m_textureIDs := fun _ => ⟨"/0", 4294967295⟩
    m_objectMaterials := [] }

/-- The read `m_textureIDs[index]` with an `int` index. -/
def readTexture (sm : SceneManager α) (index : Int) : Except Fault TEXTURE_INFO :=
  if h : 0 ≤ index ∧ index < 16 then
    Except.ok (sm.m_textureIDs ⟨index.toNat, by omega⟩)
  else
    Except.error Fault.outOfBounds

/-- The function `CreateGLTexture`. `image` is the result of `stbi_load` on the
file name (`none` for a null pointer) and `textureID` the name that
`glGenTextures` produces; the other OpenGL calls do not touch the object. -/
def CreateGLTexture (sm : SceneManager α) (image : Option Image) (textureID : Nat)
    (tag : String) : Except Fault (Bool × SceneManager α) :=
  match image with
  | some img =>
    -- `if (colorChannels == 3) ... else if (colorChannels == 4) ... else return false`
    let supported : Bool :=
      if img.colorChannels = 3 then true
      else if img.colorChannels = 4 then true
      else false
    if supported then
      -- `m_textureIDs[m_loadedTextures].ID = textureID; ...tag = tag; m_loadedTextures++`
      if h : 0 ≤ sm.m_loadedTextures ∧ sm.m_loadedTextures < 16 then
        Except.ok (true,
          { sm with
            m_textureIDs :=
              Function.update sm.m_textureIDs ⟨sm.m_loadedTextures.toNat, by omega⟩
                ⟨tag, textureID⟩
            m_loadedTextures := sm.m_loadedTextures + 1 })
      else
        Except.error Fault.outOfBounds
    else
      Except.ok (false, sm)
  | none => Except.ok (false, sm)

/-- One call `CreateGLTexture(filename, tag)` together with the answers of the
environment during it: what `stbi_load` returns for the file and the texture
name that `glGenTextures` produces. -/
structure TextureCall where
  image : Option Image
  textureID : Nat
  tag : String
deriving DecidableEq, Repr

/-- The image of the call is readable and has 3 or 4 colour channels. -/
def TextureCall.loads (c : TextureCall) : Bool :=
  match c.image with
  | some img => decide (img.colorChannels = 3 ∨ img.colorChannels = 4)
  | none => false

/-- A sequence of `CreateGLTexture` calls, as `LoadSceneTextures` issues them:
the returned list holds the `bool` results in call order. -/
def CreateGLTexture.seq (sm : SceneManager α) :
    List TextureCall → Except Fault (List Bool × SceneManager α)
  | [] => Except.ok ([], sm)
  | c :: cs =>
    match sm.CreateGLTexture c.image c.textureID c.tag with
    | Except.error e => Except.error e
    | Except.ok (b, sm1) =>
      match CreateGLTexture.seq sm1 cs with
      | Except.error e => Except.error e
      | Except.ok (bs, sm2) => Except.ok (b :: bs, sm2)

/-- The invariant the specification states for the texture registry: no two
loaded entries of the array carry the same tag. -/
def TagsUnique (sm : SceneManager α) : Prop :=
  ∀ i j : Fin 16, (i.val : Int) < sm.m_loadedTextures → (j.val : Int) < sm.m_loadedTextures →
    (sm.m_textureIDs i).tag = (sm.m_textureIDs j).tag → i = j

/-- The loop of `FindTextureSlot`, with the local variables `index`,
`textureSlot` and `bFound` as arguments. -/
def FindTextureSlot.loop (sm : SceneManager α) (tag : String) :
    Nat → Int → Int → Bool → Except Fault Int
  | 0, index, textureSlot, bFound =>
    if index < sm.m_loadedTextures ∧ bFound = false then
      Except.error Fault.outOfFuel
    else
      Except.ok textureSlot
  | fuel + 1, index, textureSlot, bFound =>
    if index < sm.m_loadedTextures ∧ bFound = false then
      match sm.readTexture index with
      | Except.error e => Except.error e
      | Except.ok entry =>
        if entry.tag = tag then
          FindTextureSlot.loop sm tag fuel index index true
        else
          FindTextureSlot.loop sm tag fuel (index + 1) textureSlot bFound
    else
      Except.ok textureSlot

/-- The function `FindTextureSlot`. -/
def FindTextureSlot (sm : SceneManager α) (tag : String) : Except Fault Int :=
  FindTextureSlot.loop sm tag sm.m_loadedTextures.toNat 0 (-1) false

/-- The loop of `FindMaterial`, with the local variables `index` and `bFound`
and the output parameter `material` as arguments; the result is the output
parameter after the loop. -/
def FindMaterial.loop (mats : List (OBJECT_MATERIAL α)) (tag : String) :
    Nat → Nat → Bool → OBJECT_MATERIAL α → Except Fault (OBJECT_MATERIAL α)
  | 0, index, bFound, material =>
    if index < mats.length ∧ bFound = false then
      Except.error Fault.outOfFuel
    else
      Except.ok material
  | fuel + 1, index, bFound, material =>
    if h : index < mats.length ∧ bFound = false then
      if (mats.get ⟨index, h.1⟩).tag = tag then
        FindMaterial.loop mats tag fuel index true
          { material with
            ambientColor := (mats.get ⟨index, h.1⟩).ambientColor
            ambientStrength := (mats.get ⟨index, h.1⟩).ambientStrength
            diffuseColor := (mats.get ⟨index, h.1⟩).diffuseColor
            specularColor := (mats.get ⟨index, h.1⟩).specularColor
            shininess := (mats.get ⟨index, h.1⟩).shininess }
      else
        FindMaterial.loop mats tag fuel (index + 1) bFound material
    else
      Except.ok material

/-- The function `FindMaterial`: the returned pair is the `bool` result and the
output parameter `material` after the call. -/
def FindMaterial (sm : SceneManager α) (tag : String) (material : OBJECT_MATERIAL α) :
    Except Fault (Bool × OBJECT_MATERIAL α) :=
  if sm.m_objectMaterials.length = 0 then
    Except.ok (false, material)
  else
    match FindMaterial.loop sm.m_objectMaterials tag sm.m_objectMaterials.length 0 false
        material with
    | Except.error e => Except.error e
    | Except.ok out => Except.ok (true, out)

/-- One `m_objectMaterials.push_back(material)`, the way `DefineObjectMaterials`
of the original project defines a material. -/
def defineMaterial (sm : SceneManager α) (material : OBJECT_MATERIAL α) : SceneManager α :=
  { sm with m_objectMaterials := sm.m_objectMaterials ++ [material] }

variable [CommRing α]

/-- The local variable `modelView` of `SetTransformations`. -/
def SetTransformations.modelView (F : Numerics α) (scaleXYZ : glm.vec3 α)
    (XrotationDegrees YrotationDegrees ZrotationDegrees : α) (positionXYZ : glm.vec3 α) :
    glm.mat4 α :=
  let scale := glm.scale scaleXYZ
  let rotationX := glm.rotate F (glm.radians F XrotationDegrees) ⟨1, 0, 0⟩
  let rotationY := glm.rotate F (glm.radians F YrotationDegrees) ⟨0, 1, 0⟩
  let rotationZ := glm.rotate F (glm.radians F ZrotationDegrees) ⟨0, 0, 1⟩
  let translation := glm.translate positionXYZ
  translation * rotationZ * rotationY * rotationX * scale

/-- The function `SetTransformations`. -/
def SetTransformations (F : Numerics α) (sm : SceneManager α) (scaleXYZ : glm.vec3 α)
    (XrotationDegrees YrotationDegrees ZrotationDegrees : α) (positionXYZ : glm.vec3 α) :
    SceneManager α :=
  match sm.m_pShaderManager with
  | some sh =>
    { sm with
      m_pShaderManager :=
        some (sh.setMat4Value g_ModelName
          (SetTransformations.modelView F scaleXYZ XrotationDegrees YrotationDegrees
            ZrotationDegrees positionXYZ)) }
  | none => sm

end SceneManager

/-! ## The setters of the shader manager -/

namespace ShaderManager

variable {α : Type}

/-- Modelled from the spec: `setIntValue(name, value)` updates the named uniform. -/
def setIntValue (sh : ShaderManager α) (name : String) (value : Int) : ShaderManager α :=
  ⟨sh.writes ++ [(name, UniformValue.int value)]⟩

/-- Modelled from the spec: `setBoolValue(name, value)` updates the named uniform. -/
def setBoolValue (sh : ShaderManager α) (name : String) (value : Bool) : ShaderManager α :=
  ⟨sh.writes ++ [(name, UniformValue.bool value)]⟩

/-- Modelled from the spec: `setFloatValue(name, value)` updates the named uniform. -/
def setFloatValue (sh : ShaderManager α) (name : String) (value : α) : ShaderManager α :=
  ⟨sh.writes ++ [(name, UniformValue.float value)]⟩

/-- Modelled from the spec: `setVec2Value(name, value)` updates the named uniform. -/
def setVec2Value (sh : ShaderManager α) (name : String) (x y : α) : ShaderManager α :=
  ⟨sh.writes ++ [(name, UniformValue.vec2 x y)]⟩

/-- Modelled from the spec: `setVec3Value(name, value)` updates the named uniform;
the overload with three floats is this one applied to the vector they form. -/
def setVec3Value (sh : ShaderManager α) (name : String) (value : glm.vec3 α) :
    ShaderManager α :=
  ⟨sh.writes ++ [(name, UniformValue.vec3 value)]⟩

/-- Modelled from the spec: `setSampler2DValue(name, slot)` updates the named
sampler uniform. -/
def setSampler2DValue (sh : ShaderManager α) (name : String) (slot : Int) : ShaderManager α :=
  ⟨sh.writes ++ [(name, UniformValue.sampler2D slot)]⟩

/-- Some write of the log is made under the given name. -/
def writesTo (sh : ShaderManager α) (name : String) : Bool :=
  sh.writes.any fun w => w.1 == name

end ShaderManager

/-- The uniform name `g_TextureValueName`. -/
def g_TextureValueName : String := "objectTexture"

/-- The uniform name `g_UseTextureName`. -/
def g_UseTextureName : String := "bUseTexture"

/-- The uniform name `g_UseLightingName`. -/
def g_UseLightingName : String := "bUseLighting"

/-! ## The scene manager: shader state, scene preparation, rendering -/

namespace SceneManager

variable {α : Type}

/-- The function `SetShaderTexture`; the `bool` argument `true` of `setIntValue`
is the `int` 1. -/
def SetShaderTexture (sm : SceneManager α) (textureTag : String) :
    Except Fault (SceneManager α) :=
  match sm.m_pShaderManager with
  | some sh =>
    match sm.FindTextureSlot textureTag with
    | Except.error e => Except.error e
    | Except.ok textureID =>
      Except.ok
        { sm with
          m_pShaderManager :=
            some ((sh.setIntValue g_UseTextureName 1).setSampler2DValue g_TextureValueName
              textureID) }
  | none => Except.ok sm

/-- The function `SetTextureUVScale`. -/
def SetTextureUVScale (sm : SceneManager α) (u v : α) : SceneManager α :=
  match sm.m_pShaderManager with
  | some sh => { sm with m_pShaderManager := some (sh.setVec2Value "UVscale" u v) }
  | none => sm

/-- The function `SetShaderMaterial`. The local `OBJECT_MATERIAL material` is
declared without an initialiser; `uninitialised` is the value it happens to
hold. The shader manager is used without a null check. -/
def SetShaderMaterial (sm : SceneManager α) (materialTag : String)
    (uninitialised : OBJECT_MATERIAL α) : Except Fault (SceneManager α) :=
  if sm.m_objectMaterials.length > 0 then
    match sm.FindMaterial materialTag uninitialised with
    | Except.error e => Except.error e
    | Except.ok (bReturn, material) =>
      if bReturn = true then
        match sm.m_pShaderManager with
        | none => Except.error Fault.nullPointer
        | some sh =>
          Except.ok
            { sm with
              m_pShaderManager :=
                some (((((sh.setVec3Value "material.ambientColor" material.ambientColor
                  ).setFloatValue "material.ambientStrength" material.ambientStrength
                  ).setVec3Value "material.diffuseColor" material.diffuseColor
                  ).setVec3Value "material.specularColor" material.specularColor
                  ).setFloatValue "material.shininess" material.shininess) }
      else
        Except.ok sm
  else
    Except.ok sm

/-- The answers of the environment during `LoadSceneTextures`: what `stbi_load`
returns for a file name, and the texture name that `glGenTextures` produces
during the `k`-th call of `CreateGLTexture`. -/
structure TextureEnv where
  stbi_load : String → Option Image
  glGenTextures : Nat → Nat

/-- The file names and tags of the nine `CreateGLTexture` calls of
`LoadSceneTextures`, in source order. -/
def LoadSceneTextures.files : List (String × String) :=
  [("textures/wood/wood1.jpg", "wood"),
   ("textures/metal/metal.jpg", "metal"),
   ("textures/wall/wall3.jpg", "wall"),
   ("textures/fabric/fabric1.jpg", "fabric"),
   ("textures/plastic/plastic.jpg", "plastic"),
   ("textures/keyboard/keyboard.jpg", "keyboard"),
   ("textures/mouse/mouse2.jpg", "mouse"),
   ("textures/bottle/bottle.jpg", "bottle"),
   ("textures/silver/silver.jpg", "silver")]

/-- The nine calls of `LoadSceneTextures` with the answers of the environment. -/
def LoadSceneTextures.calls (env : TextureEnv) : List TextureCall :=
  (List.range LoadSceneTextures.files.length).zipWith
    (fun k ft => ⟨env.stbi_load ft.1, env.glGenTextures k, ft.2⟩) LoadSceneTextures.files

/-- The function `LoadSceneTextures`: nine `CreateGLTexture` calls whose results
are dropped, then `BindGLTextures`, which only talks to OpenGL. -/
def LoadSceneTextures (sm : SceneManager α) (env : TextureEnv) : Except Fault (SceneManager α) :=
  match CreateGLTexture.seq sm (LoadSceneTextures.calls env) with
  | Except.error e => Except.error e
  | Except.ok (_, sm1) => Except.ok sm1

/-- The function `PrepareScene`: `LoadSceneTextures`, then six mesh loads, which
do not touch the data members modelled here. -/
def PrepareScene (sm : SceneManager α) (env : TextureEnv) : Except Fault (SceneManager α) :=
  sm.LoadSceneTextures env

/-- The primitive meshes of `ShapeMeshes` that `RenderScene` draws. -/
inductive Primitive where
  | plane
  | box
  | cylinder
  | sphere
  | torus
deriving DecidableEq, Repr

/-- A call statement of `RenderScene`, with its arguments. -/
inductive Call (α : Type) where
  | SetTransformations (scaleXYZ : glm.vec3 α)
      (XrotationDegrees YrotationDegrees ZrotationDegrees : α) (positionXYZ : glm.vec3 α)
  | SetShaderTexture (textureTag : String)
  | SetTextureUVScale (u v : α)
  | SetShaderMaterial (materialTag : String)
  | DrawPlaneMesh
  | DrawBoxMesh
  | DrawCylinderMesh
  | DrawSphereMesh
  | DrawTorusMesh
deriving DecidableEq, Repr

/-- The primitive a draw call draws; `none` for the other calls. -/
def Call.primitive? : Call α → Option Primitive
  | Call.DrawPlaneMesh => some Primitive.plane
  | Call.DrawBoxMesh => some Primitive.box
  | Call.DrawCylinderMesh => some Primitive.cylinder
  | Call.DrawSphereMesh => some Primitive.sphere
  | Call.DrawTorusMesh => some Primitive.torus
  | _ => none

/-- The call is a draw call of `m_basicMeshes`. -/
def Call.isDraw (c : Call α) : Bool :=
  c.primitive?.isSome

end SceneManager

namespace SceneManager

variable {α : Type} [Field α]

/-- The body of `RenderScene`: its call statements in source order, each
`SetTransformations` with the values the five local variables hold at the call. -/
def RenderScene.calls : List (Call α) :=
  [
    Call.SetTransformations ⟨20.0, 1.5, 10.0⟩ (0.0) (0.0) (0.0) ⟨0.0, 0.0, 0.0⟩,
    Call.SetShaderTexture "wood",
    Call.SetTextureUVScale 1.0 1.0,
    Call.SetShaderMaterial "plastic",
    Call.DrawBoxMesh,
    Call.SetTransformations ⟨0.5, 3.0, 0.25⟩ (0.0) (0.0) (0.0) ⟨-1.0, 1.0, -5.0⟩,
    Call.SetShaderTexture "plastic",
    Call.SetTextureUVScale 2.0 2.0,
    Call.SetShaderMaterial "plastic",
    Call.DrawCylinderMesh,
    Call.SetTransformations ⟨0.5, 7.0, 0.25⟩ (15.0) (0.0) (60.0) ⟨-1.0, 4.0, -5.0⟩,
    Call.SetShaderTexture "plastic",
    Call.SetTextureUVScale 2.0 2.0,
    Call.SetShaderMaterial "plastic",
    Call.DrawCylinderMesh,
    Call.SetTransformations ⟨7.0, 4.0, 1.0⟩ (0.0) (0.0) (0.0) ⟨-5.0, 6.0, -3.0⟩,
    Call.SetShaderTexture "metal",
    Call.SetTextureUVScale 1.0 1.0,
    Call.SetShaderMaterial "plastic",
    Call.DrawBoxMesh,
    Call.SetTransformations ⟨3.0, 1.0, 1.0⟩ (0.0) (0.0) (0.0) ⟨0.0, 1.0, -5.0⟩,
    Call.SetShaderTexture "plastic",
    Call.SetTextureUVScale 1.0 1.0,
    Call.SetShaderMaterial "plastic",
    Call.DrawBoxMesh,
    Call.SetTransformations ⟨15.0, 3.0, 15.0⟩ (90.0) (0.0) (0.0) ⟨0.0, 4.0, -5.5⟩,
    Call.SetShaderTexture "wall",
    Call.SetTextureUVScale 1.0 1.0,
    Call.DrawPlaneMesh,
    Call.SetTransformations ⟨0.5, 3.0, 0.25⟩ (0.0) (0.0) (0.0) ⟨1.0, 1.0, -5.0⟩,
    Call.SetShaderTexture "plastic",
    Call.SetTextureUVScale 2.0 2.0,
    Call.SetShaderMaterial "plastic",
    Call.DrawCylinderMesh,
    Call.SetTransformations ⟨0.5, 7.0, 0.25⟩ (15.0) (0.0) (-60.0) ⟨1.0, 4.0, -5.0⟩,
    Call.SetShaderTexture "plastic",
    Call.SetTextureUVScale 2.0 2.0,
    Call.SetShaderMaterial "plastic",
    Call.DrawCylinderMesh,
    Call.SetTransformations ⟨7.0, 4.0, 1.0⟩ (0.0) (0.0) (0.0) ⟨5.0, 6.0, -3.0⟩,
    Call.SetShaderTexture "metal",
    Call.SetTextureUVScale 1.0 1.0,
    Call.SetShaderMaterial "plastic",
    Call.DrawBoxMesh,
    Call.SetTransformations ⟨18.0, 0.15, 4.5⟩ (0.0) (0.0) (0.0) ⟨0.5, 1.0, -0.10⟩,
    Call.SetShaderTexture "fabric",
    Call.SetTextureUVScale 0.5 0.5,
    Call.DrawBoxMesh,
    Call.SetTransformations ⟨6.0, 1.0, 2.0⟩ (0.0) (0.0) (0.0) ⟨-2.0, 1.0, -0.25⟩,
    Call.SetShaderTexture "keyboard",
    Call.SetTextureUVScale 1.0 1.0,
    Call.DrawBoxMesh,
    Call.SetTransformations ⟨6.0, 1.0, 0.25⟩ (0.0) (0.0) (0.0) ⟨-2.0, 1.1, 0.65⟩,
    Call.SetShaderTexture "plastic",
    Call.SetTextureUVScale 1.0 1.0,
    Call.DrawBoxMesh,
    Call.SetTransformations ⟨6.0, 1.0, 0.25⟩ (0.0) (0.0) (0.0) ⟨-2.0, 1.1, -1.25⟩,
    Call.SetShaderTexture "plastic",
    Call.SetTextureUVScale 1.0 1.0,
    Call.DrawBoxMesh,
    Call.SetTransformations ⟨0.25, 0.75, 2.0⟩ (0.0) (0.0) (0.0) ⟨-5.0, 1.23, -0.25⟩,
    Call.SetShaderTexture "plastic",
    Call.SetTextureUVScale 1.0 1.0,
    Call.DrawBoxMesh,
    Call.SetTransformations ⟨0.25, 0.75, 2.0⟩ (0.0) (0.0) (0.0) ⟨1.0, 1.23, -0.25⟩,
    Call.SetShaderTexture "plastic",
    Call.SetTextureUVScale 1.0 1.0,
    Call.DrawBoxMesh,
    Call.SetTransformations ⟨0.50, 0.60, 1.0⟩ (0.0) (0.0) (0.0) ⟨4.0, 1.0, -0.25⟩,
    Call.SetShaderTexture "mouse",
    Call.SetTextureUVScale 1.0 1.0,
    Call.DrawSphereMesh,
    Call.SetTransformations ⟨0.75, 0.30, 0.75⟩ (0.0) (0.0) (0.0) ⟨-8.0, 0.85, 4.0⟩,
    Call.SetShaderTexture "silver",
    Call.SetTextureUVScale 0.5 0.5,
    Call.DrawCylinderMesh,
    Call.SetTransformations ⟨0.75, 4.0, 0.75⟩ (0.0) (0.0) (0.0) ⟨-8.0, 1.20, 4.0⟩,
    Call.SetShaderTexture "bottle",
    Call.SetTextureUVScale 1.0 1.0,
    Call.DrawCylinderMesh,
    Call.SetTransformations ⟨0.55, 0.55, 0.55⟩ (90.0) (90.0) (0.0) ⟨-8.0, 5.25, 4.0⟩,
    Call.SetShaderTexture "silver",
    Call.SetTextureUVScale 0.5 0.5,
    Call.DrawTorusMesh,
    Call.SetTransformations ⟨0.50, 0.50, 0.50⟩ (0.0) (0.0) (0.0) ⟨-8.0, 5.20, 4.0⟩,
    Call.SetShaderTexture "silver",
    Call.SetTextureUVScale 0.5 0.5,
    Call.DrawCylinderMesh,
    Call.SetTransformations ⟨0.40, 0.40, 0.50⟩ (0.0) (0.0) (0.0) ⟨-8.0, 5.75, 4.0⟩,
    Call.SetShaderTexture "silver",
    Call.SetTextureUVScale 0.5 0.5,
    Call.DrawTorusMesh,
    Call.SetTransformations ⟨1.5, 10.0, 1.5⟩ (0.0) (0.0) (0.0) ⟨-8.0, -5.5, -4.0⟩,
    Call.SetShaderTexture "wood",
    Call.SetTextureUVScale 1.0 1.0,
    Call.DrawBoxMesh,
    Call.SetTransformations ⟨1.5, 10.0, 1.5⟩ (0.0) (0.0) (0.0) ⟨8.0, -5.5, 4.0⟩,
    Call.SetShaderTexture "wood",
    Call.SetTextureUVScale 1.0 1.0,
    Call.DrawBoxMesh,
    Call.SetTransformations ⟨1.5, 10.0, 1.5⟩ (0.0) (0.0) (0.0) ⟨8.0, -5.5, -4.0⟩,
    Call.SetShaderTexture "wood",
    Call.SetTextureUVScale 1.0 1.0,
    Call.DrawBoxMesh,
    Call.SetTransformations ⟨1.5, 10.0, 1.5⟩ (0.0) (0.0) (0.0) ⟨-8.0, -5.5, 4.0⟩,
    Call.SetShaderTexture "wood",
    Call.SetTextureUVScale 1.0 1.0,
    Call.DrawBoxMesh
  ]

/-- The effect of one call statement of `RenderScene` on the scene manager; a
draw call uses the shader state and changes none of the data members. -/
def Call.exec (F : Numerics α) (uninitialised : OBJECT_MATERIAL α) (sm : SceneManager α) :
    Call α → Except Fault (SceneManager α)
  | Call.SetTransformations s x y z p => Except.ok (sm.SetTransformations F s x y z p)
  | Call.SetShaderTexture t => sm.SetShaderTexture t
  | Call.SetTextureUVScale u v => Except.ok (sm.SetTextureUVScale u v)
  | Call.SetShaderMaterial m => sm.SetShaderMaterial m uninitialised
  | _ => Except.ok sm

/-- A sequence of call statements, run in order. -/
def Call.execAll (F : Numerics α) (uninitialised : OBJECT_MATERIAL α) :
    SceneManager α → List (Call α) → Except Fault (SceneManager α)
  | sm, [] => Except.ok sm
  | sm, c :: cs =>
    match Call.exec F uninitialised sm c with
    | Except.error e => Except.error e
    | Except.ok sm1 => Call.execAll F uninitialised sm1 cs

/-- The function `RenderScene`. -/
def RenderScene (F : Numerics α) (uninitialised : OBJECT_MATERIAL α) (sm : SceneManager α) :
    Except Fault (SceneManager α) :=
  Call.execAll F uninitialised sm RenderScene.calls

/-- A draw descriptor of the scene object list of the specification. -/
structure SceneObject (α : Type) where
  scaleXYZ : glm.vec3 α
  XrotationDegrees : α
  YrotationDegrees : α
  ZrotationDegrees : α
  positionXYZ : glm.vec3 α
  textureTag : String
  u : α
  v : α
  materialTag : Option String
  primitive : Primitive

/-- The draw call of a primitive. -/
def Primitive.draw : Primitive → Call α
  | Primitive.plane => Call.DrawPlaneMesh
  | Primitive.box => Call.DrawBoxMesh
  | Primitive.cylinder => Call.DrawCylinderMesh
  | Primitive.sphere => Call.DrawSphereMesh
  | Primitive.torus => Call.DrawTorusMesh

/-- The group of calls the specification prescribes for one scene object: one
transform push, one texture resolution followed by the UV scale, one material
push if a material is given, then the draw call. -/
def SceneObject.group (o : SceneObject α) : List (Call α) :=
  [Call.SetTransformations o.scaleXYZ o.XrotationDegrees o.YrotationDegrees
      o.ZrotationDegrees o.positionXYZ,
    Call.SetShaderTexture o.textureTag,
    Call.SetTextureUVScale o.u o.v]
  ++ (match o.materialTag with
      | some m => [Call.SetShaderMaterial m]
      | none => [])
  ++ [Primitive.draw o.primitive]

/-- The scene object list: one draw descriptor per object of the fixed scene,
in the order in which `RenderScene` draws them. -/
def RenderScene.objects : List (SceneObject α) :=
  [
    ⟨⟨20.0, 1.5, 10.0⟩, 0.0, 0.0, 0.0, ⟨0.0, 0.0, 0.0⟩, "wood", 1.0, 1.0, (some "plastic"), Primitive.box⟩,
    ⟨⟨0.5, 3.0, 0.25⟩, 0.0, 0.0, 0.0, ⟨-1.0, 1.0, -5.0⟩, "plastic", 2.0, 2.0, (some "plastic"), Primitive.cylinder⟩,
    ⟨⟨0.5, 7.0, 0.25⟩, 15.0, 0.0, 60.0, ⟨-1.0, 4.0, -5.0⟩, "plastic", 2.0, 2.0, (some "plastic"), Primitive.cylinder⟩,
    ⟨⟨7.0, 4.0, 1.0⟩, 0.0, 0.0, 0.0, ⟨-5.0, 6.0, -3.0⟩, "metal", 1.0, 1.0, (some "plastic"), Primitive.box⟩,
    ⟨⟨3.0, 1.0, 1.0⟩, 0.0, 0.0, 0.0, ⟨0.0, 1.0, -5.0⟩, "plastic", 1.0, 1.0, (some "plastic"), Primitive.box⟩,
    ⟨⟨15.0, 3.0, 15.0⟩, 90.0, 0.0, 0.0, ⟨0.0, 4.0, -5.5⟩, "wall", 1.0, 1.0, none, Primitive.plane⟩,
    ⟨⟨0.5, 3.0, 0.25⟩, 0.0, 0.0, 0.0, ⟨1.0, 1.0, -5.0⟩, "plastic", 2.0, 2.0, (some "plastic"), Primitive.cylinder⟩,
    ⟨⟨0.5, 7.0, 0.25⟩, 15.0, 0.0, -60.0, ⟨1.0, 4.0, -5.0⟩, "plastic", 2.0, 2.0, (some "plastic"), Primitive.cylinder⟩,
    ⟨⟨7.0, 4.0, 1.0⟩, 0.0, 0.0, 0.0, ⟨5.0, 6.0, -3.0⟩, "metal", 1.0, 1.0, (some "plastic"), Primitive.box⟩,
    ⟨⟨18.0, 0.15, 4.5⟩, 0.0, 0.0, 0.0, ⟨0.5, 1.0, -0.10⟩, "fabric", 0.5, 0.5, none, Primitive.box⟩,
    ⟨⟨6.0, 1.0, 2.0⟩, 0.0, 0.0, 0.0, ⟨-2.0, 1.0, -0.25⟩, "keyboard", 1.0, 1.0, none, Primitive.box⟩,
    ⟨⟨6.0, 1.0, 0.25⟩, 0.0, 0.0, 0.0, ⟨-2.0, 1.1, 0.65⟩, "plastic", 1.0, 1.0, none, Primitive.box⟩,
    ⟨⟨6.0, 1.0, 0.25⟩, 0.0, 0.0, 0.0, ⟨-2.0, 1.1, -1.25⟩, "plastic", 1.0, 1.0, none, Primitive.box⟩,
    ⟨⟨0.25, 0.75, 2.0⟩, 0.0, 0.0, 0.0, ⟨-5.0, 1.23, -0.25⟩, "plastic", 1.0, 1.0, none, Primitive.box⟩,
    ⟨⟨0.25, 0.75, 2.0⟩, 0.0, 0.0, 0.0, ⟨1.0, 1.23, -0.25⟩, "plastic", 1.0, 1.0, none, Primitive.box⟩,
    ⟨⟨0.50, 0.60, 1.0⟩, 0.0, 0.0, 0.0, ⟨4.0, 1.0, -0.25⟩, "mouse", 1.0, 1.0, none, Primitive.sphere⟩,
    ⟨⟨0.75, 0.30, 0.75⟩, 0.0, 0.0, 0.0, ⟨-8.0, 0.85, 4.0⟩, "silver", 0.5, 0.5, none, Primitive.cylinder⟩,
    ⟨⟨0.75, 4.0, 0.75⟩, 0.0, 0.0, 0.0, ⟨-8.0, 1.20, 4.0⟩, "bottle", 1.0, 1.0, none, Primitive.cylinder⟩,
    ⟨⟨0.55, 0.55, 0.55⟩, 90.0, 90.0, 0.0, ⟨-8.0, 5.25, 4.0⟩, "silver", 0.5, 0.5, none, Primitive.torus⟩,
    ⟨⟨0.50, 0.50, 0.50⟩, 0.0, 0.0, 0.0, ⟨-8.0, 5.20, 4.0⟩, "silver", 0.5, 0.5, none, Primitive.cylinder⟩,
    ⟨⟨0.40, 0.40, 0.50⟩, 0.0, 0.0, 0.0, ⟨-8.0, 5.75, 4.0⟩, "silver", 0.5, 0.5, none, Primitive.torus⟩,
    ⟨⟨1.5, 10.0, 1.5⟩, 0.0, 0.0, 0.0, ⟨-8.0, -5.5, -4.0⟩, "wood", 1.0, 1.0, none, Primitive.box⟩,
    ⟨⟨1.5, 10.0, 1.5⟩, 0.0, 0.0, 0.0, ⟨8.0, -5.5, 4.0⟩, "wood", 1.0, 1.0, none, Primitive.box⟩,
    ⟨⟨1.5, 10.0, 1.5⟩, 0.0, 0.0, 0.0, ⟨8.0, -5.5, -4.0⟩, "wood", 1.0, 1.0, none, Primitive.box⟩,
    ⟨⟨1.5, 10.0, 1.5⟩, 0.0, 0.0, 0.0, ⟨-8.0, -5.5, 4.0⟩, "wood", 1.0, 1.0, none, Primitive.box⟩
  ]

/-- The function `SetupSceneLights`; the shader manager is used without a null
check. -/
def SetupSceneLights (F : Numerics α) (sm : SceneManager α) : Except Fault (SceneManager α) :=
  match sm.m_pShaderManager with
  | none => Except.error Fault.nullPointer
  | some sh =>
    let sh := sh.setBoolValue g_UseLightingName true
    let sh := sh.setVec3Value "directionalLight.direction" ⟨-0.3, -0.4, -0.5⟩
    let sh := sh.setVec3Value "directionalLight.ambient" ⟨0.3, 0.3, 0.3⟩
    let sh := sh.setVec3Value "directionalLight.diffuse" ⟨0.6, 0.6, 0.6⟩
    let sh := sh.setVec3Value "directionalLight.specular" ⟨0.9, 0.9, 0.9⟩
    let sh := sh.setBoolValue "directionalLight.bActive" true
    let sh := sh.setVec3Value "spotLight.ambient" ⟨0.1, 0.1, 0.1⟩
    let sh := sh.setVec3Value "spotLight.diffuse" ⟨1.2, 1.2, 1.2⟩
    let sh := sh.setVec3Value "spotLight.specular" ⟨1.5, 1.5, 1.5⟩
    let sh := sh.setFloatValue "spotLight.constant" 1.0
    let sh := sh.setFloatValue "spotLight.linear" 0.07
    let sh := sh.setFloatValue "spotLight.quadratic" 0.017
    let sh := sh.setFloatValue "spotLight.cutOff" (F.cos (glm.radians F 18.0))
    let sh := sh.setFloatValue "spotLight.outerCutOff" (F.cos (glm.radians F 25.0))
    let sh := sh.setBoolValue "spotLight.bActive" true
    let sh := sh.setVec3Value "pointLight.position" ⟨0.0, 10.0, 0.0⟩
    let sh := sh.setVec3Value "pointLight.ambient" ⟨0.2, 0.2, 0.2⟩
    let sh := sh.setVec3Value "pointLight.diffuse" ⟨1.0, 0.9, 0.8⟩
    let sh := sh.setVec3Value "pointLight.specular" ⟨1.3, 1.3, 1.3⟩
    let sh := sh.setFloatValue "pointLight.constant" 1.0
    let sh := sh.setFloatValue "pointLight.linear" 0.045
    let sh := sh.setFloatValue "pointLight.quadratic" 0.0075
    let sh := sh.setBoolValue "pointLight.bActive" true
    Except.ok { sm with m_pShaderManager := some sh }

end SceneManager

/-! ## The view manager

`ViewManager.cpp` keeps the camera and the frame and mouse bookkeeping in
file-scope variables; the model gathers them, with the two data members of
the class that matter here, in one structure. A conversion from `double` to
`float` is the function `narrow` of the environment; a conversion from `float`
to `double` is exact. -/

/-- Modelled from the spec: the class `Camera` (`camera.h` is not among the
sources). The fields are the camera state of the specification; `Position`,
`Front`, `Up`, `Zoom` and `MovementSpeed` are the members `ViewManager.cpp`
reads and writes. -/
structure Camera (α : Type) where
  Position : glm.vec3 α
  Front : glm.vec3 α
  Up : glm.vec3 α
  Yaw : α
  Pitch : α
  Zoom : α
  MovementSpeed : α
deriving DecidableEq, Repr

/-- The enumeration `Camera_Movement` of the camera class. -/
inductive Camera_Movement where
  | FORWARD
  | BACKWARD
  | LEFT
  | RIGHT
  | UP
  | DOWN
deriving DecidableEq, Repr

/-- The member functions of the class `Camera` that the view manager calls.
Their code is not among the sources, so they are parameters of the model. -/
structure CameraClass (α : Type) where
  /-- The default constructor `Camera()`. -/
  construct : Camera α
  ProcessKeyboard : Camera α → Camera_Movement → α → Camera α
  ProcessMouseMovement : Camera α → α → α → Camera α
  ProcessMouseScroll : Camera α → α → Camera α
  GetViewMatrix : Camera α → glm.mat4 α

/-- What the view manager takes from outside: the camera class, the numeric
library, the tangent, and the conversion from `double` to `float`. -/
structure ViewEnv (α : Type) where
  camera : CameraClass α
  numerics : Numerics α
  tan : α → α
  narrow : α → α

/-- The answers of `glfwGetKey` for the keys `ProcessKeyboardEvents` asks about:
true for `GLFW_PRESS`. -/
structure Keys where
  ESCAPE : Bool
  W : Bool
  S : Bool
  A : Bool
  D : Bool
  Q : Bool
  E : Bool
  O : Bool
  P : Bool
deriving DecidableEq, Repr

/-- No key is pressed. -/
def Keys.none : Keys :=
  ⟨false, false, false, false, false, false, false, false, false⟩

/-- The constant `WINDOW_WIDTH`. -/
def WINDOW_WIDTH : Int := 1000

/-- The constant `WINDOW_HEIGHT`. -/
def WINDOW_HEIGHT : Int := 800

/-- The uniform name `g_ViewName`. -/
def g_ViewName : String := "view"

/-- The uniform name `g_ProjectionName`. -/
def g_ProjectionName : String := "projection"

/-- The state of the view manager: the data member `m_pShaderManager`, the
close flag of the window `m_pWindow`, and the file-scope variables. -/
structure ViewManager (α : Type) where
  m_pShaderManager : Option (ShaderManager α)
  windowShouldClose : Bool
  g_pCamera : Option (Camera α)
  gLastX : α
  gLastY : α
  gFirstMouse : Bool
  gDeltaTime : α
  gLastFrame : α
  bOrthographicProjection : Bool

namespace glm

variable {α : Type} [Field α]

/-- The function `glm::perspective(fovy, aspect, zNear, zFar)` (right-handed,
depth range -1 to 1). -/
def perspective (tan : α → α) (fovy aspect zNear zFar : α) : mat4 α :=
  let tanHalfFovy := tan (fovy / 2)
  { c0 := ⟨1 / (aspect * tanHalfFovy), 0, 0, 0⟩
    c1 := ⟨0, 1 / tanHalfFovy, 0, 0⟩
    c2 := ⟨0, 0, -(zFar + zNear) / (zFar - zNear), -1⟩
    c3 := ⟨0, 0, -(2 * zFar * zNear) / (zFar - zNear), 0⟩ }

/-- The function `glm::ortho(left, right, bottom, top, zNear, zFar)`
(right-handed, depth range -1 to 1). -/
def ortho (left right bottom top zNear zFar : α) : mat4 α :=
  { c0 := ⟨2 / (right - left), 0, 0, 0⟩
    c1 := ⟨0, 2 / (top - bottom), 0, 0⟩
    c2 := ⟨0, 0, -2 / (zFar - zNear), 0⟩
    c3 := ⟨-(right + left) / (right - left), -(top + bottom) / (top - bottom),
      -(zFar + zNear) / (zFar - zNear), 1⟩ }

end glm

namespace ViewManager

variable {α : Type} [Field α]

/-- The constructor, with the file-scope variables at their initial values. -/
def new (env : ViewEnv α) (pShaderManager : Option (ShaderManager α)) : ViewManager α :=
  { m_pShaderManager := pShaderManager
    windowShouldClose := false
    g_pCamera :=
      some { env.camera.construct with
        Position := ⟨0.0, 5.0, 12.0⟩
        Front := ⟨0.0, -0.5, -2.0⟩
        Up := ⟨0.0, 1.0, 0.0⟩
        Zoom := 80
        MovementSpeed := 20 }
    gLastX := (WINDOW_WIDTH : α) / 2.0
    gLastY := (WINDOW_HEIGHT : α) / 2.0
    gFirstMouse := true
    gDeltaTime := 0.0
    gLastFrame := 0.0
    bOrthographicProjection := false }

/-- The local variables of `Mouse_Position_Callback` before the camera is
called: the state with the remembered position updated, `xOffset` and
`yOffset`. -/
def Mouse_Position_Callback.locals (env : ViewEnv α) (vm : ViewManager α)
    (xMousePos yMousePos : α) : ViewManager α × α × α :=
  let vm1 : ViewManager α :=
    if vm.gFirstMouse then
      { vm with
        gLastX := env.narrow xMousePos
        gLastY := env.narrow yMousePos
        gFirstMouse := false }
    else vm
  let xOffset := env.narrow (xMousePos - vm1.gLastX)
  let yOffset := env.narrow (vm1.gLastY - yMousePos)
  ({ vm1 with gLastX := env.narrow xMousePos, gLastY := env.narrow yMousePos },
    xOffset, yOffset)

/-- The function `Mouse_Position_Callback`; the camera pointer is used without
a null check. -/
def Mouse_Position_Callback (env : ViewEnv α) (vm : ViewManager α) (xMousePos yMousePos : α) :
    Except Fault (ViewManager α) :=
  match Mouse_Position_Callback.locals env vm xMousePos yMousePos with
  | (vm1, xOffset, yOffset) =>
    match vm1.g_pCamera with
    | none => Except.error Fault.nullPointer
    | some cam =>
      Except.ok { vm1 with g_pCamera := some (env.camera.ProcessMouseMovement cam xOffset yOffset) }

/-- The function `Mouse_Scroll_Wheel_Callback`; the camera pointer is used
without a null check. -/
def Mouse_Scroll_Wheel_Callback (env : ViewEnv α) (vm : ViewManager α)
    (yScrollDistance : α) : Except Fault (ViewManager α) :=
  match vm.g_pCamera with
  | none => Except.error Fault.nullPointer
  | some cam =>
    Except.ok { vm with g_pCamera := some (env.camera.ProcessMouseScroll cam yScrollDistance) }

/-- A mutation of the camera object through the pointer `g_pCamera`. -/
def onCamera (vm : ViewManager α) (f : Camera α → Camera α) : ViewManager α :=
  { vm with g_pCamera := vm.g_pCamera.map f }

/-- The six movement statements of `ProcessKeyboardEvents`, as the change they
make to the camera object. -/
def ProcessKeyboardEvents.movement (env : ViewEnv α) (gDeltaTime : α) (keys : Keys)
    (cam : Camera α) : Camera α :=
  let cam := if keys.W then
    env.camera.ProcessKeyboard cam Camera_Movement.FORWARD gDeltaTime else cam
  let cam := if keys.S then
    env.camera.ProcessKeyboard cam Camera_Movement.BACKWARD gDeltaTime else cam
  let cam := if keys.A then
    env.camera.ProcessKeyboard cam Camera_Movement.LEFT gDeltaTime else cam
  let cam := if keys.D then
    env.camera.ProcessKeyboard cam Camera_Movement.RIGHT gDeltaTime else cam
  let cam := if keys.Q then
    env.camera.ProcessKeyboard cam Camera_Movement.UP gDeltaTime else cam
  let cam := if keys.E then
    env.camera.ProcessKeyboard cam Camera_Movement.DOWN gDeltaTime else cam
  cam

/-- The function `ProcessKeyboardEvents`. -/
def ProcessKeyboardEvents (env : ViewEnv α) (vm : ViewManager α) (keys : Keys) :
    ViewManager α :=
  let vm : ViewManager α :=
    if keys.ESCAPE then { vm with windowShouldClose := true } else vm
  match vm.g_pCamera with
  | none => vm
  | some cam =>
    let vm : ViewManager α :=
      { vm with g_pCamera := some (ProcessKeyboardEvents.movement env vm.gDeltaTime keys cam) }
    let vm : ViewManager α :=
      if keys.O then
        { vm.onCamera fun cam =>
            { cam with
              Position := ⟨-5.0, 5.0, 10.0⟩
              Front := ⟨0.0, 0.0, -1.0⟩
              Up := ⟨0.0, 1.0, 0.0⟩ }
          with bOrthographicProjection := true }
      else vm
    let vm : ViewManager α :=
      if keys.P then
        { vm.onCamera fun cam =>
            { cam with
              Position := ⟨0.0, 5.5, 8.0⟩
              Front := ⟨0.0, -0.5, -2.0⟩
              Up := ⟨0.0, 1.0, 0.0⟩
              Zoom := 125 }
          with bOrthographicProjection := false }
      else vm
    vm

/-- The local variable `projection` of `PrepareSceneView`. The `float` product
`5.0f * (float)scale` is the rounding of the exact product, as IEEE 754
prescribes for a single multiplication. -/
def PrepareSceneView.projection (env : ViewEnv α) (bOrthographicProjection : Bool)
    (cam : Camera α) : glm.mat4 α :=
  if !bOrthographicProjection then
    glm.perspective env.tan (glm.radians env.numerics cam.Zoom)
      ((WINDOW_WIDTH : α) / (WINDOW_HEIGHT : α)) 0.1 100.0
  else
    if WINDOW_WIDTH > WINDOW_HEIGHT then
      let scale : α := (WINDOW_HEIGHT : α) / (WINDOW_WIDTH : α)
      glm.ortho (-5.0) 5.0 (env.narrow (-5.0 * env.narrow scale))
        (env.narrow (5.0 * env.narrow scale)) 0.1 100.0
    else if WINDOW_WIDTH < WINDOW_HEIGHT then
      let scale : α := (WINDOW_WIDTH : α) / (WINDOW_HEIGHT : α)
      glm.ortho (env.narrow (-5.0 * env.narrow scale)) (env.narrow (5.0 * env.narrow scale))
        (-5.0) 5.0 0.1 100.0
    else
      glm.ortho 0.0 0.0 0.0 0.0 0.1 100.0

/-- The function `PrepareSceneView`; `time` is what `glfwGetTime` returns. The
camera pointer is used without a null check. -/
def PrepareSceneView (env : ViewEnv α) (vm : ViewManager α) (time : α) (keys : Keys) :
    Except Fault (ViewManager α) :=
  let currentFrame := env.narrow time
  let vm : ViewManager α :=
    { vm with gDeltaTime := currentFrame - vm.gLastFrame, gLastFrame := currentFrame }
  let vm := vm.ProcessKeyboardEvents env keys
  match vm.g_pCamera with
  | none => Except.error Fault.nullPointer
  | some cam =>
    let view := env.camera.GetViewMatrix cam
    let projection := PrepareSceneView.projection env vm.bOrthographicProjection cam
    match vm.m_pShaderManager with
    | some sh =>
      Except.ok
        { vm with
          m_pShaderManager :=
            some (((((sh.setMat4Value g_ViewName view
              ).setMat4Value g_ProjectionName projection
              ).setVec3Value "viewPosition" cam.Position
              ).setVec3Value "spotLight.position" cam.Position
              ).setVec3Value "spotLight.direction" cam.Front) }
    | none => Except.ok vm

end ViewManager

/-! ## The encryption activity

`CS405EncryptionActivity.cpp`: a `std::string` is the list of its bytes, a
`char` being a number below 256; the file system is a function from file
names to contents, `none` for a file that cannot be opened. -/

namespace Encryption

/-- The type `char`, as its 8-bit pattern. -/
abbrev Byte := Fin 256

/-- The expression `a ^ b` on two `char`, converted back to `char`. -/
def xor (a b : Byte) : Byte :=
  ⟨(a.val ^^^ b.val) % 256, Nat.mod_lt _ (by decide)⟩

/-- The `for` loop of `encrypt_decrypt`, with the loop variable `i` and the
local `output` as arguments. -/
def encrypt_decrypt.loop (source key : List Byte) :
    Nat → Nat → List Byte → Except Fault (List Byte)
  | 0, i, output =>
    if i < source.length then Except.error Fault.outOfFuel else Except.ok output
  | fuel + 1, i, output =>
    if i < source.length then
      match source.get? i, key.get? (i % key.length) with
      | some s, some k =>
        if i < output.length then
          encrypt_decrypt.loop source key fuel (i + 1) (output.set i (xor s k))
        else Except.error Fault.outOfBounds
      | _, _ => Except.error Fault.outOfBounds
    else Except.ok output

/-- The function `encrypt_decrypt` of the enhanced activity. -/
def encrypt_decrypt (source key : List Byte) : Except Fault (List Byte) :=
  if key.length > 0 ∧ source.length > 0 then
    encrypt_decrypt.loop source key source.length 0 source
  else
    Except.error Fault.assertionFailed

/-- The function `encrypt_decrypt` of the original activity: two entry
assertions, the same loop, and the assertion on the output length. -/
def Original.encrypt_decrypt (source key : List Byte) : Except Fault (List Byte) :=
  if key.length > 0 then
    if source.length > 0 then
      match encrypt_decrypt.loop source key source.length 0 source with
      | Except.error e => Except.error e
      | Except.ok output =>
        if output.length = source.length then Except.ok output
        else Except.error Fault.assertionFailed
    else Except.error Fault.assertionFailed
  else Except.error Fault.assertionFailed

/-- The function `read_file` of the enhanced activity: the content of the
file, or the empty string if it cannot be opened. -/
def read_file (fs : String → Option (List Byte)) (filename : String) : List Byte :=
  match fs filename with
  | none => []
  | some content => content

/-- The function `compare_files`. -/
def compare_files (fs : String → Option (List Byte)) (file1 file2 : String) : Bool :=
  let content1 := read_file fs file1
  let content2 := read_file fs file2
  if content1.isEmpty || content2.isEmpty then false
  else if content1 = content2 then true
  else false

end Encryption

/-! ## OpenGL texture names and the teardown of the texture registry -/

/-- The texture names that OpenGL holds as generated and not deleted. -/
structure GLState where
  liveTextures : List Nat
deriving DecidableEq, Repr

/-- The call `glGenTextures(1, &name)`: OpenGL hands out a name that is not in
use and marks it as used; the model takes the number after the largest live
name. -/
def GLState.glGenTextures (gl : GLState) : Nat × GLState :=
  let name := gl.liveTextures.foldl max 0 + 1
  (name, ⟨gl.liveTextures ++ [name]⟩)

namespace SceneManager

variable {α : Type}

/-- The loop of `DestroyGLTextures`, with the loop variable `i` as argument. -/
def DestroyGLTextures.loop :
    Nat → Nat → SceneManager α → GLState → Except Fault (SceneManager α × GLState)
  | 0, i, sm, gl =>
    if (i : Int) < sm.m_loadedTextures then Except.error Fault.outOfFuel
    else Except.ok (sm, gl)
  | fuel + 1, i, sm, gl =>
    if (i : Int) < sm.m_loadedTextures then
      if h : i < 16 then
        -- `glGenTextures(1, &m_textureIDs[i].ID)`
        let generated := gl.glGenTextures
        DestroyGLTextures.loop fuel (i + 1)
          { sm with
            m_textureIDs :=
              Function.update sm.m_textureIDs ⟨i, h⟩
                { sm.m_textureIDs ⟨i, h⟩ with ID := generated.1 } }
          generated.2
      else Except.error Fault.outOfBounds
    else Except.ok (sm, gl)

/-- The function `DestroyGLTextures`, which the destructor calls. -/
def DestroyGLTextures (sm : SceneManager α) (gl : GLState) :
    Except Fault (SceneManager α × GLState) :=
  DestroyGLTextures.loop sm.m_loadedTextures.toNat 0 sm gl

/-- The file names and tags of the six `CreateGLTexture` calls of
`LoadSceneTextures` in the original project, in source order. -/
def Original.LoadSceneTextures.files : List (String × String) :=
  [("textures/oakwood.jpg", "wood"),
   ("textures/silver.jpg", "silver"),
   ("textures/blackmedal.jpg", "metal"),
   ("textures/wall.jpg", "wall"),
   ("textures/cloth.jpg", "cloth"),
   ("textures/white.jpg", "white")]

/-- The six calls of the original `LoadSceneTextures` with the answers of the
environment. -/
def Original.LoadSceneTextures.calls (env : TextureEnv) : List TextureCall :=
  (List.range Original.LoadSceneTextures.files.length).zipWith
    (fun k ft => ⟨env.stbi_load ft.1, env.glGenTextures k, ft.2⟩)
    Original.LoadSceneTextures.files

/-- The function `LoadSceneTextures` of the original project. -/
def Original.LoadSceneTextures (sm : SceneManager α) (env : TextureEnv) :
    Except Fault (SceneManager α) :=
  match CreateGLTexture.seq sm (Original.LoadSceneTextures.calls env) with
  | Except.error e => Except.error e
  | Except.ok (_, sm1) => Except.ok sm1

/-- The values written to the sampler uniform "objectTexture", in order. -/
def samplerWrites (sh : ShaderManager α) : List Int :=
  sh.writes.filterMap fun w =>
    match w.2 with
    | UniformValue.sampler2D slot => if w.1 = g_TextureValueName then some slot else none
    | _ => none

end SceneManager

/-! ## Program start and exit code -/

/-- The answers of the environment at program start: whether `glfwInit`,
`glfwCreateWindow`, `glewInit` and the shader load succeed, the shader manager
as `LoadShaders` and `use` leave it, and the answers to the texture loads. -/
structure StartupEnv (α : Type) where
  glfwInit : Bool
  glfwCreateWindow : Bool
  glewInit : Bool
  LoadShaders : Bool
  shaderManager : ShaderManager α
  textures : SceneManager.TextureEnv

/-- The exit code `EXIT_SUCCESS`. -/
def EXIT_SUCCESS : Int := 0

/-- The exit code `EXIT_FAILURE`. -/
def EXIT_FAILURE : Int := 1

namespace Application

variable {α : Type}

/-- The function `InitializeGLFW`. -/
def InitializeGLFW (env : StartupEnv α) : Bool :=
  if !env.glfwInit then false else true

/-- The function `InitializeGLEW`. -/
def InitializeGLEW (env : StartupEnv α) : Bool :=
  if !env.glewInit then false else true

/-- The function `ViewManager::CreateDisplayWindow`, as far as its result goes:
whether the returned window pointer is non-null. -/
def CreateDisplayWindow (env : StartupEnv α) : Bool :=
  if !env.glfwCreateWindow then false else true

/-- The function `Application::Initialize`: its `bool` result, the member
`window` (whether it is non-null) and the scene manager. The results of
`CreateDisplayWindow` and of `LoadShaders` are not tested. -/
def Initialize (env : StartupEnv α) : Except Fault (Bool × Bool × Option (SceneManager α)) :=
  if !InitializeGLFW env then Except.ok (false, false, none)
  else
    let window := CreateDisplayWindow env
    if !InitializeGLEW env then Except.ok (false, window, none)
    else
      -- `shaderManager->LoadShaders(...)`, result dropped; `shaderManager->use()`
      match (SceneManager.new (some env.shaderManager)).PrepareScene env.textures with
      | Except.error e => Except.error e
      | Except.ok sceneManager => Except.ok (true, window, some sceneManager)

/-- The function `main`: the exit code with which the process ends, `Run`
having returned when the window was asked to close. -/
def main (env : StartupEnv α) : Except Fault Int :=
  match Initialize env with
  | Except.error e => Except.error e
  | Except.ok (false, _, _) => Except.ok EXIT_FAILURE
  | Except.ok (true, _, _) => Except.ok EXIT_SUCCESS

end Application

namespace ViewManager

variable {α : Type} [Field α]

/-- A sequence of `Mouse_Position_Callback` calls, as far as the remembered
position goes: the offsets handed to the camera, in call order, and the state
after the last call. -/
def Mouse_Position_Callback.offsets (env : ViewEnv α) :
    ViewManager α → List (α × α) → List (α × α) × ViewManager α
  | vm, [] => ([], vm)
  | vm, (x, y) :: samples =>
    let step := Mouse_Position_Callback.locals env vm x y
    let rest := Mouse_Position_Callback.offsets env step.1 samples
    ((step.2.1, step.2.2) :: rest.1, rest.2)

end ViewManager

/-- The texture tag a `SetShaderTexture` call statement passes; `none` for the
other calls. -/
def SceneManager.Call.textureTag? {α : Type} : SceneManager.Call α → Option String
  | SceneManager.Call.SetShaderTexture t => some t
  | _ => none

namespace ViewManager

variable {α : Type} [Field α]

/-- The calls of `Mouse_Position_Callback` that a sequence of mouse samples
causes, one after the other. -/
def Mouse_Position_Callback.run (env : ViewEnv α) :
    ViewManager α → List (α × α) → Except Fault (ViewManager α)
  | vm, [] => Except.ok vm
  | vm, (x, y) :: samples =>
    match vm.Mouse_Position_Callback env x y with
    | Except.error e => Except.error e
    | Except.ok vm1 => Mouse_Position_Callback.run env vm1 samples

end ViewManager

/-! ## The calls a run of `RenderScene` issues -/

namespace SceneManager

variable {α : Type} [Field α]

/-- A primitive draw as `ShapeMeshes` receives it: the primitive, and the
shader manager as it stands when the draw is made (`none` for a null
pointer). -/
structure DrawEvent (α : Type) where
  primitive : Primitive
  shader : Option (ShaderManager α)

/-- What a run of call statements leaves behind: the calls issued, in order,
the draws made, in order, and the result of the run. -/
structure RenderTrace (α : Type) where
  issued : List (Call α)
  draws : List (DrawEvent α)
  result : Except Fault (SceneManager α)

/-- The draw a call statement makes on the given state, if it is a draw call. -/
def Call.drawEvent? (sm : SceneManager α) (c : Call α) : Option (DrawEvent α) :=
  c.primitive?.map fun p => ⟨p, sm.m_pShaderManager⟩

/-- A sequence of call statements run in order, with the record of what was
issued: a call that faults is the last one issued, and the statements after
it are not reached. -/
def Call.runAll (F : Numerics α) (uninitialised : OBJECT_MATERIAL α) :
    SceneManager α → List (Call α) → RenderTrace α
  | sm, [] => ⟨[], [], Except.ok sm⟩
  | sm, c :: cs =>
    match Call.exec F uninitialised sm c with
    | Except.error e => ⟨[c], [], Except.error e⟩
    | Except.ok sm1 =>
      let rest := Call.runAll F uninitialised sm1 cs
      ⟨c :: rest.issued, (c.drawEvent? sm).toList ++ rest.draws, rest.result⟩

/-- One call of `RenderScene`, with the record of the calls it issues. -/
def RenderScene.run (F : Numerics α) (uninitialised : OBJECT_MATERIAL α)
    (sm : SceneManager α) : RenderTrace α :=
  Call.runAll F uninitialised sm RenderScene.calls

/-- The draw event shows the scene object: it draws the object's primitive
with a shader in which "model" is the object's model matrix, texturing is
switched on, the sampler holds the slot that the object's texture tag resolves
to in the registry of `sm`, and "UVscale" is the object's. -/
def SceneObject.DrawnAs (F : Numerics α) (sm : SceneManager α) (o : SceneObject α)
    (d : DrawEvent α) : Prop :=
  d.primitive = o.primitive
  ∧ ∃ (sh : ShaderManager α) (slot : Int),
    d.shader = some sh
    ∧ sm.FindTextureSlot o.textureTag = Except.ok slot
    ∧ sh.value? g_ModelName
      = some (UniformValue.mat4 (SetTransformations.modelView F o.scaleXYZ o.XrotationDegrees
          o.YrotationDegrees o.ZrotationDegrees o.positionXYZ))
    ∧ sh.value? g_UseTextureName = some (UniformValue.int 1)
    ∧ sh.value? g_TextureValueName = some (UniformValue.sampler2D slot)
    ∧ sh.value? "UVscale" = some (UniformValue.vec2 o.u o.v)

end SceneManager

/-! ## Concrete registries -/

/-- A registry with two loaded textures, as two successful calls leave it. -/
def SceneManager.twoLoaded : SceneManager ℚ :=
  { m_pShaderManager := none
    m_loadedTextures := 2
    m_textureIDs := fun i => if i.val = 0 then ⟨"wood", 1⟩ else if i.val = 1 then ⟨"metal", 2⟩
      else ⟨"/0", 4294967295⟩
    m_objectMaterials := [] }

/-- Four calls: an RGB image, an unreadable file, a two-channel image and an
RGBA image. -/
def SceneManager.sampleCalls : List SceneManager.TextureCall :=
  [⟨some ⟨8, 8, 3⟩, 1, "wood"⟩, ⟨none, 0, "missing"⟩, ⟨some ⟨8, 8, 2⟩, 2, "grey"⟩,
   ⟨some ⟨8, 8, 4⟩, 3, "metal"⟩]

/-- Two calls with readable RGB images and the same tag. -/
def SceneManager.repeatedTagCalls : List SceneManager.TextureCall :=
  [⟨some ⟨8, 8, 3⟩, 1, "wood"⟩, ⟨some ⟨8, 8, 3⟩, 2, "wood"⟩]

/-- Sixteen calls with readable RGB images, texture names `1 .. 16` and the
tags "a" to "p". -/
def SceneManager.sixteenCalls : List SceneManager.TextureCall :=
  (List.range 16).map fun k => ⟨some ⟨64, 64, 3⟩, k + 1, String.singleton (Char.ofNat (97 + k))⟩

/-- The material "wood" of `DefineObjectMaterials`, with an ambient part. -/
def SceneManager.woodMaterial : OBJECT_MATERIAL ℚ :=
  { ambientStrength := 1 / 5
    ambientColor := ⟨2 / 5, 3 / 10, 1 / 10⟩
    diffuseColor := ⟨3 / 5, 3 / 5, 2 / 5⟩
    specularColor := ⟨3 / 5, 3 / 5, 3 / 5⟩
    shininess := 5
    tag := "wood" }

/-- A second material carrying the tag "wood", with other coefficients. -/
def SceneManager.darkWoodMaterial : OBJECT_MATERIAL ℚ :=
  { ambientStrength := 1 / 10
    ambientColor := ⟨1 / 5, 1 / 10, 0⟩
    diffuseColor := ⟨3 / 10, 1 / 5, 1 / 10⟩
    specularColor := ⟨1 / 10, 1 / 10, 1 / 10⟩
    shininess := 2
    tag := "wood" }

/-- The material "silver" of `DefineObjectMaterials`, with an ambient part. -/
def SceneManager.silverMaterial : OBJECT_MATERIAL ℚ :=
  { ambientStrength := 3 / 10
    ambientColor := ⟨1 / 5, 1 / 5, 1 / 5⟩
    diffuseColor := ⟨3 / 5, 3 / 5, 2 / 5⟩
    specularColor := ⟨3 / 5, 3 / 5, 3 / 5⟩
    shininess := 52
    tag := "silver" }

/-- The caller's material before a lookup. -/
def SceneManager.blankMaterial : OBJECT_MATERIAL ℚ :=
  { ambientStrength := 0
    ambientColor := ⟨0, 0, 0⟩
    diffuseColor := ⟨0, 0, 0⟩
    specularColor := ⟨0, 0, 0⟩
    shininess := 0
    tag := "" }

/-- A scene manager with the materials "silver", "wood" and a second "wood". -/
def SceneManager.threeMaterials : SceneManager ℚ :=
  (((SceneManager.new none).defineMaterial SceneManager.silverMaterial).defineMaterial
    SceneManager.woodMaterial).defineMaterial SceneManager.darkWoodMaterial

/-- The scene manager `threeMaterials` with a shader manager that has received
no write yet. -/
def SceneManager.threeMaterialsWithShader : SceneManager ℚ :=
  { SceneManager.threeMaterials with m_pShaderManager := some ⟨[]⟩ }

/-- An environment in which every image file is readable as a 64 by 64 RGB
image and the `k`-th call gets the texture name `k + 1`. -/
def SceneManager.allReadable : SceneManager.TextureEnv :=
  { stbi_load := fun _ => some ⟨64, 64, 3⟩
    glGenTextures := fun k => k + 1 }

/-! ## Concrete view managers -/

/-- The loop of `floorLog2`: the number of halvings that bring `n` below 2. -/
def floorLog2.loop : Nat → Nat → Nat
  | 0, _ => 0
  | fuel + 1, n => if n < 2 then 0 else floorLog2.loop fuel (n / 2) + 1

/-- The integer part of the binary logarithm of a positive number. -/
def floorLog2 (n : Nat) : Nat :=
  floorLog2.loop n n

/-- The conversion from `double` to `float` on the rationals: rounding to the
nearest number with a 24-bit significand, ties to the even significand, as
IEEE 754 prescribes for binary32. The exponent range is not bounded, so
overflow and subnormal numbers are outside this function. -/
def binary32 (q : ℚ) : ℚ :=
  if q = 0 then 0
  else
    let e : Int :=
      if 1 ≤ |q| then (floorLog2 ⌊|q|⌋₊ : Int)
      else -((floorLog2 (⌈|q|⁻¹⌉₊ - 1) : Int) + 1)
    let ulp : ℚ := (2 : ℚ) ^ (e - 23)
    let s : ℚ := q / ulp
    let f : Int := ⌊s⌋
    let m : Int :=
      if s - f < 1 / 2 then f
      else if 1 / 2 < s - f then f + 1
      else if f % 2 = 0 then f
      else f + 1
    m * ulp

/-- A camera class on the rationals for evaluating the model: the keyboard
moves the position by `MovementSpeed * deltaTime` along `Front`, the cross
product of `Front` and `Up`, or `Up`; the mouse adds the offsets to `Yaw` and
`Pitch`; the scroll wheel lowers `Zoom`; the view matrix is the translation by
the negated position. -/
def CameraClass.rational : CameraClass ℚ where
  construct :=
    { Position := ⟨0, 0, 0⟩, Front := ⟨0, 0, -1⟩, Up := ⟨0, 1, 0⟩, Yaw := -90, Pitch := 0,
      Zoom := 45, MovementSpeed := 5 / 2 }
  ProcessKeyboard := fun cam direction deltaTime =>
    let velocity := cam.MovementSpeed * deltaTime
    let right : glm.vec3 ℚ :=
      ⟨cam.Front.y * cam.Up.z - cam.Front.z * cam.Up.y,
       cam.Front.z * cam.Up.x - cam.Front.x * cam.Up.z,
       cam.Front.x * cam.Up.y - cam.Front.y * cam.Up.x⟩
    let step : glm.vec3 ℚ :=
      match direction with
      | Camera_Movement.FORWARD => cam.Front
      | Camera_Movement.BACKWARD => ⟨-cam.Front.x, -cam.Front.y, -cam.Front.z⟩
      | Camera_Movement.LEFT => ⟨-right.x, -right.y, -right.z⟩
      | Camera_Movement.RIGHT => right
      | Camera_Movement.UP => cam.Up
      | Camera_Movement.DOWN => ⟨-cam.Up.x, -cam.Up.y, -cam.Up.z⟩
    { cam with
      Position :=
        ⟨cam.Position.x + step.x * velocity, cam.Position.y + step.y * velocity,
         cam.Position.z + step.z * velocity⟩ }
  ProcessMouseMovement := fun cam xOffset yOffset =>
    { cam with Yaw := cam.Yaw + xOffset / 10, Pitch := cam.Pitch + yOffset / 10 }
  ProcessMouseScroll := fun cam yOffset => { cam with Zoom := cam.Zoom - yOffset }
  GetViewMatrix := fun cam =>
    glm.translate ⟨-cam.Position.x, -cam.Position.y, -cam.Position.z⟩

/-- An environment on the rationals with exact conversions. -/
def ViewEnv.rational : ViewEnv ℚ where
  camera := CameraClass.rational
  numerics := Numerics.rational
  tan := fun x => x + x * x * x / 3
  narrow := fun x => x

/-- An environment on the rationals whose conversion to `float` rounds to
binary32. -/
def ViewEnv.rounding : ViewEnv ℚ :=
  { ViewEnv.rational with narrow := binary32 }

/-- The view manager after construction, with a shader manager that has
received no write. -/
def ViewManager.initial : ViewManager ℚ :=
  ViewManager.new ViewEnv.rational (some ⟨[]⟩)

/-- Only the key O is pressed. -/
def Keys.onlyO : Keys :=
  { Keys.none with O := true }

/-- Only the key P is pressed. -/
def Keys.onlyP : Keys :=
  { Keys.none with P := true }

/-- The camera of `ViewManager.initial`. -/
def Camera.initial : Camera ℚ :=
  { CameraClass.rational.construct with
    Position := ⟨0, 5, 12⟩, Front := ⟨0, -1 / 2, -2⟩, Up := ⟨0, 1, 0⟩, Zoom := 80,
    MovementSpeed := 20 }

/-- Only the key W is pressed. -/
def Keys.onlyW : Keys :=
  { Keys.none with W := true }

/-- The bytes of "Hello". -/
def Encryption.sampleSource : List Encryption.Byte := [72, 101, 108, 108, 111]

/-- The bytes of "ab", a key shorter than the sample source. -/
def Encryption.sampleKey : List Encryption.Byte := [97, 98]

/-- A file system with two empty files "a.txt" and "b.txt" and no other file. -/
def Encryption.twoEmptyFiles : String → Option (List Encryption.Byte) :=
  fun name => if name = "a.txt" ∨ name = "b.txt" then some [] else none

/-- A file system in which "a.txt" and "b.txt" both hold the sample source and
"c.txt" holds the sample key. -/
def Encryption.sampleFiles : String → Option (List Encryption.Byte) :=
  fun name =>
    if name = "a.txt" ∨ name = "b.txt" then some Encryption.sampleSource
    else if name = "c.txt" then some Encryption.sampleKey
    else none

/-- A start in which GLFW, the window and GLEW come up, the shader load fails
and every image file is readable. -/
def StartupEnv.shaderLoadFails : StartupEnv ℚ :=
  { glfwInit := true
    glfwCreateWindow := true
    glewInit := true
    LoadShaders := false
    shaderManager := ⟨[]⟩
    textures := SceneManager.allReadable }

/-- Every key is pressed. -/
def Keys.all : Keys :=
  ⟨true, true, true, true, true, true, true, true, true⟩

/-- Three mouse samples with integral coordinates. -/
def ViewManager.sampleMouse : List (ℚ × ℚ) :=
  [(520, 380), (500, 400)]

/-- The scene manager as `PrepareScene` leaves it when it is constructed with
a shader manager that has received no write and every image file is
readable. -/
def SceneManager.preparedScene : SceneManager ℚ :=
  match (SceneManager.new (some ⟨[]⟩)).PrepareScene SceneManager.allReadable with
  | Except.ok sm => sm
  | Except.error _ => SceneManager.new none

/-! ## The matrix a `mat4` stands for -/

section MatrixMeaning

variable {α : Type} [CommRing α]

theorem glm.vec4.add_def (a b : glm.vec4 α) : a + b = glm.vec4.add a b := rfl

theorem glm.mat4.mul_def (A B : glm.mat4 α) : A * B = glm.mat4.mul A B := rfl

/-- The column-major product of the library is the matrix product. -/
theorem glm.mat4.toMatrix_mul (A B : glm.mat4 α) :
    (A * B).toMatrix = A.toMatrix * B.toMatrix := by
  ext i j
  fin_cases i <;> fin_cases j <;> simp only [Matrix.mul_apply, Fin.sum_univ_four] <;> rfl

theorem glm.toMatrix_translate (p : glm.vec3 α) :
    (glm.translate p).toMatrix = Spec.Translate p := by
  ext i j
  fin_cases i <;> fin_cases j <;>
    simp [glm.mat4.toMatrix, glm.translate, glm.translateM, glm.mat4.identity, Spec.Translate,
      glm.mat4.col, glm.vec4.get, glm.vec4.scale, glm.vec4.add_def, glm.vec4.add,
      Matrix.vecHead, Matrix.vecTail]

theorem glm.toMatrix_scale (s : glm.vec3 α) :
    (glm.scale s).toMatrix = Spec.Scale s := by
  ext i j
  fin_cases i <;> fin_cases j <;>
    simp [glm.mat4.toMatrix, glm.scale, glm.scaleM, glm.mat4.identity, Spec.Scale,
      glm.mat4.col, glm.vec4.get, glm.vec4.scale, glm.vec4.add_def, glm.vec4.add,
      Matrix.vecHead, Matrix.vecTail]

theorem glm.toMatrix_rotate_x (F : Numerics α) (h : F.inversesqrt 1 = 1) (deg : α) :
    (glm.rotate F (glm.radians F deg) ⟨1, 0, 0⟩).toMatrix = Spec.RotateX F deg := by
  ext i j
  fin_cases i <;> fin_cases j <;>
    simp [glm.mat4.toMatrix, glm.rotate, glm.rotateM, glm.mat4.identity, Spec.RotateX,
      glm.mat4.col, glm.vec4.get, glm.vec4.scale, glm.vec4.add_def, glm.vec4.add,
      glm.normalize, glm.dot, glm.radians, h, Matrix.vecHead, Matrix.vecTail]

theorem glm.toMatrix_rotate_y (F : Numerics α) (h : F.inversesqrt 1 = 1) (deg : α) :
    (glm.rotate F (glm.radians F deg) ⟨0, 1, 0⟩).toMatrix = Spec.RotateY F deg := by
  ext i j
  fin_cases i <;> fin_cases j <;>
    simp [glm.mat4.toMatrix, glm.rotate, glm.rotateM, glm.mat4.identity, Spec.RotateY,
      glm.mat4.col, glm.vec4.get, glm.vec4.scale, glm.vec4.add_def, glm.vec4.add,
      glm.normalize, glm.dot, glm.radians, h, Matrix.vecHead, Matrix.vecTail]

theorem glm.toMatrix_rotate_z (F : Numerics α) (h : F.inversesqrt 1 = 1) (deg : α) :
    (glm.rotate F (glm.radians F deg) ⟨0, 0, 1⟩).toMatrix = Spec.RotateZ F deg := by
  ext i j
  fin_cases i <;> fin_cases j <;>
    simp [glm.mat4.toMatrix, glm.rotate, glm.rotateM, glm.mat4.identity, Spec.RotateZ,
      glm.mat4.col, glm.vec4.get, glm.vec4.scale, glm.vec4.add_def, glm.vec4.add,
      glm.normalize, glm.dot, glm.radians, h, Matrix.vecHead, Matrix.vecTail]

/-- With all three angles zero the model matrix scales, then translates. -/
theorem SceneManager.SetTransformations.modelView_zero_rotation (F : Numerics α)
    (hc : F.cos 0 = 1) (hs : F.sin 0 = 0) (hi : F.inversesqrt 1 = 1) (s t p : glm.vec3 α) :
    glm.transformPoint (SceneManager.SetTransformations.modelView F s 0 0 0 t) p
      = ⟨s.x * p.x + t.x, s.y * p.y + t.y, s.z * p.z + t.z⟩ := by
  simp [glm.transformPoint, SceneManager.SetTransformations.modelView, glm.mat4.mul_def,
    glm.mat4.mul, glm.mat4.mulVec, glm.translate, glm.translateM, glm.scale, glm.scaleM,
    glm.rotate, glm.rotateM, glm.mat4.identity, glm.vec4.scale, glm.vec4.add_def, glm.vec4.add,
    glm.normalize, glm.dot, glm.radians, hc, hs, hi]

end MatrixMeaning

/-! ## The transform builder -/

section TransformBuilder

variable {α : Type} [CommRing α]

/-- C1: with a non-null shader manager, `SetTransformations` appends exactly one
write to the shader, under the name "model"; its value is the library product
`translate(position) * rotate(z) * rotate(y) * rotate(x) * scale(scale)`,
bracketed from the left as C++ evaluates it, and the matrix this value stands
for is `Translate(position) * RotateZ(z) * RotateY(y) * RotateX(x) * Scale(scale)`. -/
theorem SceneManager.SetTransformations_pushes_composed_model (F : Numerics α)
    (hi : F.inversesqrt 1 = 1) (sm : SceneManager α) (sh : ShaderManager α)
    (hsh : sm.m_pShaderManager = some sh) (scaleXYZ : glm.vec3 α) (x y z : α)
    (positionXYZ : glm.vec3 α) :
    (sm.SetTransformations F scaleXYZ x y z positionXYZ).m_pShaderManager
        = some ⟨sh.writes ++ [("model", UniformValue.mat4
            ((((glm.translate positionXYZ * glm.rotate F (glm.radians F z) ⟨0, 0, 1⟩)
              * glm.rotate F (glm.radians F y) ⟨0, 1, 0⟩)
              * glm.rotate F (glm.radians F x) ⟨1, 0, 0⟩) * glm.scale scaleXYZ))]⟩
    ∧ ((((glm.translate positionXYZ * glm.rotate F (glm.radians F z) ⟨0, 0, 1⟩)
              * glm.rotate F (glm.radians F y) ⟨0, 1, 0⟩)
              * glm.rotate F (glm.radians F x) ⟨1, 0, 0⟩) * glm.scale scaleXYZ).toMatrix
        = Spec.Translate positionXYZ * Spec.RotateZ F z * Spec.RotateY F y * Spec.RotateX F x
            * Spec.Scale scaleXYZ := by
  refine ⟨?_, ?_⟩
  · simp [SceneManager.SetTransformations, hsh, ShaderManager.setMat4Value, g_ModelName,
      SceneManager.SetTransformations.modelView]
  · simp only [glm.mat4.toMatrix_mul, glm.toMatrix_translate, glm.toMatrix_scale,
      glm.toMatrix_rotate_x F hi, glm.toMatrix_rotate_y F hi, glm.toMatrix_rotate_z F hi]

/-- C2: with a non-null shader manager and all three angles zero, the matrix
that `SetTransformations` writes under "model" maps every point `(px, py, pz)`
to `(sx*px + tx, sy*py + ty, sz*pz + tz)`; for scale `(2,1,1)` and position
`(0,0,0)` it maps `(1,0,0)` to `(2,0,0)`. -/
theorem SceneManager.SetTransformations_zero_rotation_maps_point (F : Numerics α)
    (hc : F.cos 0 = 1) (hs : F.sin 0 = 0) (hi : F.inversesqrt 1 = 1)
    (sm : SceneManager α) (sh : ShaderManager α) (hsh : sm.m_pShaderManager = some sh) :
    (∀ s t p : glm.vec3 α, ∃ M : glm.mat4 α,
      (sm.SetTransformations F s 0 0 0 t).m_pShaderManager
          = some ⟨sh.writes ++ [("model", UniformValue.mat4 M)]⟩
        ∧ glm.transformPoint M p = ⟨s.x * p.x + t.x, s.y * p.y + t.y, s.z * p.z + t.z⟩)
    ∧ ∃ M : glm.mat4 α,
      (sm.SetTransformations F ⟨2, 1, 1⟩ 0 0 0 ⟨0, 0, 0⟩).m_pShaderManager
          = some ⟨sh.writes ++ [("model", UniformValue.mat4 M)]⟩
        ∧ glm.transformPoint M ⟨1, 0, 0⟩ = ⟨2, 0, 0⟩ := by
  have hpush : ∀ s t : glm.vec3 α,
      (sm.SetTransformations F s 0 0 0 t).m_pShaderManager
        = some ⟨sh.writes ++ [("model", UniformValue.mat4
            (SceneManager.SetTransformations.modelView F s 0 0 0 t))]⟩ := by
    intro s t
    simp [SceneManager.SetTransformations, hsh, ShaderManager.setMat4Value, g_ModelName]
  refine ⟨fun s t p => ⟨_, hpush s t, ?_⟩, ⟨_, hpush _ _, ?_⟩⟩
  · exact SceneManager.SetTransformations.modelView_zero_rotation F hc hs hi s t p
  · rw [SceneManager.SetTransformations.modelView_zero_rotation F hc hs hi]
    simp

/-- C1 at the rational instance: a fresh scene manager with an empty shader. -/
theorem SceneManager.SetTransformations_pushes_composed_model_witness :
    Numerics.rational.inversesqrt 1 = 1
    ∧ (SceneManager.new (some (⟨[]⟩ : ShaderManager ℚ))).m_pShaderManager = some ⟨[]⟩
    ∧ ((SceneManager.new (some (⟨[]⟩ : ShaderManager ℚ))).SetTransformations
          Numerics.rational ⟨2, 1, 1⟩ 10 20 30 ⟨1, 2, 3⟩).m_pShaderManager
        = some ⟨[] ++ [("model", UniformValue.mat4
            ((((glm.translate ⟨1, 2, 3⟩
              * glm.rotate Numerics.rational (glm.radians Numerics.rational 30) ⟨0, 0, 1⟩)
              * glm.rotate Numerics.rational (glm.radians Numerics.rational 20) ⟨0, 1, 0⟩)
              * glm.rotate Numerics.rational (glm.radians Numerics.rational 10) ⟨1, 0, 0⟩)
              * glm.scale ⟨2, 1, 1⟩))]⟩
    ∧ ((((glm.translate (⟨1, 2, 3⟩ : glm.vec3 ℚ)
              * glm.rotate Numerics.rational (glm.radians Numerics.rational 30) ⟨0, 0, 1⟩)
              * glm.rotate Numerics.rational (glm.radians Numerics.rational 20) ⟨0, 1, 0⟩)
              * glm.rotate Numerics.rational (glm.radians Numerics.rational 10) ⟨1, 0, 0⟩)
              * glm.scale ⟨2, 1, 1⟩).toMatrix
        = Spec.Translate ⟨1, 2, 3⟩ * Spec.RotateZ Numerics.rational 30
            * Spec.RotateY Numerics.rational 20 * Spec.RotateX Numerics.rational 10
            * Spec.Scale ⟨2, 1, 1⟩ :=
  ⟨by norm_num [Numerics.rational], rfl,
    SceneManager.SetTransformations_pushes_composed_model Numerics.rational
      (by norm_num [Numerics.rational]) (SceneManager.new (some ⟨[]⟩)) ⟨[]⟩ rfl
      ⟨2, 1, 1⟩ 10 20 30 ⟨1, 2, 3⟩⟩

/-- C2 at the rational instance: a fresh scene manager with an empty shader. -/
theorem SceneManager.SetTransformations_zero_rotation_maps_point_witness :
    Numerics.rational.cos 0 = 1 ∧ Numerics.rational.sin 0 = 0
    ∧ Numerics.rational.inversesqrt 1 = 1
    ∧ (SceneManager.new (some (⟨[]⟩ : ShaderManager ℚ))).m_pShaderManager = some ⟨[]⟩
    ∧ ((∀ s t p : glm.vec3 ℚ, ∃ M : glm.mat4 ℚ,
        ((SceneManager.new (some (⟨[]⟩ : ShaderManager ℚ))).SetTransformations
            Numerics.rational s 0 0 0 t).m_pShaderManager
            = some ⟨[] ++ [("model", UniformValue.mat4 M)]⟩
          ∧ glm.transformPoint M p = ⟨s.x * p.x + t.x, s.y * p.y + t.y, s.z * p.z + t.z⟩)
      ∧ ∃ M : glm.mat4 ℚ,
        ((SceneManager.new (some (⟨[]⟩ : ShaderManager ℚ))).SetTransformations
            Numerics.rational ⟨2, 1, 1⟩ 0 0 0 ⟨0, 0, 0⟩).m_pShaderManager
            = some ⟨[] ++ [("model", UniformValue.mat4 M)]⟩
          ∧ glm.transformPoint M ⟨1, 0, 0⟩ = ⟨2, 0, 0⟩) :=
  ⟨by norm_num [Numerics.rational], by norm_num [Numerics.rational],
    by norm_num [Numerics.rational], rfl,
    SceneManager.SetTransformations_zero_rotation_maps_point Numerics.rational
      (by norm_num [Numerics.rational]) (by norm_num [Numerics.rational])
      (by norm_num [Numerics.rational]) (SceneManager.new (some ⟨[]⟩)) ⟨[]⟩ rfl⟩

end TransformBuilder

/-! ## The texture registry -/

section TextureRegistry

variable {α : Type}

theorem SceneManager.readTexture_ok (sm : SceneManager α) (i : Fin 16) :
    sm.readTexture (i.val : Int) = Except.ok (sm.m_textureIDs i) := by
  have hi := i.isLt
  have h : 0 ≤ (i.val : Int) ∧ (i.val : Int) < 16 := by omega
  simp [SceneManager.readTexture, h]

/-- Once `bFound` is set the loop stops and hands back `textureSlot`. -/
theorem SceneManager.FindTextureSlot.loop_slot_found_flag (sm : SceneManager α) (tag : String)
    (fuel : Nat) (index textureSlot : Int) :
    SceneManager.FindTextureSlot.loop sm tag fuel index textureSlot true
      = Except.ok textureSlot := by
  cases fuel <;> simp [SceneManager.FindTextureSlot.loop]

/-- The scan from `index` finds nothing when no loaded entry from `index` on
carries the tag. -/
theorem SceneManager.FindTextureSlot.loop_no_match (sm : SceneManager α) (tag : String)
    (h16 : sm.m_loadedTextures ≤ 16) (textureSlot : Int) :
    ∀ (fuel : Nat) (index : Nat), sm.m_loadedTextures - (index : Int) ≤ (fuel : Int) →
      (∀ i : Fin 16, index ≤ i.val → (i.val : Int) < sm.m_loadedTextures →
        (sm.m_textureIDs i).tag ≠ tag) →
      SceneManager.FindTextureSlot.loop sm tag fuel (index : Int) textureSlot false
        = Except.ok textureSlot := by
  intro fuel
  induction fuel with
  | zero =>
    intro index hfuel _
    have : ¬ ((index : Int) < sm.m_loadedTextures) := by omega
    simp [SceneManager.FindTextureSlot.loop, this]
  | succ fuel ih =>
    intro index hfuel hno
    by_cases hlt : (index : Int) < sm.m_loadedTextures
    · have hidx : index < 16 := by omega
      have hread := SceneManager.readTexture_ok sm ⟨index, hidx⟩
      have hne := hno ⟨index, hidx⟩ (le_refl _) hlt
      have hrec := ih (index + 1) (by push_cast; omega)
        (fun i hi hin => hno i (by omega) hin)
      simp only [SceneManager.FindTextureSlot.loop, hlt, true_and, if_true]
      simp only [] at hread
      rw [hread]
      simp only [hne, if_false]
      exact_mod_cast hrec
    · simp [SceneManager.FindTextureSlot.loop, hlt]

/-- The scan from `index` stops at the first loaded entry carrying the tag. -/
theorem SceneManager.FindTextureSlot.loop_slot_first_match (sm : SceneManager α) (tag : String)
    (i : Fin 16) (hi : (i.val : Int) < sm.m_loadedTextures)
    (htag : (sm.m_textureIDs i).tag = tag) (textureSlot : Int) :
    ∀ (fuel : Nat) (index : Nat), index ≤ i.val → i.val - index < fuel →
      (∀ j : Fin 16, index ≤ j.val → j.val < i.val → (sm.m_textureIDs j).tag ≠ tag) →
      SceneManager.FindTextureSlot.loop sm tag fuel (index : Int) textureSlot false
        = Except.ok (i.val : Int) := by
  intro fuel
  induction fuel with
  | zero => intro index _ hfuel; omega
  | succ fuel ih =>
    intro index hle hfuel hno
    have hi16 := i.isLt
    have hlt : (index : Int) < sm.m_loadedTextures := by omega
    have hidx : index < 16 := by omega
    have hread := SceneManager.readTexture_ok sm ⟨index, hidx⟩
    simp only [] at hread
    simp only [SceneManager.FindTextureSlot.loop, hlt, true_and, if_true]
    rw [hread]
    by_cases heq : index = i.val
    · have hfin : (⟨index, hidx⟩ : Fin 16) = i := Fin.ext heq
      rw [hfin]
      simp only [htag, if_true]
      rw [SceneManager.FindTextureSlot.loop_slot_found_flag, heq]
    · have hne := hno ⟨index, hidx⟩ (le_refl _) (by simp only []; omega)
      simp only [hne, if_false]
      have hrec := ih (index + 1) (by omega) (by omega) (fun j hj hji => hno j (by omega) hji)
      exact_mod_cast hrec

/-- C4: in a registry whose loaded count `n` is at most 16 (so for every
`0 <= n <= 16`), a tag that none of the first `n` entries carries is resolved
to `-1`, whatever the unused entries hold. -/
theorem SceneManager.FindTextureSlot_unregistered (sm : SceneManager α) (tag : String)
    (h16 : sm.m_loadedTextures ≤ 16)
    (hno : ∀ i : Fin 16, (i.val : Int) < sm.m_loadedTextures → (sm.m_textureIDs i).tag ≠ tag) :
    sm.FindTextureSlot tag = Except.ok (-1) := by
  have h := SceneManager.FindTextureSlot.loop_no_match sm tag h16 (-1)
    sm.m_loadedTextures.toNat 0 (by omega) (fun i _ hi => hno i hi)
  exact_mod_cast h

/-- C5: when some entry below the loaded count carries the tag,
`FindTextureSlot` returns the smallest index whose entry carries it. -/
theorem SceneManager.FindTextureSlot_first_match (sm : SceneManager α) (tag : String)
    (hex : ∃ i : Fin 16, (i.val : Int) < sm.m_loadedTextures ∧ (sm.m_textureIDs i).tag = tag) :
    ∃ i : Fin 16, (i.val : Int) < sm.m_loadedTextures ∧ (sm.m_textureIDs i).tag = tag
      ∧ (∀ j : Fin 16, j.val < i.val → (sm.m_textureIDs j).tag ≠ tag)
      ∧ sm.FindTextureSlot tag = Except.ok (i.val : Int) := by
  classical
  have hP : ∃ k : Nat, ∃ h : k < 16, ((k : Int) < sm.m_loadedTextures
      ∧ (sm.m_textureIDs ⟨k, h⟩).tag = tag) := by
    obtain ⟨i, hi, ht⟩ := hex
    exact ⟨i.val, i.isLt, hi, ht⟩
  obtain ⟨hk16, hkn, hkt⟩ := Nat.find_spec hP
  have hmin : ∀ j : Fin 16, j.val < Nat.find hP → (sm.m_textureIDs j).tag ≠ tag := by
    intro j hj hjt
    exact Nat.find_min hP hj ⟨j.isLt, by omega, hjt⟩
  refine ⟨⟨Nat.find hP, hk16⟩, hkn, hkt, hmin, ?_⟩
  have h := SceneManager.FindTextureSlot.loop_slot_first_match sm tag ⟨Nat.find hP, hk16⟩ hkn hkt
    (-1) sm.m_loadedTextures.toNat 0 (Nat.zero_le _) (by simp only []; omega)
    (fun j _ hj => hmin j hj)
  exact_mod_cast h

/-- C4 at a registry with two loaded textures and the placeholder tag "/0",
which the fourteen unused entries hold. -/
theorem SceneManager.FindTextureSlot_unregistered_witness :
    (0 : Int) ≤ SceneManager.twoLoaded.m_loadedTextures
    ∧ SceneManager.twoLoaded.m_loadedTextures ≤ 16
    ∧ (∀ i : Fin 16, (i.val : Int) < SceneManager.twoLoaded.m_loadedTextures →
        (SceneManager.twoLoaded.m_textureIDs i).tag ≠ "/0")
    ∧ (SceneManager.twoLoaded.m_textureIDs 2).tag = "/0"
    ∧ SceneManager.twoLoaded.FindTextureSlot "/0" = Except.ok (-1) :=
  ⟨by decide, by decide, by decide, by decide,
    SceneManager.FindTextureSlot_unregistered SceneManager.twoLoaded "/0" (by decide)
      (by decide)⟩

/-- C5 at a registry with two loaded textures: "metal" is at slot 1. -/
theorem SceneManager.FindTextureSlot_first_match_witness :
    (∃ i : Fin 16, (i.val : Int) < SceneManager.twoLoaded.m_loadedTextures
        ∧ (SceneManager.twoLoaded.m_textureIDs i).tag = "metal")
    ∧ ∃ i : Fin 16, (i.val : Int) < SceneManager.twoLoaded.m_loadedTextures
      ∧ (SceneManager.twoLoaded.m_textureIDs i).tag = "metal"
      ∧ (∀ j : Fin 16, j.val < i.val → (SceneManager.twoLoaded.m_textureIDs j).tag ≠ "metal")
      ∧ SceneManager.twoLoaded.FindTextureSlot "metal" = Except.ok (i.val : Int) :=
  ⟨⟨1, by decide, by decide⟩,
    SceneManager.FindTextureSlot_first_match SceneManager.twoLoaded "metal"
      ⟨1, by decide, by decide⟩⟩

theorem SceneManager.CreateGLTexture_loads (sm : SceneManager α) (c : TextureCall)
    (hl : c.loads = true) (h0 : 0 ≤ sm.m_loadedTextures) (h16 : sm.m_loadedTextures < 16) :
    sm.CreateGLTexture c.image c.textureID c.tag
      = Except.ok (true,
          { sm with
            m_textureIDs :=
              Function.update sm.m_textureIDs ⟨sm.m_loadedTextures.toNat, by omega⟩
                ⟨c.tag, c.textureID⟩
            m_loadedTextures := sm.m_loadedTextures + 1 }) := by
  cases himg : c.image with
  | none => simp [TextureCall.loads, himg] at hl
  | some img =>
    simp only [TextureCall.loads, himg, decide_eq_true_eq] at hl
    have hb : 0 ≤ sm.m_loadedTextures ∧ sm.m_loadedTextures < 16 := ⟨h0, h16⟩
    rcases hl with h3 | h4
    · simp [SceneManager.CreateGLTexture, h3, hb]
    · simp [SceneManager.CreateGLTexture, h4, hb]

theorem SceneManager.CreateGLTexture_not_loads (sm : SceneManager α) (c : TextureCall)
    (hl : c.loads = false) :
    sm.CreateGLTexture c.image c.textureID c.tag = Except.ok (false, sm) := by
  cases himg : c.image with
  | none => simp [SceneManager.CreateGLTexture]
  | some img =>
    simp only [TextureCall.loads, himg, decide_eq_false_iff_not, not_or] at hl
    simp [SceneManager.CreateGLTexture, hl.1, hl.2]

/-- The effect of a call sequence that fits into the array: every call
returns whether its image loads, the count grows by the number of loading
calls, the entries below the old count and from the new count on are kept, and
the `k`-th loading call fills the entry `k` places after the old count. -/
theorem SceneManager.CreateGLTexture.seq_effect (calls : List TextureCall) :
    ∀ sm : SceneManager α, 0 ≤ sm.m_loadedTextures →
      sm.m_loadedTextures + ((calls.filter TextureCall.loads).length : Int) ≤ 16 →
      ∃ sm1 : SceneManager α,
        SceneManager.CreateGLTexture.seq sm calls
          = Except.ok (calls.map TextureCall.loads, sm1)
        ∧ sm1.m_loadedTextures
          = sm.m_loadedTextures + ((calls.filter TextureCall.loads).length : Int)
        ∧ sm1.m_pShaderManager = sm.m_pShaderManager
        ∧ sm1.m_objectMaterials = sm.m_objectMaterials
        ∧ (∀ i : Fin 16, (i.val : Int) < sm.m_loadedTextures →
            sm1.m_textureIDs i = sm.m_textureIDs i)
        ∧ (∀ i : Fin 16,
            sm.m_loadedTextures + ((calls.filter TextureCall.loads).length : Int) ≤ (i.val : Int) →
            sm1.m_textureIDs i = sm.m_textureIDs i)
        ∧ (∀ (k : Nat) (c : TextureCall) (i : Fin 16),
            (calls.filter TextureCall.loads)[k]? = some c →
            (i.val : Int) = sm.m_loadedTextures + (k : Int) →
            sm1.m_textureIDs i = ⟨c.tag, c.textureID⟩) := by
  induction calls with
  | nil =>
    intro sm _ _
    exact ⟨sm, rfl, by simp, rfl, rfl, fun _ _ => rfl, fun _ _ => rfl,
      fun k c i hk _ => by simp at hk⟩
  | cons c cs ih =>
    intro sm h0 hfit
    by_cases hl : c.loads = true
    · have hfilter : (c :: cs).filter TextureCall.loads = c :: cs.filter TextureCall.loads := by
        simp [List.filter, hl]
      rw [hfilter] at hfit ⊢
      simp only [List.length_cons, Nat.cast_add, Nat.cast_one] at hfit ⊢
      have hlt : sm.m_loadedTextures < 16 := by omega
      have hcall := SceneManager.CreateGLTexture_loads sm c hl h0 hlt
      obtain ⟨sm1, hseq, hcount, hsh, hmat, hlow, hhigh, hmid⟩ :=
        ih { sm with
            m_textureIDs :=
              Function.update sm.m_textureIDs ⟨sm.m_loadedTextures.toNat, by omega⟩
                ⟨c.tag, c.textureID⟩
            m_loadedTextures := sm.m_loadedTextures + 1 }
          (show (0 : Int) ≤ sm.m_loadedTextures + 1 by omega)
          (show sm.m_loadedTextures + 1
            + ((cs.filter TextureCall.loads).length : Int) ≤ 16 by omega)
      refine ⟨sm1, ?_, ?_, hsh, hmat, ?_, ?_, ?_⟩
      · simp only [SceneManager.CreateGLTexture.seq, hcall, hseq, List.map_cons, hl]
      · rw [hcount]; ring
      · intro i hi
        rw [hlow i (by simp only []; omega)]
        simp only []
        rw [Function.update_noteq]
        intro hcontra
        have := congrArg Fin.val hcontra
        simp only [] at this
        omega
      · intro i hi
        rw [hhigh i (by simp only []; omega)]
        simp only []
        rw [Function.update_noteq]
        intro hcontra
        have := congrArg Fin.val hcontra
        simp only [] at this
        omega
      · intro k c1 i hk hi
        cases k with
        | zero =>
          simp only [List.getElem?_cons_zero, Option.some.injEq] at hk
          subst hk
          rw [hlow i (by simp only []; push_cast at hi; omega)]
          simp only []
          have hfin : i = ⟨sm.m_loadedTextures.toNat, by omega⟩ := by
            apply Fin.ext
            simp only []
            push_cast at hi
            omega
          rw [hfin, Function.update_same]
        | succ k =>
          simp only [List.getElem?_cons_succ] at hk
          exact hmid k c1 i hk (by simp only []; push_cast at hi; omega)
    · have hl2 : c.loads = false := by simpa using hl
      have hfilter : (c :: cs).filter TextureCall.loads = cs.filter TextureCall.loads := by
        simp [List.filter, hl2]
      rw [hfilter] at hfit ⊢
      have hcall := SceneManager.CreateGLTexture_not_loads sm c hl2
      obtain ⟨sm1, hseq, hrest⟩ := ih sm h0 hfit
      refine ⟨sm1, ?_, hrest⟩
      simp only [SceneManager.CreateGLTexture.seq, hcall, hseq, List.map_cons, hl2]

/-- The number of `true` results is the number of loading calls. -/
theorem SceneManager.TextureCall.count_loads (calls : List TextureCall) :
    (calls.map TextureCall.loads).count true = (calls.filter TextureCall.loads).length := by
  induction calls with
  | nil => rfl
  | cons c cs ih =>
    by_cases hl : c.loads = true
    · simp [List.filter, hl, ih]
    · have hl2 : c.loads = false := by simpa using hl
      simp [List.filter, hl2, ih]

/-- After a call sequence on a fresh registry that fits into the array, the
loaded entries are the loading calls in call order. -/
theorem SceneManager.CreateGLTexture.seq_fresh (sh : Option (ShaderManager α))
    (calls : List TextureCall) (hfit : (calls.filter TextureCall.loads).length ≤ 16) :
    ∃ sm1 : SceneManager α,
      SceneManager.CreateGLTexture.seq (SceneManager.new sh) calls
        = Except.ok (calls.map TextureCall.loads, sm1)
      ∧ sm1.m_loadedTextures = ((calls.filter TextureCall.loads).length : Int)
      ∧ (∀ (k : Nat) (hk : k < (calls.filter TextureCall.loads).length) (h16 : k < 16),
          sm1.m_textureIDs ⟨k, h16⟩
            = ⟨((calls.filter TextureCall.loads).get ⟨k, hk⟩).tag,
               ((calls.filter TextureCall.loads).get ⟨k, hk⟩).textureID⟩)
      ∧ (∀ i : Fin 16, (calls.filter TextureCall.loads).length ≤ i.val →
          sm1.m_textureIDs i = ⟨"/0", 4294967295⟩) := by
  obtain ⟨sm1, hseq, hcount, _, _, _, hhigh, hmid⟩ :=
    SceneManager.CreateGLTexture.seq_effect calls (SceneManager.new sh) (le_refl _)
      (by simp only [SceneManager.new]; omega)
  refine ⟨sm1, hseq, ?_, ?_, ?_⟩
  · simpa [SceneManager.new] using hcount
  · intro k hk h16
    exact hmid k _ ⟨k, h16⟩ (by simp [List.getElem?_eq_getElem hk]) (by simp [SceneManager.new])
  · intro i hi
    rw [hhigh i (by simp only [SceneManager.new]; omega)]
    rfl

/-- C6: on a freshly constructed registry, a call sequence with at most 16
loading calls runs without fault; every call returns whether its image loads;
the loaded count is the number of loading calls and lies in `0 .. 16`; the
`k`-th loading call (from 0) has its tag and texture id at slot `k`; and the
entries from the count on still hold the constructor's placeholder. -/
theorem SceneManager.CreateGLTexture_dense_slots (sh : Option (ShaderManager α))
    (calls : List TextureCall) (hfit : (calls.filter TextureCall.loads).length ≤ 16) :
    ∃ sm1 : SceneManager α,
      SceneManager.CreateGLTexture.seq (SceneManager.new sh) calls
        = Except.ok (calls.map TextureCall.loads, sm1)
      ∧ sm1.m_loadedTextures = ((calls.filter TextureCall.loads).length : Int)
      ∧ sm1.m_loadedTextures = (((calls.map TextureCall.loads).count true : Nat) : Int)
      ∧ 0 ≤ sm1.m_loadedTextures ∧ sm1.m_loadedTextures ≤ 16
      ∧ (∀ (k : Nat) (hk : k < (calls.filter TextureCall.loads).length) (h16 : k < 16),
          sm1.m_textureIDs ⟨k, h16⟩
            = ⟨((calls.filter TextureCall.loads).get ⟨k, hk⟩).tag,
               ((calls.filter TextureCall.loads).get ⟨k, hk⟩).textureID⟩)
      ∧ (∀ i : Fin 16, (calls.filter TextureCall.loads).length ≤ i.val →
          sm1.m_textureIDs i = ⟨"/0", 4294967295⟩) := by
  obtain ⟨sm1, hseq, hcount, hslots, hrest⟩ :=
    SceneManager.CreateGLTexture.seq_fresh sh calls hfit
  refine ⟨sm1, hseq, hcount, ?_, by omega, by omega, hslots, hrest⟩
  rw [hcount, SceneManager.TextureCall.count_loads]

/-- C6 at four calls of which the first and the last load. -/
theorem SceneManager.CreateGLTexture_dense_slots_witness :
    (SceneManager.sampleCalls.filter SceneManager.TextureCall.loads).length ≤ 16
    ∧ ∃ sm1 : SceneManager ℚ,
      SceneManager.CreateGLTexture.seq (SceneManager.new none) SceneManager.sampleCalls
        = Except.ok (SceneManager.sampleCalls.map SceneManager.TextureCall.loads, sm1)
      ∧ sm1.m_loadedTextures
        = ((SceneManager.sampleCalls.filter SceneManager.TextureCall.loads).length : Int)
      ∧ sm1.m_loadedTextures
        = (((SceneManager.sampleCalls.map SceneManager.TextureCall.loads).count true : Nat) : Int)
      ∧ 0 ≤ sm1.m_loadedTextures ∧ sm1.m_loadedTextures ≤ 16
      ∧ (∀ (k : Nat)
          (hk : k < (SceneManager.sampleCalls.filter SceneManager.TextureCall.loads).length)
          (h16 : k < 16),
          sm1.m_textureIDs ⟨k, h16⟩
            = ⟨((SceneManager.sampleCalls.filter SceneManager.TextureCall.loads).get ⟨k, hk⟩).tag,
               ((SceneManager.sampleCalls.filter
                  SceneManager.TextureCall.loads).get ⟨k, hk⟩).textureID⟩)
      ∧ (∀ i : Fin 16,
          (SceneManager.sampleCalls.filter SceneManager.TextureCall.loads).length ≤ i.val →
          sm1.m_textureIDs i = ⟨"/0", 4294967295⟩) :=
  ⟨by decide, SceneManager.CreateGLTexture_dense_slots none SceneManager.sampleCalls (by decide)⟩

/-- C7, as stated, fails: two loading calls with the tag "wood" on a fresh
registry leave two loaded entries with the same tag. -/
theorem SceneManager.TagsUnique_fails_for_repeated_tag :
    ∃ sm1 : SceneManager ℚ,
      SceneManager.CreateGLTexture.seq (SceneManager.new none) SceneManager.repeatedTagCalls
        = Except.ok ([true, true], sm1)
      ∧ sm1.m_loadedTextures = 2
      ∧ (sm1.m_textureIDs 0).tag = "wood" ∧ (sm1.m_textureIDs 1).tag = "wood"
      ∧ ¬ SceneManager.TagsUnique sm1 := by
  refine ⟨_, rfl, rfl, rfl, rfl, ?_⟩
  intro h
  exact absurd (h 0 1 (by decide) (by decide) rfl) (by decide)

/-- C7, amended: after a call sequence on a fresh registry with at most 16
loading calls, no two loaded entries carry the same tag exactly when the tags
of the loading calls are pairwise distinct; the registry itself rejects no
repeated tag. -/
theorem SceneManager.TagsUnique_iff_distinct_call_tags (sh : Option (ShaderManager α))
    (calls : List TextureCall) (hfit : (calls.filter TextureCall.loads).length ≤ 16) :
    ∃ sm1 : SceneManager α,
      SceneManager.CreateGLTexture.seq (SceneManager.new sh) calls
        = Except.ok (calls.map TextureCall.loads, sm1)
      ∧ (SceneManager.TagsUnique sm1
          ↔ ((calls.filter TextureCall.loads).map fun c => c.tag).Nodup) := by
  obtain ⟨sm1, hseq, hcount, hslots, _⟩ :=
    SceneManager.CreateGLTexture.seq_fresh sh calls hfit
  refine ⟨sm1, hseq, ?_⟩
  rw [List.nodup_iff_injective_getElem]
  constructor
  · intro huniq i j hij
    have hi : i.val < (calls.filter TextureCall.loads).length := by
      simpa using i.isLt
    have hj : j.val < (calls.filter TextureCall.loads).length := by
      simpa using j.isLt
    simp only [List.getElem_map] at hij
    have h := huniq ⟨i.val, by omega⟩ ⟨j.val, by omega⟩ (by simp only []; omega)
      (by simp only []; omega)
      (by rw [hslots i.val hi (by omega), hslots j.val hj (by omega)]; simpa using hij)
    exact Fin.ext (by simpa using congrArg Fin.val h)
  · intro hinj i j hi hj hij
    have hi1 : i.val < (calls.filter TextureCall.loads).length := by omega
    have hj1 : j.val < (calls.filter TextureCall.loads).length := by omega
    have hsi := hslots i.val hi1 i.isLt
    have hsj := hslots j.val hj1 j.isLt
    simp only [Fin.eta] at hsi hsj
    rw [hsi, hsj] at hij
    simp only [List.get_eq_getElem] at hij
    have h := @hinj ⟨i.val, by simpa using hi1⟩ ⟨j.val, by simpa using hj1⟩
      (by simpa [List.getElem_map] using hij)
    exact Fin.ext (by simpa using congrArg Fin.val h)

/-- C7, amended, at four calls with the distinct loading tags "wood" and "metal". -/
theorem SceneManager.TagsUnique_iff_distinct_call_tags_witness :
    (SceneManager.sampleCalls.filter SceneManager.TextureCall.loads).length ≤ 16
    ∧ ∃ sm1 : SceneManager ℚ,
      SceneManager.CreateGLTexture.seq (SceneManager.new none) SceneManager.sampleCalls
        = Except.ok (SceneManager.sampleCalls.map SceneManager.TextureCall.loads, sm1)
      ∧ (SceneManager.TagsUnique sm1
          ↔ ((SceneManager.sampleCalls.filter SceneManager.TextureCall.loads).map
              fun c => c.tag).Nodup) :=
  ⟨by decide,
    SceneManager.TagsUnique_iff_distinct_call_tags none SceneManager.sampleCalls (by decide)⟩

/-- C3, as stated, fails: after sixteen loading calls on a fresh registry the
count is 16, and a seventeenth call with a readable RGB image does not return
failure with the registry kept; it reaches the write to `m_textureIDs[16]`,
outside the array. -/
theorem SceneManager.CreateGLTexture_full_registry_not_rejected :
    ∃ sm16 : SceneManager ℚ,
      SceneManager.CreateGLTexture.seq (SceneManager.new none) SceneManager.sixteenCalls
        = Except.ok (List.replicate 16 true, sm16)
      ∧ sm16.m_loadedTextures = 16
      ∧ sm16.CreateGLTexture (some ⟨64, 64, 3⟩) 17 "q" = Except.error Fault.outOfBounds
      ∧ ¬ (sm16.CreateGLTexture (some ⟨64, 64, 3⟩) 17 "q" = Except.ok (false, sm16)) := by
  obtain ⟨sm16, hseq, hcount, _, _⟩ :=
    SceneManager.CreateGLTexture.seq_fresh (none : Option (ShaderManager ℚ))
      SceneManager.sixteenCalls (by decide)
  have h16 : sm16.m_loadedTextures = 16 := by rw [hcount]; rfl
  have hfault : sm16.CreateGLTexture (some ⟨64, 64, 3⟩) 17 "q"
      = Except.error Fault.outOfBounds := by
    simp [SceneManager.CreateGLTexture, h16]
  refine ⟨sm16, hseq, h16, hfault, ?_⟩
  rw [hfault]
  intro h
  cases h

/-- C3, amended: `CreateGLTexture` has no capacity check. On a registry with
`n` loaded textures, `0 <= n < 16`, a call with a readable 3- or 4-channel
image returns true, stores tag and texture id at slot `n` and makes the count
`n + 1`; and on no registry does such a call return false. -/
theorem SceneManager.CreateGLTexture_accepts_below_capacity (sm : SceneManager α)
    (img : Image) (textureID : Nat) (tag : String)
    (hch : img.colorChannels = 3 ∨ img.colorChannels = 4) :
    (∀ (h0 : 0 ≤ sm.m_loadedTextures) (h16 : sm.m_loadedTextures < 16),
      sm.CreateGLTexture (some img) textureID tag
        = Except.ok (true,
            { sm with
              m_textureIDs :=
                Function.update sm.m_textureIDs ⟨sm.m_loadedTextures.toNat, by omega⟩
                  ⟨tag, textureID⟩
              m_loadedTextures := sm.m_loadedTextures + 1 }))
    ∧ ∀ sm1 : SceneManager α,
      sm.CreateGLTexture (some img) textureID tag ≠ Except.ok (false, sm1) := by
  have hl : (⟨some img, textureID, tag⟩ : TextureCall).loads = true := by
    simp [TextureCall.loads, hch]
  constructor
  · intro h0 h16
    exact SceneManager.CreateGLTexture_loads sm ⟨some img, textureID, tag⟩ hl h0 h16
  · intro sm1 h
    by_cases hb : 0 ≤ sm.m_loadedTextures ∧ sm.m_loadedTextures < 16
    · rw [SceneManager.CreateGLTexture_loads sm ⟨some img, textureID, tag⟩ hl hb.1 hb.2] at h
      simp at h
    · rcases hch with h3 | h4
      · simp [SceneManager.CreateGLTexture, h3, hb] at h
      · simp [SceneManager.CreateGLTexture, h4, hb] at h

/-- C3, amended, at a registry with two loaded textures and an RGBA image. -/
theorem SceneManager.CreateGLTexture_accepts_below_capacity_witness :
    ((4 : Int) = 3 ∨ (4 : Int) = 4)
    ∧ (∀ (h0 : 0 ≤ SceneManager.twoLoaded.m_loadedTextures)
        (h16 : SceneManager.twoLoaded.m_loadedTextures < 16),
      SceneManager.twoLoaded.CreateGLTexture (some ⟨8, 8, 4⟩) 3 "wall"
        = Except.ok (true,
            { SceneManager.twoLoaded with
              m_textureIDs :=
                Function.update SceneManager.twoLoaded.m_textureIDs
                  ⟨SceneManager.twoLoaded.m_loadedTextures.toNat, by omega⟩ ⟨"wall", 3⟩
              m_loadedTextures := SceneManager.twoLoaded.m_loadedTextures + 1 }))
    ∧ ∀ sm1 : SceneManager ℚ,
      SceneManager.twoLoaded.CreateGLTexture (some ⟨8, 8, 4⟩) 3 "wall"
        ≠ Except.ok (false, sm1) :=
  ⟨by decide,
    SceneManager.CreateGLTexture_accepts_below_capacity SceneManager.twoLoaded ⟨8, 8, 4⟩ 3
      "wall" (by decide)⟩

/-- C8: a call whose image cannot be decoded, or whose channel count is neither
3 nor 4, returns false and leaves the whole object as it was: the same loaded
count and the same tag and id in every slot; so every tag that resolved to
`-1` before the call resolves to `-1` after it. -/
theorem SceneManager.CreateGLTexture_failure_keeps_registry (sm : SceneManager α)
    (image : Option Image) (textureID : Nat) (tag : String)
    (hbad : image = none
      ∨ ∃ img : Image, image = some img ∧ img.colorChannels ≠ 3 ∧ img.colorChannels ≠ 4) :
    sm.CreateGLTexture image textureID tag = Except.ok (false, sm)
    ∧ ∀ (b : Bool) (sm1 : SceneManager α),
      sm.CreateGLTexture image textureID tag = Except.ok (b, sm1) →
        b = false ∧ sm1.m_loadedTextures = sm.m_loadedTextures
        ∧ sm1.m_textureIDs = sm.m_textureIDs
        ∧ ∀ t : String, sm.FindTextureSlot t = Except.ok (-1) →
            sm1.FindTextureSlot t = Except.ok (-1) := by
  have hl : (⟨image, textureID, tag⟩ : TextureCall).loads = false := by
    rcases hbad with hnone | ⟨img, himg, h3, h4⟩
    · simp [TextureCall.loads, hnone]
    · simp [TextureCall.loads, himg, h3, h4]
  have hcall := SceneManager.CreateGLTexture_not_loads sm ⟨image, textureID, tag⟩ hl
  simp only [] at hcall
  refine ⟨hcall, ?_⟩
  intro b sm1 h
  rw [hcall] at h
  simp only [Except.ok.injEq, Prod.mk.injEq] at h
  obtain ⟨hb, hsm⟩ := h
  subst hb hsm
  exact ⟨rfl, rfl, rfl, fun _ ht => ht⟩

/-- C8 at a registry with two loaded textures and a one-channel image. -/
theorem SceneManager.CreateGLTexture_failure_keeps_registry_witness :
    ((some ⟨8, 8, 1⟩ : Option Image) = none
      ∨ ∃ img : Image, (some ⟨8, 8, 1⟩ : Option Image) = some img
        ∧ img.colorChannels ≠ 3 ∧ img.colorChannels ≠ 4)
    ∧ SceneManager.twoLoaded.CreateGLTexture (some ⟨8, 8, 1⟩) 3 "grey"
        = Except.ok (false, SceneManager.twoLoaded)
    ∧ ∀ (b : Bool) (sm1 : SceneManager ℚ),
      SceneManager.twoLoaded.CreateGLTexture (some ⟨8, 8, 1⟩) 3 "grey" = Except.ok (b, sm1) →
        b = false ∧ sm1.m_loadedTextures = SceneManager.twoLoaded.m_loadedTextures
        ∧ sm1.m_textureIDs = SceneManager.twoLoaded.m_textureIDs
        ∧ ∀ t : String, SceneManager.twoLoaded.FindTextureSlot t = Except.ok (-1) →
            sm1.FindTextureSlot t = Except.ok (-1) :=
  ⟨Or.inr ⟨⟨8, 8, 1⟩, rfl, by decide, by decide⟩,
    SceneManager.CreateGLTexture_failure_keeps_registry SceneManager.twoLoaded
      (some ⟨8, 8, 1⟩) 3 "grey" (Or.inr ⟨⟨8, 8, 1⟩, rfl, by decide, by decide⟩)⟩

end TextureRegistry

/-! ## The material registry -/

section MaterialRegistry

variable {α : Type}

/-- Once `bFound` is set the loop stops and hands back the output parameter. -/
theorem SceneManager.FindMaterial.loop_material_found_flag (mats : List (OBJECT_MATERIAL α))
    (tag : String) (fuel index : Nat) (material : OBJECT_MATERIAL α) :
    SceneManager.FindMaterial.loop mats tag fuel index true material = Except.ok material := by
  cases fuel <;> simp [SceneManager.FindMaterial.loop]

/-- The scan from `index` stops at the first entry carrying the tag and copies
its five coefficients into the output parameter. -/
theorem SceneManager.FindMaterial.loop_material_first_match (mats : List (OBJECT_MATERIAL α))
    (tag : String) (i : Nat) (hi : i < mats.length) (htag : (mats.get ⟨i, hi⟩).tag = tag)
    (material : OBJECT_MATERIAL α) :
    ∀ (fuel index : Nat), index ≤ i → i - index < fuel →
      (∀ (j : Nat) (hj : j < mats.length), index ≤ j → j < i → (mats.get ⟨j, hj⟩).tag ≠ tag) →
      SceneManager.FindMaterial.loop mats tag fuel index false material
        = Except.ok
            { material with
              ambientColor := (mats.get ⟨i, hi⟩).ambientColor
              ambientStrength := (mats.get ⟨i, hi⟩).ambientStrength
              diffuseColor := (mats.get ⟨i, hi⟩).diffuseColor
              specularColor := (mats.get ⟨i, hi⟩).specularColor
              shininess := (mats.get ⟨i, hi⟩).shininess } := by
  intro fuel
  induction fuel with
  | zero => intro index _ hfuel; omega
  | succ fuel ih =>
    intro index hle hfuel hno
    have hlt : index < mats.length := by omega
    have hcond : index < mats.length ∧ false = false := ⟨hlt, rfl⟩
    by_cases heq : index = i
    · subst heq
      simp only [SceneManager.FindMaterial.loop, hcond, dite_true, htag, if_true, and_self]
      rw [SceneManager.FindMaterial.loop_material_found_flag]
    · have hne := hno index hlt (le_refl _) (by omega)
      simp only [SceneManager.FindMaterial.loop, hcond, dite_true, hne, if_false, and_self]
      exact ih (index + 1) (by omega) (by omega) (fun j hj hij hji => hno j hj (by omega) hji)

/-- C9: when some entry of the material list carries the tag, `FindMaterial`
returns true and the output parameter differs from its old value exactly in
the five coefficients, which are those of the entry of lowest index carrying
the tag; in particular, with a single material tagged "wood" defined, looking
up "wood" yields the coefficients of that material. -/
theorem SceneManager.FindMaterial_first_match (tag : String) (material : OBJECT_MATERIAL α) :
    (∀ sm : SceneManager α, (∃ e ∈ sm.m_objectMaterials, e.tag = tag) →
      ∃ (i : Nat) (hi : i < sm.m_objectMaterials.length),
        (sm.m_objectMaterials.get ⟨i, hi⟩).tag = tag
        ∧ (∀ (j : Nat) (hj : j < sm.m_objectMaterials.length), j < i →
            (sm.m_objectMaterials.get ⟨j, hj⟩).tag ≠ tag)
        ∧ sm.FindMaterial tag material
          = Except.ok (true,
              { material with
                ambientColor := (sm.m_objectMaterials.get ⟨i, hi⟩).ambientColor
                ambientStrength := (sm.m_objectMaterials.get ⟨i, hi⟩).ambientStrength
                diffuseColor := (sm.m_objectMaterials.get ⟨i, hi⟩).diffuseColor
                specularColor := (sm.m_objectMaterials.get ⟨i, hi⟩).specularColor
                shininess := (sm.m_objectMaterials.get ⟨i, hi⟩).shininess }))
    ∧ ∀ (sm : SceneManager α) (wood : OBJECT_MATERIAL α),
      sm.m_objectMaterials = [] → wood.tag = "wood" →
        (sm.defineMaterial wood).FindMaterial "wood" material
          = Except.ok (true,
              { material with
                ambientColor := wood.ambientColor
                ambientStrength := wood.ambientStrength
                diffuseColor := wood.diffuseColor
                specularColor := wood.specularColor
                shininess := wood.shininess }) := by
  constructor
  · intro sm hex
    classical
    have hP : ∃ k : Nat, ∃ h : k < sm.m_objectMaterials.length,
        (sm.m_objectMaterials.get ⟨k, h⟩).tag = tag := by
      obtain ⟨e, he, het⟩ := hex
      obtain ⟨n, hn⟩ := List.get_of_mem he
      exact ⟨n.val, n.isLt, by rw [hn]; exact het⟩
    obtain ⟨hklt, hkt⟩ := Nat.find_spec hP
    have hmin : ∀ (j : Nat) (hj : j < sm.m_objectMaterials.length), j < Nat.find hP →
        (sm.m_objectMaterials.get ⟨j, hj⟩).tag ≠ tag :=
      fun j hj hlt hjt => Nat.find_min hP hlt ⟨hj, hjt⟩
    refine ⟨Nat.find hP, hklt, hkt, hmin, ?_⟩
    have hlen : ¬ sm.m_objectMaterials.length = 0 := by omega
    have hloop := SceneManager.FindMaterial.loop_material_first_match sm.m_objectMaterials tag
      (Nat.find hP) hklt hkt material sm.m_objectMaterials.length 0 (Nat.zero_le _)
      (by omega) (fun j hj _ hji => hmin j hj hji)
    simp only [SceneManager.FindMaterial, hlen, if_false, hloop]
  · intro sm wood hempty hwood
    have hloop := SceneManager.FindMaterial.loop_material_first_match [wood] "wood" 0 (by simp)
      (by simpa using hwood) material 1 0 (le_refl _) (by omega)
      (fun j _ _ hj0 => absurd hj0 (Nat.not_lt_zero j))
    simp only [List.get_eq_getElem, List.getElem_cons_zero] at hloop
    simp only [SceneManager.FindMaterial, SceneManager.defineMaterial, hempty, List.nil_append,
      List.length_singleton, one_ne_zero, if_false, hloop]

/-- C9 at the materials "silver", "wood", "wood": the lookup of "wood" returns
the coefficients of the entry at index 1, the first of the two. -/
theorem SceneManager.FindMaterial_first_match_witness :
    (∃ e ∈ SceneManager.threeMaterials.m_objectMaterials, e.tag = "wood")
    ∧ (∃ (i : Nat) (hi : i < SceneManager.threeMaterials.m_objectMaterials.length),
        (SceneManager.threeMaterials.m_objectMaterials.get ⟨i, hi⟩).tag = "wood"
        ∧ (∀ (j : Nat) (hj : j < SceneManager.threeMaterials.m_objectMaterials.length), j < i →
            (SceneManager.threeMaterials.m_objectMaterials.get ⟨j, hj⟩).tag ≠ "wood")
        ∧ SceneManager.threeMaterials.FindMaterial "wood" SceneManager.blankMaterial
          = Except.ok (true,
              { SceneManager.blankMaterial with
                ambientColor :=
                  (SceneManager.threeMaterials.m_objectMaterials.get ⟨i, hi⟩).ambientColor
                ambientStrength :=
                  (SceneManager.threeMaterials.m_objectMaterials.get ⟨i, hi⟩).ambientStrength
                diffuseColor :=
                  (SceneManager.threeMaterials.m_objectMaterials.get ⟨i, hi⟩).diffuseColor
                specularColor :=
                  (SceneManager.threeMaterials.m_objectMaterials.get ⟨i, hi⟩).specularColor
                shininess :=
                  (SceneManager.threeMaterials.m_objectMaterials.get ⟨i, hi⟩).shininess }))
    ∧ SceneManager.threeMaterials.FindMaterial "wood" SceneManager.blankMaterial
        = Except.ok (true, { SceneManager.woodMaterial with tag := "" }) :=
  ⟨⟨SceneManager.woodMaterial, by simp [SceneManager.threeMaterials,
      SceneManager.defineMaterial, SceneManager.new], rfl⟩,
    (SceneManager.FindMaterial_first_match "wood" SceneManager.blankMaterial).1
      SceneManager.threeMaterials
      ⟨SceneManager.woodMaterial, by simp [SceneManager.threeMaterials,
        SceneManager.defineMaterial, SceneManager.new], rfl⟩,
    rfl⟩

/-- C10: on an empty material list `FindMaterial` returns false and the output
parameter keeps its value, for every tag. -/
theorem SceneManager.FindMaterial_empty (sm : SceneManager α) (tag : String)
    (material : OBJECT_MATERIAL α) (hempty : sm.m_objectMaterials = []) :
    sm.FindMaterial tag material = Except.ok (false, material) := by
  simp [SceneManager.FindMaterial, hempty]

/-- C10 at a freshly constructed scene manager and the tag "wood". -/
theorem SceneManager.FindMaterial_empty_witness :
    (SceneManager.new none : SceneManager ℚ).m_objectMaterials = []
    ∧ (SceneManager.new none : SceneManager ℚ).FindMaterial "wood" SceneManager.blankMaterial
      = Except.ok (false, SceneManager.blankMaterial) :=
  ⟨rfl, SceneManager.FindMaterial_empty (SceneManager.new none) "wood"
    SceneManager.blankMaterial rfl⟩

end MaterialRegistry

/-! ## Lookups that miss -/

section LookupMiss

variable {α : Type}

/-- The scan from `index` leaves the output parameter alone when no entry from
`index` on carries the tag. -/
theorem SceneManager.FindMaterial.loop_material_no_match (mats : List (OBJECT_MATERIAL α))
    (tag : String) (material : OBJECT_MATERIAL α) :
    ∀ (fuel index : Nat), mats.length - index ≤ fuel →
      (∀ (j : Nat) (hj : j < mats.length), index ≤ j → (mats.get ⟨j, hj⟩).tag ≠ tag) →
      SceneManager.FindMaterial.loop mats tag fuel index false material
        = Except.ok material := by
  intro fuel
  induction fuel with
  | zero =>
    intro index hfuel _
    have : ¬ index < mats.length := by omega
    simp [SceneManager.FindMaterial.loop, this]
  | succ fuel ih =>
    intro index hfuel hno
    by_cases hlt : index < mats.length
    · have hcond : index < mats.length ∧ false = false := ⟨hlt, rfl⟩
      have hne := hno index hlt (le_refl _)
      simp only [SceneManager.FindMaterial.loop, hcond, dite_true, hne, if_false, and_self]
      exact ih (index + 1) (by omega) (fun j hj hij => hno j hj (by omega))
    · simp [SceneManager.FindMaterial.loop, hlt]

/-- On a non-empty material list, a tag that no entry carries makes
`FindMaterial` return true with the output parameter untouched. -/
theorem SceneManager.FindMaterial_no_match (sm : SceneManager α) (tag : String)
    (material : OBJECT_MATERIAL α) (hne : sm.m_objectMaterials ≠ [])
    (hno : ∀ e ∈ sm.m_objectMaterials, e.tag ≠ tag) :
    sm.FindMaterial tag material = Except.ok (true, material) := by
  have hlen : ¬ sm.m_objectMaterials.length = 0 := by
    simpa [List.length_eq_zero] using hne
  have hloop := SceneManager.FindMaterial.loop_material_no_match sm.m_objectMaterials tag
    material sm.m_objectMaterials.length 0 (by omega)
    (fun j hj _ => hno _ (List.get_mem _ _ _))
  simp only [SceneManager.FindMaterial, hlen, if_false, hloop]

end LookupMiss

/-! ## Material and texture lookups at draw time -/

section DrawTimeLookups

variable {α : Type}

/-- C11, evaluated where the code departs from it: in the list "silver",
"wood", "wood" no entry carries the tag "plastic", and `FindMaterial` returns
true, with the output parameter untouched. -/
theorem SceneManager.FindMaterial_true_without_match :
    (∀ e ∈ SceneManager.threeMaterials.m_objectMaterials, e.tag ≠ "plastic")
    ∧ SceneManager.threeMaterials.FindMaterial "plastic" SceneManager.blankMaterial
      = Except.ok (true, SceneManager.blankMaterial) := by
  have hno : ∀ e ∈ SceneManager.threeMaterials.m_objectMaterials, e.tag ≠ "plastic" := by
    intro e he
    simp only [SceneManager.threeMaterials, SceneManager.defineMaterial, SceneManager.new,
      List.nil_append, List.cons_append, List.mem_cons, List.mem_singleton,
      List.not_mem_nil, or_false] at he
    rcases he with h | h | h <;> subst h <;> decide
  exact ⟨hno, SceneManager.FindMaterial_no_match _ _ _ (by
    simp [SceneManager.threeMaterials, SceneManager.defineMaterial]) hno⟩

/-- C12, evaluated where the code departs from it: with the materials "silver",
"wood", "wood" defined, `SetShaderMaterial("plastic")` writes all five material
uniforms, with the values the uninitialised local happens to hold. -/
theorem SceneManager.SetShaderMaterial_writes_without_match :
    (∀ e ∈ SceneManager.threeMaterialsWithShader.m_objectMaterials, e.tag ≠ "plastic")
    ∧ ∃ sm1 : SceneManager ℚ,
      SceneManager.threeMaterialsWithShader.SetShaderMaterial "plastic"
          SceneManager.blankMaterial = Except.ok sm1
      ∧ sm1.m_pShaderManager
        = some ⟨[("material.ambientColor", UniformValue.vec3 ⟨0, 0, 0⟩),
            ("material.ambientStrength", UniformValue.float 0),
            ("material.diffuseColor", UniformValue.vec3 ⟨0, 0, 0⟩),
            ("material.specularColor", UniformValue.vec3 ⟨0, 0, 0⟩),
            ("material.shininess", UniformValue.float 0)]⟩ := by
  have hno : ∀ e ∈ SceneManager.threeMaterialsWithShader.m_objectMaterials,
      e.tag ≠ "plastic" := by
    intro e he
    simp only [SceneManager.threeMaterialsWithShader, SceneManager.threeMaterials,
      SceneManager.defineMaterial, SceneManager.new,
      List.nil_append, List.cons_append, List.mem_cons, List.mem_singleton,
      List.not_mem_nil, or_false] at he
    rcases he with h | h | h <;> subst h <;> decide
  exact ⟨hno, _, rfl, rfl⟩

/-- C13: with a non-null shader manager and a loaded count of at most 16, a tag
that no loaded entry carries is resolved to `-1`, and `SetShaderTexture` runs
without fault and appends two writes: 1 to "bUseTexture" and `-1` to the
sampler uniform "objectTexture". -/
theorem SceneManager.SetShaderTexture_unregistered (sm : SceneManager α)
    (sh : ShaderManager α) (tag : String) (hsh : sm.m_pShaderManager = some sh)
    (h16 : sm.m_loadedTextures ≤ 16)
    (hno : ∀ i : Fin 16, (i.val : Int) < sm.m_loadedTextures → (sm.m_textureIDs i).tag ≠ tag) :
    sm.FindTextureSlot tag = Except.ok (-1)
    ∧ sm.SetShaderTexture tag
      = Except.ok
          { sm with
            m_pShaderManager :=
              some ⟨sh.writes ++ [("bUseTexture", UniformValue.int 1),
                ("objectTexture", UniformValue.sampler2D (-1))]⟩ } := by
  have hslot : sm.FindTextureSlot tag = Except.ok (-1) := by
    have h := SceneManager.FindTextureSlot.loop_no_match sm tag h16 (-1)
      sm.m_loadedTextures.toNat 0 (by omega) (fun i _ hi => hno i hi)
    exact_mod_cast h
  refine ⟨hslot, ?_⟩
  simp [SceneManager.SetShaderTexture, hsh, hslot, ShaderManager.setIntValue,
    ShaderManager.setSampler2DValue, g_UseTextureName, g_TextureValueName]

/-- C13 at a registry with two loaded textures and the tag "marble". -/
theorem SceneManager.SetShaderTexture_unregistered_witness :
    ({ SceneManager.twoLoaded with m_pShaderManager := some ⟨[]⟩ }
        : SceneManager ℚ).m_pShaderManager = some ⟨[]⟩
    ∧ ({ SceneManager.twoLoaded with m_pShaderManager := some ⟨[]⟩ }
        : SceneManager ℚ).m_loadedTextures ≤ 16
    ∧ (∀ i : Fin 16, (i.val : Int) < ({ SceneManager.twoLoaded with
          m_pShaderManager := some ⟨[]⟩ } : SceneManager ℚ).m_loadedTextures →
        (({ SceneManager.twoLoaded with m_pShaderManager := some ⟨[]⟩ }
          : SceneManager ℚ).m_textureIDs i).tag ≠ "marble")
    ∧ ({ SceneManager.twoLoaded with m_pShaderManager := some ⟨[]⟩ }
        : SceneManager ℚ).FindTextureSlot "marble" = Except.ok (-1)
    ∧ ({ SceneManager.twoLoaded with m_pShaderManager := some ⟨[]⟩ }
        : SceneManager ℚ).SetShaderTexture "marble"
      = Except.ok
          { ({ SceneManager.twoLoaded with m_pShaderManager := some ⟨[]⟩ }
              : SceneManager ℚ) with
            m_pShaderManager :=
              some ⟨[] ++ [("bUseTexture", UniformValue.int 1),
                ("objectTexture", UniformValue.sampler2D (-1))]⟩ } :=
  ⟨rfl, by decide, by decide,
    SceneManager.SetShaderTexture_unregistered
      { SceneManager.twoLoaded with m_pShaderManager := some ⟨[]⟩ } ⟨[]⟩ "marble" rfl
      (by decide) (by decide)⟩

end DrawTimeLookups
/-! ## The rendered scene and its preparation -/

section ObjectGroups

variable {α : Type}

/-- Every object group holds exactly one draw call, its last call, and at most
one material push. -/
theorem SceneManager.SceneObject.group_shape (o : SceneManager.SceneObject α) :
    (o.group.filter SceneManager.Call.isDraw).length = 1
    ∧ o.group.getLast? = some (SceneManager.Primitive.draw o.primitive)
    ∧ o.group.length = (if o.materialTag.isSome then 5 else 4) := by
  obtain ⟨s, x, y, z, p, t, u, v, m, prim⟩ := o
  cases m <;> cases prim <;>
    simp [SceneManager.SceneObject.group, SceneManager.Primitive.draw, SceneManager.Call.isDraw,
      SceneManager.Call.primitive?, List.filter]

end ObjectGroups

section SceneComposition

variable {α : Type} [Field α]

/-- The call statements of `RenderScene`, in source order, are the
concatenation of the groups of the 25 scene objects; the body holds exactly
25 draw statements, one per object. -/
theorem SceneManager.RenderScene_calls_are_object_groups (F : Numerics α)
    (uninitialised : OBJECT_MATERIAL α) (sm : SceneManager α) :
    (SceneManager.RenderScene.objects : List (SceneManager.SceneObject α)).length = 25
    ∧ (SceneManager.RenderScene.calls : List (SceneManager.Call α))
      = (SceneManager.RenderScene.objects).flatMap SceneManager.SceneObject.group
    ∧ ((SceneManager.RenderScene.calls : List (SceneManager.Call α)).filter
        SceneManager.Call.isDraw).length = 25
    ∧ ((SceneManager.RenderScene.calls : List (SceneManager.Call α)).filterMap
        SceneManager.Call.primitive?)
      = (SceneManager.RenderScene.objects : List (SceneManager.SceneObject α)).map
          (fun o => o.primitive)
    ∧ (∀ o : SceneManager.SceneObject α,
        (o.group.filter SceneManager.Call.isDraw).length = 1
        ∧ o.group.getLast? = some (SceneManager.Primitive.draw o.primitive))
    ∧ sm.RenderScene F uninitialised
      = SceneManager.Call.execAll F uninitialised sm
          ((SceneManager.RenderScene.objects).flatMap SceneManager.SceneObject.group) :=
  ⟨rfl, rfl, rfl, rfl, fun o => ⟨(SceneManager.SceneObject.group_shape o).1,
    (SceneManager.SceneObject.group_shape o).2.1⟩, rfl⟩

/-- The nine calls of `LoadSceneTextures` fit into the texture array. -/
theorem SceneManager.LoadSceneTextures.calls_fit (env : SceneManager.TextureEnv) :
    ((SceneManager.LoadSceneTextures.calls env).filter
      SceneManager.TextureCall.loads).length ≤ 16 := by
  have hlen : (SceneManager.LoadSceneTextures.calls env).length = 9 := by
    simp [SceneManager.LoadSceneTextures.calls, SceneManager.LoadSceneTextures.files]
  have := List.length_filter_le SceneManager.TextureCall.loads
    (SceneManager.LoadSceneTextures.calls env)
  omega

/-- C15, evaluated where the code departs from it: on a freshly constructed
scene manager, whatever the image files hold, `PrepareScene` runs without
fault, leaves the material list empty and hands back the shader manager as it
got it, without any write; so afterwards "plastic" does not resolve and
`SetShaderMaterial("plastic")` does nothing, and "bUseLighting" has not been
written, although `SetupSceneLights`, which nothing calls, would write true
to it. -/
theorem SceneManager.PrepareScene_defines_no_material_no_light (F : Numerics α)
    (sh : ShaderManager α) (env : SceneManager.TextureEnv) :
    ∃ sm1 : SceneManager α,
      (SceneManager.new (some sh)).PrepareScene env = Except.ok sm1
      ∧ sm1.m_objectMaterials = []
      ∧ sm1.m_pShaderManager = some sh
      ∧ (∀ material : OBJECT_MATERIAL α,
          sm1.FindMaterial "plastic" material = Except.ok (false, material))
      ∧ (∀ uninitialised : OBJECT_MATERIAL α,
          sm1.SetShaderMaterial "plastic" uninitialised = Except.ok sm1)
      ∧ ∃ sm2 sh2, sm1.SetupSceneLights F = Except.ok sm2
          ∧ sm2.m_pShaderManager = some sh2
          ∧ sh2.value? "bUseLighting" = some (UniformValue.bool true) := by
  obtain ⟨sm1, hseq, _, hsh, hmat, _, _, _⟩ :=
    SceneManager.CreateGLTexture.seq_effect (SceneManager.LoadSceneTextures.calls env)
      (SceneManager.new (some sh)) (le_refl _)
      (by
        have := SceneManager.LoadSceneTextures.calls_fit env
        simp only [SceneManager.new]
        omega)
  have hmat1 : sm1.m_objectMaterials = [] := by simpa [SceneManager.new] using hmat
  have hsh1 : sm1.m_pShaderManager = some sh := by simpa [SceneManager.new] using hsh
  refine ⟨sm1, ?_, hmat1, hsh1, ?_, ?_, ?_⟩
  · simp only [SceneManager.PrepareScene, SceneManager.LoadSceneTextures, hseq]
  · intro material
    simp [SceneManager.FindMaterial, hmat1]
  · intro uninitialised
    simp [SceneManager.SetShaderMaterial, hmat1]
  · simp only [SceneManager.SetupSceneLights, hsh1]
    refine ⟨_, _, rfl, rfl, ?_⟩
    simp [ShaderManager.value?, ShaderManager.setBoolValue, ShaderManager.setVec3Value,
      ShaderManager.setFloatValue, g_UseLightingName]

end SceneComposition

/-! ## The view manager -/

section ViewController

variable {α : Type} [Field α]

/-- With no key pressed `ProcessKeyboardEvents` changes nothing. -/
theorem ViewManager.ProcessKeyboardEvents_no_key (env : ViewEnv α) (vm : ViewManager α) :
    vm.ProcessKeyboardEvents env Keys.none = vm := by
  obtain ⟨sh, close, cam, lastX, lastY, first, delta, last, ortho⟩ := vm
  cases cam <;>
    simp [ViewManager.ProcessKeyboardEvents, ViewManager.ProcessKeyboardEvents.movement,
      Keys.none]

/-- C16: a frame in which no key is pressed (mouse and scroll events are not
delivered inside `PrepareSceneView`) runs without fault when the camera
exists and leaves the whole camera, so its position, front, up and zoom, and
the projection mode as they were, for every elapsed time; the close flag and
the mouse bookkeeping are kept as well. -/
theorem ViewManager.PrepareSceneView_no_input_keeps_pose (env : ViewEnv α)
    (vm : ViewManager α) (cam : Camera α) (time : α) (hcam : vm.g_pCamera = some cam) :
    ∃ vm1 : ViewManager α,
      vm.PrepareSceneView env time Keys.none = Except.ok vm1
      ∧ vm1.g_pCamera = some cam
      ∧ vm1.bOrthographicProjection = vm.bOrthographicProjection
      ∧ vm1.windowShouldClose = vm.windowShouldClose
      ∧ vm1.gLastX = vm.gLastX ∧ vm1.gLastY = vm.gLastY
      ∧ vm1.gFirstMouse = vm.gFirstMouse := by
  cases hsh : vm.m_pShaderManager with
  | none =>
    simp only [ViewManager.PrepareSceneView, ViewManager.ProcessKeyboardEvents_no_key, hcam, hsh]
    exact ⟨_, rfl, rfl, rfl, rfl, rfl, rfl, rfl⟩
  | some sh =>
    simp only [ViewManager.PrepareSceneView, ViewManager.ProcessKeyboardEvents_no_key, hcam, hsh]
    exact ⟨_, rfl, rfl, rfl, rfl, rfl, rfl, rfl⟩

/-- C16 at the view manager after construction, one second into the run. -/
theorem ViewManager.PrepareSceneView_no_input_keeps_pose_witness :
    ViewManager.initial.g_pCamera
      = some { CameraClass.rational.construct with
          Position := ⟨0, 5, 12⟩, Front := ⟨0, -1 / 2, -2⟩, Up := ⟨0, 1, 0⟩, Zoom := 80,
          MovementSpeed := 20 }
    ∧ ∃ vm1 : ViewManager ℚ,
      ViewManager.initial.PrepareSceneView ViewEnv.rational 1 Keys.none = Except.ok vm1
      ∧ vm1.g_pCamera
        = some { CameraClass.rational.construct with
            Position := ⟨0, 5, 12⟩, Front := ⟨0, -1 / 2, -2⟩, Up := ⟨0, 1, 0⟩, Zoom := 80,
            MovementSpeed := 20 }
      ∧ vm1.bOrthographicProjection = ViewManager.initial.bOrthographicProjection
      ∧ vm1.windowShouldClose = ViewManager.initial.windowShouldClose
      ∧ vm1.gLastX = ViewManager.initial.gLastX ∧ vm1.gLastY = ViewManager.initial.gLastY
      ∧ vm1.gFirstMouse = ViewManager.initial.gFirstMouse :=
  ⟨by decide!, ViewManager.PrepareSceneView_no_input_keeps_pose ViewEnv.rational
    ViewManager.initial _ 1 (by decide!)⟩

/-- A frame with only O pressed: the orthographic preset. -/
theorem ViewManager.ProcessKeyboardEvents_onlyO (env : ViewEnv α) (vm : ViewManager α)
    (cam : Camera α) (hcam : vm.g_pCamera = some cam) :
    vm.ProcessKeyboardEvents env Keys.onlyO
      = { vm with
          bOrthographicProjection := true
          g_pCamera :=
            some { cam with
              Position := ⟨-5.0, 5.0, 10.0⟩
              Front := ⟨0.0, 0.0, -1.0⟩
              Up := ⟨0.0, 1.0, 0.0⟩ } } := by
  simp [ViewManager.ProcessKeyboardEvents, ViewManager.ProcessKeyboardEvents.movement,
    ViewManager.onCamera, Keys.onlyO, Keys.none, hcam]

/-- A frame with only P pressed: the perspective preset. -/
theorem ViewManager.ProcessKeyboardEvents_onlyP (env : ViewEnv α) (vm : ViewManager α)
    (cam : Camera α) (hcam : vm.g_pCamera = some cam) :
    vm.ProcessKeyboardEvents env Keys.onlyP
      = { vm with
          bOrthographicProjection := false
          g_pCamera :=
            some { cam with
              Position := ⟨0.0, 5.5, 8.0⟩
              Front := ⟨0.0, -0.5, -2.0⟩
              Up := ⟨0.0, 1.0, 0.0⟩
              Zoom := 125 } } := by
  simp [ViewManager.ProcessKeyboardEvents, ViewManager.ProcessKeyboardEvents.movement,
    ViewManager.onCamera, Keys.onlyP, Keys.none, hcam]

/-- A frame keeps the camera and the mode that its keyboard processing leaves,
when that leaves a camera. -/
theorem ViewManager.PrepareSceneView_pose (env : ViewEnv α) (vm : ViewManager α) (time : α)
    (keys : Keys) (cam1 : Camera α)
    (hcam : (ViewManager.ProcessKeyboardEvents env
      { vm with gDeltaTime := env.narrow time - vm.gLastFrame, gLastFrame := env.narrow time }
      keys).g_pCamera = some cam1) :
    ∃ vm1 : ViewManager α,
      vm.PrepareSceneView env time keys = Except.ok vm1
      ∧ vm1.g_pCamera = some cam1
      ∧ vm1.bOrthographicProjection
        = (ViewManager.ProcessKeyboardEvents env
            { vm with gDeltaTime := env.narrow time - vm.gLastFrame,
                      gLastFrame := env.narrow time } keys).bOrthographicProjection := by
  cases hsh : (ViewManager.ProcessKeyboardEvents env
      { vm with gDeltaTime := env.narrow time - vm.gLastFrame, gLastFrame := env.narrow time }
      keys).m_pShaderManager with
  | none =>
    simp only [ViewManager.PrepareSceneView, hcam, hsh]
    exact ⟨_, rfl, hcam, rfl⟩
  | some sh =>
    simp only [ViewManager.PrepareSceneView, hcam, hsh]
    exact ⟨_, rfl, rfl, rfl⟩

/-- A frame with only O pressed ends in orthographic mode with the
orthographic preset. -/
theorem ViewManager.PrepareSceneView_onlyO (env : ViewEnv α) (vm : ViewManager α)
    (cam : Camera α) (time : α) (hcam : vm.g_pCamera = some cam) :
    ∃ vm1 : ViewManager α,
      vm.PrepareSceneView env time Keys.onlyO = Except.ok vm1
      ∧ vm1.g_pCamera
        = some { cam with
            Position := ⟨-5.0, 5.0, 10.0⟩
            Front := ⟨0.0, 0.0, -1.0⟩
            Up := ⟨0.0, 1.0, 0.0⟩ }
      ∧ vm1.bOrthographicProjection = true := by
  have hkeys := ViewManager.ProcessKeyboardEvents_onlyO env
    { vm with gDeltaTime := env.narrow time - vm.gLastFrame, gLastFrame := env.narrow time }
    cam hcam
  obtain ⟨vm1, h1, hc1, hm1⟩ := ViewManager.PrepareSceneView_pose env vm time Keys.onlyO _
    (by rw [hkeys])
  exact ⟨vm1, h1, hc1, by rw [hm1, hkeys]⟩

/-- A frame with only P pressed ends in perspective mode with the perspective
preset. -/
theorem ViewManager.PrepareSceneView_onlyP (env : ViewEnv α) (vm : ViewManager α)
    (cam : Camera α) (time : α) (hcam : vm.g_pCamera = some cam) :
    ∃ vm1 : ViewManager α,
      vm.PrepareSceneView env time Keys.onlyP = Except.ok vm1
      ∧ vm1.g_pCamera
        = some { cam with
            Position := ⟨0.0, 5.5, 8.0⟩
            Front := ⟨0.0, -0.5, -2.0⟩
            Up := ⟨0.0, 1.0, 0.0⟩
            Zoom := 125 }
      ∧ vm1.bOrthographicProjection = false := by
  have hkeys := ViewManager.ProcessKeyboardEvents_onlyP env
    { vm with gDeltaTime := env.narrow time - vm.gLastFrame, gLastFrame := env.narrow time }
    cam hcam
  obtain ⟨vm1, h1, hc1, hm1⟩ := ViewManager.PrepareSceneView_pose env vm time Keys.onlyP _
    (by rw [hkeys])
  exact ⟨vm1, h1, hc1, by rw [hm1, hkeys]⟩

end ViewController

section ProjectionToggle

variable {α : Type} [Field α] [CharZero α]

/-- C17: from every state with a camera (the projection mode before does not
matter), a frame with only O pressed followed by a frame with only P pressed
runs without fault, passes through orthographic mode and ends in perspective
mode with position (0, 5.5, 8), front (0, -0.5, -2), up (0, 1, 0) and zoom
125, the other camera fields being those before the toggles; a single frame
with only P pressed ends with the same camera and mode. -/
theorem ViewManager.toggle_twice_restores_perspective_preset (env : ViewEnv α)
    (vm : ViewManager α) (cam : Camera α) (t1 t2 t3 : α) (hcam : vm.g_pCamera = some cam) :
    ∃ vm1 vm2 vm3 : ViewManager α,
      vm.PrepareSceneView env t1 Keys.onlyO = Except.ok vm1
      ∧ vm1.bOrthographicProjection = true
      ∧ vm1.PrepareSceneView env t2 Keys.onlyP = Except.ok vm2
      ∧ vm2.bOrthographicProjection = false
      ∧ vm2.g_pCamera
        = some { cam with
            Position := ⟨0, 5.5, 8⟩, Front := ⟨0, -0.5, -2⟩, Up := ⟨0, 1, 0⟩, Zoom := 125 }
      ∧ vm.PrepareSceneView env t3 Keys.onlyP = Except.ok vm3
      ∧ vm3.bOrthographicProjection = false
      ∧ vm3.g_pCamera = vm2.g_pCamera := by
  obtain ⟨vm1, h1, hc1, hm1⟩ := ViewManager.PrepareSceneView_onlyO env vm cam t1 hcam
  obtain ⟨vm2, h2, hc2, hm2⟩ := ViewManager.PrepareSceneView_onlyP env vm1 _ t2 hc1
  obtain ⟨vm3, h3, hc3, hm3⟩ := ViewManager.PrepareSceneView_onlyP env vm cam t3 hcam
  refine ⟨vm1, vm2, vm3, h1, hm1, h2, hm2, ?_, h3, hm3, ?_⟩
  · rw [hc2]
    norm_num
  · rw [hc3, hc2]

/-- C17 at the view manager after construction. -/
theorem ViewManager.toggle_twice_restores_perspective_preset_witness :
    ViewManager.initial.g_pCamera
      = some { CameraClass.rational.construct with
          Position := ⟨0, 5, 12⟩, Front := ⟨0, -1 / 2, -2⟩, Up := ⟨0, 1, 0⟩, Zoom := 80,
          MovementSpeed := 20 }
    ∧ ∃ vm1 vm2 vm3 : ViewManager ℚ,
      ViewManager.initial.PrepareSceneView ViewEnv.rational 1 Keys.onlyO = Except.ok vm1
      ∧ vm1.bOrthographicProjection = true
      ∧ vm1.PrepareSceneView ViewEnv.rational 2 Keys.onlyP = Except.ok vm2
      ∧ vm2.bOrthographicProjection = false
      ∧ vm2.g_pCamera
        = some { ({ CameraClass.rational.construct with
              Position := ⟨0, 5, 12⟩, Front := ⟨0, -1 / 2, -2⟩, Up := ⟨0, 1, 0⟩, Zoom := 80,
              MovementSpeed := 20 } : Camera ℚ) with
            Position := ⟨0, 5.5, 8⟩, Front := ⟨0, -0.5, -2⟩, Up := ⟨0, 1, 0⟩, Zoom := 125 }
      ∧ ViewManager.initial.PrepareSceneView ViewEnv.rational 3 Keys.onlyP = Except.ok vm3
      ∧ vm3.bOrthographicProjection = false
      ∧ vm3.g_pCamera = vm2.g_pCamera :=
  ⟨by decide!, ViewManager.toggle_twice_restores_perspective_preset ViewEnv.rational
    ViewManager.initial _ 1 2 3 (by decide!)⟩

end ProjectionToggle

/-! ## The presets of the projection toggle -/

section TogglePresets

variable {α : Type} [Field α]

/-- The effect of `ProcessKeyboardEvents` on a state with a camera: the
movement keys change the camera; then O, if pressed,
sets the orthographic preset and mode; then P, if pressed, sets the
perspective preset and mode. -/
theorem ViewManager.ProcessKeyboardEvents_presets (env : ViewEnv α) (vm : ViewManager α)
    (cam : Camera α) (keys : Keys) (hcam : vm.g_pCamera = some cam) :
    (vm.ProcessKeyboardEvents env keys).g_pCamera
        = some (if keys.P then
            { ViewManager.ProcessKeyboardEvents.movement env vm.gDeltaTime keys cam with
              Position := ⟨0.0, 5.5, 8.0⟩
              Front := ⟨0.0, -0.5, -2.0⟩
              Up := ⟨0.0, 1.0, 0.0⟩
              Zoom := 125 }
          else if keys.O then
            { ViewManager.ProcessKeyboardEvents.movement env vm.gDeltaTime keys cam with
              Position := ⟨-5.0, 5.0, 10.0⟩
              Front := ⟨0.0, 0.0, -1.0⟩
              Up := ⟨0.0, 1.0, 0.0⟩ }
          else ViewManager.ProcessKeyboardEvents.movement env vm.gDeltaTime keys cam)
      ∧ (vm.ProcessKeyboardEvents env keys).bOrthographicProjection
        = (if keys.P then false else if keys.O then true else vm.bOrthographicProjection) := by
  cases hesc : keys.ESCAPE <;> cases ho : keys.O <;> cases hp : keys.P <;>
    simp [ViewManager.ProcessKeyboardEvents, ViewManager.onCamera, hcam, hesc, ho, hp]

/-- C18, as stated, fails: the constructor sets the front vector to
(0, -0.5, -2), whose squared length is 17/4, so its length is not 1. -/
theorem ViewManager.constructor_front_not_unit :
    ∃ cam : Camera ℚ,
      ViewManager.initial.g_pCamera = some cam
      ∧ cam.Front = ⟨0, -1 / 2, -2⟩
      ∧ glm.dot cam.Front cam.Front = 17 / 4
      ∧ glm.dot cam.Front cam.Front ≠ 1 :=
  ⟨_, rfl, by decide!, by decide!, by decide!⟩

/-- C18, amended: the view manager writes constant front vectors and never
normalises them. After a frame's keyboard processing with O pressed and P not
pressed the front vector is (0, 0, -1), of squared length 1, so of length 1;
after construction, and after keyboard processing with P pressed, it is
(0, -0.5, -2), of squared length 17/4. -/
theorem ViewManager.front_after_own_writes (env : ViewEnv ℚ) :
    (∀ sh : Option (ShaderManager ℚ), ∃ cam : Camera ℚ,
      (ViewManager.new env sh).g_pCamera = some cam
      ∧ cam.Front = ⟨0, -1 / 2, -2⟩ ∧ glm.dot cam.Front cam.Front = 17 / 4)
    ∧ (∀ (vm : ViewManager ℚ) (cam : Camera ℚ) (keys : Keys),
        vm.g_pCamera = some cam → keys.O = true → keys.P = false →
        ∃ cam1 : Camera ℚ,
          (vm.ProcessKeyboardEvents env keys).g_pCamera = some cam1
          ∧ cam1.Front = ⟨0, 0, -1⟩ ∧ glm.dot cam1.Front cam1.Front = 1)
    ∧ (∀ (vm : ViewManager ℚ) (cam : Camera ℚ) (keys : Keys),
        vm.g_pCamera = some cam → keys.P = true →
        ∃ cam1 : Camera ℚ,
          (vm.ProcessKeyboardEvents env keys).g_pCamera = some cam1
          ∧ cam1.Front = ⟨0, -1 / 2, -2⟩ ∧ glm.dot cam1.Front cam1.Front = 17 / 4) := by
  refine ⟨fun sh => ⟨_, rfl, ?_, ?_⟩, ?_, ?_⟩
  · norm_num
  · norm_num [glm.dot]
  · intro vm cam keys hcam ho hp
    refine ⟨_, (ViewManager.ProcessKeyboardEvents_presets env vm cam keys hcam).1, ?_, ?_⟩
    · simp only [ho, hp]
      norm_num
    · simp only [ho, hp]
      norm_num [glm.dot]
  · intro vm cam keys hcam hp
    refine ⟨_, (ViewManager.ProcessKeyboardEvents_presets env vm cam keys hcam).1, ?_, ?_⟩
    · simp only [hp]
      norm_num
    · simp only [hp]
      norm_num [glm.dot]

/-- C18, amended, at the view manager after construction with the keys O, then
P, pressed. -/
theorem ViewManager.front_after_own_writes_witness :
    ViewManager.initial.g_pCamera = some Camera.initial
    ∧ Keys.onlyO.O = true ∧ Keys.onlyO.P = false ∧ Keys.onlyP.P = true
    ∧ (∃ cam1 : Camera ℚ,
        (ViewManager.initial.ProcessKeyboardEvents ViewEnv.rational Keys.onlyO).g_pCamera
          = some cam1
        ∧ cam1.Front = ⟨0, 0, -1⟩ ∧ glm.dot cam1.Front cam1.Front = 1)
    ∧ ∃ cam1 : Camera ℚ,
        (ViewManager.initial.ProcessKeyboardEvents ViewEnv.rational Keys.onlyP).g_pCamera
          = some cam1
        ∧ cam1.Front = ⟨0, -1 / 2, -2⟩ ∧ glm.dot cam1.Front cam1.Front = 17 / 4 :=
  ⟨by decide!, rfl, rfl, rfl,
    (ViewManager.front_after_own_writes ViewEnv.rational).2.1 ViewManager.initial
      Camera.initial Keys.onlyO (by decide!) rfl rfl,
    (ViewManager.front_after_own_writes ViewEnv.rational).2.2 ViewManager.initial
      Camera.initial Keys.onlyP (by decide!) rfl⟩

end TogglePresets

/-! ## The mouse callback and the per-frame shader writes -/

section MouseAndShader

variable {α : Type} [Field α]

/-- C19, as stated, fails: the remembered position is a `float`. For the first
sample x = 400 + 2^-20, a `double` that is not a `float`, the remembered x
becomes 400 and the x offset handed to the camera is 2^-20, not 0. -/
theorem ViewManager.first_sample_offset_not_zero :
    (ViewManager.new ViewEnv.rounding none).gFirstMouse = true
    ∧ (ViewManager.Mouse_Position_Callback.locals ViewEnv.rounding
        (ViewManager.new ViewEnv.rounding none) (400 + 1 / 1048576) 300).1.gLastX = 400
    ∧ (ViewManager.Mouse_Position_Callback.locals ViewEnv.rounding
        (ViewManager.new ViewEnv.rounding none) (400 + 1 / 1048576) 300).2.1 = 1 / 1048576
    ∧ (ViewManager.Mouse_Position_Callback.locals ViewEnv.rounding
        (ViewManager.new ViewEnv.rounding none) (400 + 1 / 1048576) 300).2.1 ≠ 0 :=
  ⟨rfl, by decide!, by decide!, by decide!⟩

/-- C19, amended: for every first observed mouse sample (x, y), on a state
with a camera, the remembered last position becomes the sample converted to
`float`, the first-sample flag is cleared, and the camera receives the call
with the offsets (float)(x - (float)x) and (float)((float)y - y). When the
coordinates are representable as `float` (the conversion keeps them, and
keeps 0), the remembered position is (x, y) and both offsets are exactly 0. -/
theorem ViewManager.Mouse_Position_Callback_first_sample (env : ViewEnv α)
    (vm : ViewManager α) (cam : Camera α) (x y : α) (hfirst : vm.gFirstMouse = true)
    (hcam : vm.g_pCamera = some cam) :
    (ViewManager.Mouse_Position_Callback.locals env vm x y
        = ({ vm with gLastX := env.narrow x, gLastY := env.narrow y, gFirstMouse := false },
           env.narrow (x - env.narrow x), env.narrow (env.narrow y - y))
      ∧ vm.Mouse_Position_Callback env x y
        = Except.ok
            { vm with
              gLastX := env.narrow x
              gLastY := env.narrow y
              gFirstMouse := false
              g_pCamera := some (env.camera.ProcessMouseMovement cam
                (env.narrow (x - env.narrow x)) (env.narrow (env.narrow y - y))) })
    ∧ (env.narrow x = x → env.narrow y = y → env.narrow 0 = 0 →
      ViewManager.Mouse_Position_Callback.locals env vm x y
        = ({ vm with gLastX := x, gLastY := y, gFirstMouse := false }, 0, 0)
      ∧ vm.Mouse_Position_Callback env x y
        = Except.ok
            { vm with
              gLastX := x
              gLastY := y
              gFirstMouse := false
              g_pCamera := some (env.camera.ProcessMouseMovement cam 0 0) }) := by
  have hlocals : ViewManager.Mouse_Position_Callback.locals env vm x y
      = ({ vm with gLastX := env.narrow x, gLastY := env.narrow y, gFirstMouse := false },
         env.narrow (x - env.narrow x), env.narrow (env.narrow y - y)) := by
    simp [ViewManager.Mouse_Position_Callback.locals, hfirst]
  have hcall : vm.Mouse_Position_Callback env x y
      = Except.ok
          { vm with
            gLastX := env.narrow x
            gLastY := env.narrow y
            gFirstMouse := false
            g_pCamera := some (env.camera.ProcessMouseMovement cam
              (env.narrow (x - env.narrow x)) (env.narrow (env.narrow y - y))) } := by
    simp only [ViewManager.Mouse_Position_Callback, hlocals, hcam]
  refine ⟨⟨hlocals, hcall⟩, ?_⟩
  intro hx hy h0
  rw [hlocals, hcall, hx, hy, sub_self, sub_self, h0]
  exact ⟨rfl, rfl⟩

/-- C19, amended, with binary32 rounding as the conversion to `float`, at the
view manager after construction and the sample (512, 384), whose coordinates
are representable. -/
theorem ViewManager.Mouse_Position_Callback_first_sample_witness :
    ViewManager.initial.gFirstMouse = true
    ∧ ViewManager.initial.g_pCamera = some Camera.initial
    ∧ ViewEnv.rounding.narrow 512 = 512 ∧ ViewEnv.rounding.narrow 384 = 384
    ∧ ViewEnv.rounding.narrow 0 = 0
    ∧ ViewManager.Mouse_Position_Callback.locals ViewEnv.rounding ViewManager.initial 512 384
      = ({ ViewManager.initial with gLastX := 512, gLastY := 384, gFirstMouse := false }, 0, 0)
    ∧ ViewManager.initial.Mouse_Position_Callback ViewEnv.rounding 512 384
      = Except.ok
          { ViewManager.initial with
            gLastX := 512
            gLastY := 384
            gFirstMouse := false
            g_pCamera := some (ViewEnv.rounding.camera.ProcessMouseMovement Camera.initial 0 0) } :=
  ⟨rfl, by decide!, by decide!, by decide!, by decide!,
    (ViewManager.Mouse_Position_Callback_first_sample ViewEnv.rounding ViewManager.initial
      Camera.initial 512 384 rfl (by decide!)).2 (by decide!) (by decide!) (by decide!)⟩

/-- C20: with a non-null shader manager and a camera, `PrepareSceneView` runs
without fault and appends five writes, "view", "projection", "viewPosition",
"spotLight.position" and "spotLight.direction", in this order; the last three
hold the position, the position and the front of the camera as the keyboard
processing of this same frame leaves it, and these are the current values of
the three uniforms afterwards. -/
theorem ViewManager.PrepareSceneView_pushes_camera_pose (env : ViewEnv α)
    (vm : ViewManager α) (sh : ShaderManager α) (cam : Camera α) (time : α) (keys : Keys)
    (hsh : vm.m_pShaderManager = some sh) (hcam : vm.g_pCamera = some cam) :
    ∃ (vm1 : ViewManager α) (cam1 : Camera α) (sh1 : ShaderManager α),
      vm.PrepareSceneView env time keys = Except.ok vm1
      ∧ (ViewManager.ProcessKeyboardEvents env
          { vm with gDeltaTime := env.narrow time - vm.gLastFrame,
                    gLastFrame := env.narrow time } keys).g_pCamera = some cam1
      ∧ vm1.g_pCamera = some cam1
      ∧ vm1.m_pShaderManager = some sh1
      ∧ sh1.writes
        = sh.writes ++
          [("view", UniformValue.mat4 (env.camera.GetViewMatrix cam1)),
           ("projection", UniformValue.mat4
              (ViewManager.PrepareSceneView.projection env vm1.bOrthographicProjection cam1)),
           ("viewPosition", UniformValue.vec3 cam1.Position),
           ("spotLight.position", UniformValue.vec3 cam1.Position),
           ("spotLight.direction", UniformValue.vec3 cam1.Front)]
      ∧ sh1.value? "viewPosition" = some (UniformValue.vec3 cam1.Position)
      ∧ sh1.value? "spotLight.position" = some (UniformValue.vec3 cam1.Position)
      ∧ sh1.value? "spotLight.direction" = some (UniformValue.vec3 cam1.Front) := by
  have hcam0 : ({ vm with
      gDeltaTime := env.narrow time - vm.gLastFrame
      gLastFrame := env.narrow time } : ViewManager α).g_pCamera = some cam := hcam
  have hkeys := (ViewManager.ProcessKeyboardEvents_presets env _ cam keys hcam0).1
  have hshader : (ViewManager.ProcessKeyboardEvents env
      { vm with
        gDeltaTime := env.narrow time - vm.gLastFrame
        gLastFrame := env.narrow time }
      keys).m_pShaderManager = some sh := by
    cases hesc : keys.ESCAPE <;> cases ho : keys.O <;> cases hp : keys.P <;>
      simp [ViewManager.ProcessKeyboardEvents, ViewManager.onCamera, hcam, hsh, hesc, ho, hp]
  simp only [ViewManager.PrepareSceneView, hkeys, hshader]
  refine ⟨_, _, _, rfl, rfl, rfl, rfl, ?_, ?_, ?_, ?_⟩
  · simp [ShaderManager.setMat4Value, ShaderManager.setVec3Value, g_ViewName, g_ProjectionName]
  · simp [ShaderManager.value?, ShaderManager.setMat4Value, ShaderManager.setVec3Value]
  · simp [ShaderManager.value?, ShaderManager.setMat4Value, ShaderManager.setVec3Value]
  · simp [ShaderManager.value?, ShaderManager.setMat4Value, ShaderManager.setVec3Value]

/-- C20 at the view manager after construction, one second into the run with W
pressed: the camera moves from (0, 5, 12) to (0, -5, -28) in this frame, and
this new position is what the frame writes. -/
theorem ViewManager.PrepareSceneView_pushes_camera_pose_witness :
    ViewManager.initial.m_pShaderManager = some ⟨[]⟩
    ∧ ViewManager.initial.g_pCamera = some Camera.initial
    ∧ (∃ (vm1 : ViewManager ℚ) (cam1 : Camera ℚ) (sh1 : ShaderManager ℚ),
      ViewManager.initial.PrepareSceneView ViewEnv.rational 1 Keys.onlyW = Except.ok vm1
      ∧ (ViewManager.ProcessKeyboardEvents ViewEnv.rational
          { ViewManager.initial with
            gDeltaTime := ViewEnv.rational.narrow 1 - ViewManager.initial.gLastFrame
            gLastFrame := ViewEnv.rational.narrow 1 } Keys.onlyW).g_pCamera = some cam1
      ∧ vm1.g_pCamera = some cam1
      ∧ vm1.m_pShaderManager = some sh1
      ∧ sh1.writes
        = [] ++
          [("view", UniformValue.mat4 (ViewEnv.rational.camera.GetViewMatrix cam1)),
           ("projection", UniformValue.mat4
              (ViewManager.PrepareSceneView.projection ViewEnv.rational
                vm1.bOrthographicProjection cam1)),
           ("viewPosition", UniformValue.vec3 cam1.Position),
           ("spotLight.position", UniformValue.vec3 cam1.Position),
           ("spotLight.direction", UniformValue.vec3 cam1.Front)]
      ∧ sh1.value? "viewPosition" = some (UniformValue.vec3 cam1.Position)
      ∧ sh1.value? "spotLight.position" = some (UniformValue.vec3 cam1.Position)
      ∧ sh1.value? "spotLight.direction" = some (UniformValue.vec3 cam1.Front))
    ∧ (ViewManager.ProcessKeyboardEvents ViewEnv.rational
          { ViewManager.initial with
            gDeltaTime := ViewEnv.rational.narrow 1 - ViewManager.initial.gLastFrame
            gLastFrame := ViewEnv.rational.narrow 1 } Keys.onlyW).g_pCamera
        = some { Camera.initial with Position := ⟨0, -5, -28⟩ } :=
  ⟨rfl, by decide!,
    ViewManager.PrepareSceneView_pushes_camera_pose ViewEnv.rational ViewManager.initial ⟨[]⟩
      Camera.initial 1 Keys.onlyW rfl (by decide!),
    by decide!⟩

end MouseAndShader

/-! ## The encryption activity -/

section XorCipher

open Encryption

/-- XOR with the same byte twice gives the byte back. -/
theorem Encryption.xor_xor_cancel (a b : Encryption.Byte) :
    Encryption.xor (Encryption.xor a b) b = a := by
  apply Fin.ext
  have ha := a.isLt
  have hb := b.isLt
  have hab : a.val ^^^ b.val < 256 :=
    Nat.xor_lt_two_pow (n := 8) (by simp) (by simp)
  simp only [Encryption.xor]
  rw [Nat.mod_eq_of_lt hab, Nat.xor_cancel_right]
  exact Nat.mod_eq_of_lt ha

/-- The loop started at `i` with an `output` as long as the source ends
without fault; it keeps the length and the bytes below `i`, and every byte
from `i` on is the XOR of the source byte with the key byte at `j % key_length`. -/
theorem Encryption.encrypt_decrypt.loop_effect (source key : List Encryption.Byte)
    (hkey : 0 < key.length) :
    ∀ (fuel i : Nat) (output : List Encryption.Byte), output.length = source.length →
      source.length - i ≤ fuel →
      ∃ out : List Encryption.Byte,
        Encryption.encrypt_decrypt.loop source key fuel i output = Except.ok out
        ∧ out.length = source.length
        ∧ (∀ j : Nat, j < i → out.get? j = output.get? j)
        ∧ (∀ (j : Nat) (hj : j < source.length), i ≤ j →
            out.get? j = some (Encryption.xor (source.get ⟨j, hj⟩)
              (key.get ⟨j % key.length, Nat.mod_lt _ hkey⟩))) := by
  intro fuel
  induction fuel with
  | zero =>
    intro i output hlen hfuel
    have hi : ¬ i < source.length := by omega
    refine ⟨output, by simp [Encryption.encrypt_decrypt.loop, hi], hlen, fun _ _ => rfl, ?_⟩
    intro j hj hij
    omega
  | succ fuel ih =>
    intro i output hlen hfuel
    by_cases hi : i < source.length
    · have hk : i % key.length < key.length := Nat.mod_lt _ hkey
      have hout : i < output.length := by omega
      obtain ⟨out, hloop, holen, hlow, hhigh⟩ :=
        ih (i + 1) (output.set i (Encryption.xor (source.get ⟨i, hi⟩)
          (key.get ⟨i % key.length, hk⟩))) (by simpa using hlen) (by omega)
      refine ⟨out, ?_, holen, ?_, ?_⟩
      · simp only [Encryption.encrypt_decrypt.loop, hi, if_true, List.get?_eq_get hi,
          List.get?_eq_get hk, hout]
        exact hloop
      · intro j hj
        rw [hlow j (by omega)]
        simp only [List.get?_eq_getElem?]
        rw [List.getElem?_set_ne (by omega)]
      · intro j hj hij
        by_cases hji : j = i
        · subst hji
          rw [hlow j (by omega)]
          simp only [List.get?_eq_getElem?]
          rw [List.getElem?_set_self hout]
        · exact hhigh j hj (by omega)
    · exact ⟨output, by simp [Encryption.encrypt_decrypt.loop, hi], hlen, fun _ _ => rfl,
        fun j hj hij => by omega⟩

/-- The byte `a ^ b` has the bit pattern of the XOR of the two patterns. -/
theorem Encryption.xor_val (a b : Encryption.Byte) :
    (Encryption.xor a b).val = a.val ^^^ b.val := by
  have hab : a.val ^^^ b.val < 256 := Nat.xor_lt_two_pow (n := 8) (by simp) (by simp)
  simp only [Encryption.xor]
  exact Nat.mod_eq_of_lt hab

/-- Both versions of `encrypt_decrypt` return, on a non-empty source and key,
the output the loop builds from the copy of the source. -/
theorem Encryption.encrypt_decrypt_runs (source key : List Encryption.Byte)
    (hsource : 0 < source.length) (hkey : 0 < key.length) :
    ∃ out : List Encryption.Byte,
      Encryption.encrypt_decrypt source key = Except.ok out
      ∧ Encryption.Original.encrypt_decrypt source key = Except.ok out
      ∧ out.length = source.length
      ∧ ∀ (i : Nat) (hi : i < source.length),
          out.get? i = some (Encryption.xor (source.get ⟨i, hi⟩)
            (key.get ⟨i % key.length, Nat.mod_lt _ hkey⟩)) := by
  obtain ⟨out, hloop, hlen, _, hhigh⟩ :=
    Encryption.encrypt_decrypt.loop_effect source key hkey source.length 0 source rfl
      (by omega)
  refine ⟨out, ?_, ?_, hlen, fun i hi => hhigh i hi (Nat.zero_le _)⟩
  · simp only [Encryption.encrypt_decrypt, hkey, hsource, gt_iff_lt, and_self, if_true, hloop]
  · simp only [Encryption.Original.encrypt_decrypt, hkey, hsource, gt_iff_lt, if_true, hloop,
      hlen]

/-- C25: for every non-empty source and non-empty key, `encrypt_decrypt` (both
versions) returns without a failed assertion or an out-of-range index; the
output has the length of the source, and its `i`-th byte is the XOR of
`source[i]` and `key[i mod key_length]` for every `i` below that length. -/
theorem Encryption.encrypt_decrypt_bytes (source key : List Encryption.Byte)
    (hsource : 0 < source.length) (hkey : 0 < key.length) :
    ∃ out : List Encryption.Byte,
      Encryption.encrypt_decrypt source key = Except.ok out
      ∧ Encryption.Original.encrypt_decrypt source key = Except.ok out
      ∧ out.length = source.length
      ∧ ∀ (i : Nat) (hi : i < source.length),
          i % key.length < key.length
          ∧ ∃ (ho : i < out.length),
            (out.get ⟨i, ho⟩).val
              = (source.get ⟨i, hi⟩).val
                ^^^ (key.get ⟨i % key.length, Nat.mod_lt _ hkey⟩).val := by
  obtain ⟨out, h1, h2, hlen, hbytes⟩ := Encryption.encrypt_decrypt_runs source key hsource hkey
  refine ⟨out, h1, h2, hlen, fun i hi => ⟨Nat.mod_lt _ hkey, by omega, ?_⟩⟩
  have h := hbytes i hi
  rw [List.get?_eq_get (by omega : i < out.length)] at h
  rw [Option.some.inj h, Encryption.xor_val]

/-- C23: for every non-empty source and non-empty key, encrypting returns a
ciphertext, and `encrypt_decrypt` applied to that ciphertext with the same key
returns the source, byte for byte; this holds for both versions. -/
theorem Encryption.encrypt_decrypt_round_trip (source key : List Encryption.Byte)
    (hsource : 0 < source.length) (hkey : 0 < key.length) :
    ∃ cipher : List Encryption.Byte,
      Encryption.encrypt_decrypt source key = Except.ok cipher
      ∧ Encryption.encrypt_decrypt cipher key = Except.ok source
      ∧ Encryption.Original.encrypt_decrypt source key = Except.ok cipher
      ∧ Encryption.Original.encrypt_decrypt cipher key = Except.ok source := by
  obtain ⟨cipher, h1, h2, hlen, hbytes⟩ :=
    Encryption.encrypt_decrypt_runs source key hsource hkey
  obtain ⟨plain, h3, h4, hlen2, hbytes2⟩ :=
    Encryption.encrypt_decrypt_runs cipher key (by omega) hkey
  have hplain : plain = source := by
    apply List.ext_get?
    intro i
    by_cases hi : i < source.length
    · have hc : i < cipher.length := by omega
      have hci := hbytes i hi
      rw [List.get?_eq_get hc] at hci
      rw [hbytes2 i hc, Option.some.inj hci, Encryption.xor_xor_cancel, List.get?_eq_get hi]
    · rw [List.get?_eq_none.2 (by omega), List.get?_eq_none.2 (by omega)]
  rw [hplain] at h3 h4
  exact ⟨cipher, h1, h3, h2, h4⟩

/-- C25 at the source "Hello" and the key "ab": the ciphertext is written out. -/
theorem Encryption.encrypt_decrypt_bytes_witness :
    0 < Encryption.sampleSource.length ∧ 0 < Encryption.sampleKey.length
    ∧ (∃ out : List Encryption.Byte,
      Encryption.encrypt_decrypt Encryption.sampleSource Encryption.sampleKey = Except.ok out
      ∧ Encryption.Original.encrypt_decrypt Encryption.sampleSource Encryption.sampleKey
        = Except.ok out
      ∧ out.length = Encryption.sampleSource.length
      ∧ ∀ (i : Nat) (hi : i < Encryption.sampleSource.length),
          i % Encryption.sampleKey.length < Encryption.sampleKey.length
          ∧ ∃ (ho : i < out.length),
            (out.get ⟨i, ho⟩).val
              = (Encryption.sampleSource.get ⟨i, hi⟩).val
                ^^^ (Encryption.sampleKey.get
                  ⟨i % Encryption.sampleKey.length, Nat.mod_lt _ (by decide)⟩).val)
    ∧ Encryption.encrypt_decrypt Encryption.sampleSource Encryption.sampleKey
      = Except.ok [41, 7, 13, 14, 14] :=
  ⟨by decide, by decide,
    Encryption.encrypt_decrypt_bytes Encryption.sampleSource Encryption.sampleKey (by decide)
      (by decide),
    rfl⟩

/-- C23 at the source "Hello" and the key "ab". -/
theorem Encryption.encrypt_decrypt_round_trip_witness :
    0 < Encryption.sampleSource.length ∧ 0 < Encryption.sampleKey.length
    ∧ (∃ cipher : List Encryption.Byte,
      Encryption.encrypt_decrypt Encryption.sampleSource Encryption.sampleKey
        = Except.ok cipher
      ∧ Encryption.encrypt_decrypt cipher Encryption.sampleKey
        = Except.ok Encryption.sampleSource
      ∧ Encryption.Original.encrypt_decrypt Encryption.sampleSource Encryption.sampleKey
        = Except.ok cipher
      ∧ Encryption.Original.encrypt_decrypt cipher Encryption.sampleKey
        = Except.ok Encryption.sampleSource)
    ∧ Encryption.encrypt_decrypt [41, 7, 13, 14, 14] Encryption.sampleKey
      = Except.ok Encryption.sampleSource :=
  ⟨by decide, by decide,
    Encryption.encrypt_decrypt_round_trip Encryption.sampleSource Encryption.sampleKey
      (by decide) (by decide),
    rfl⟩

/-- C24, evaluated where the code departs from it: two files that can both be
read and are both empty, hence identical, compare as false. -/
theorem Encryption.compare_files_empty_files_false :
    Encryption.read_file Encryption.twoEmptyFiles "a.txt"
      = Encryption.read_file Encryption.twoEmptyFiles "b.txt"
    ∧ Encryption.twoEmptyFiles "a.txt" = some []
    ∧ Encryption.twoEmptyFiles "b.txt" = some []
    ∧ Encryption.compare_files Encryption.twoEmptyFiles "a.txt" "b.txt" = false :=
  ⟨by decide, by decide, by decide, by decide⟩

/-- The result of `compare_files` for every pair of files: true exactly when
the two contents read are non-empty and equal. -/
theorem Encryption.compare_files_iff (fs : String → Option (List Encryption.Byte))
    (file1 file2 : String) :
    Encryption.compare_files fs file1 file2 = true
      ↔ (Encryption.read_file fs file1 ≠ []
          ∧ Encryption.read_file fs file1 = Encryption.read_file fs file2) := by
  simp only [Encryption.compare_files]
  cases h1 : Encryption.read_file fs file1 with
  | nil => simp
  | cons a as =>
    cases h2 : Encryption.read_file fs file2 with
    | nil => simp
    | cons b bs =>
      by_cases heq : a :: as = b :: bs
      · simp [heq]
      · simp [heq]

/-- The result of `compare_files` at two files holding "Hello", a third
holding "ab" and a missing file. -/
theorem Encryption.compare_files_iff_witness :
    (Encryption.compare_files Encryption.sampleFiles "a.txt" "b.txt" = true
      ↔ (Encryption.read_file Encryption.sampleFiles "a.txt" ≠ []
          ∧ Encryption.read_file Encryption.sampleFiles "a.txt"
            = Encryption.read_file Encryption.sampleFiles "b.txt"))
    ∧ Encryption.compare_files Encryption.sampleFiles "a.txt" "b.txt" = true
    ∧ Encryption.compare_files Encryption.sampleFiles "a.txt" "c.txt" = false
    ∧ Encryption.compare_files Encryption.sampleFiles "a.txt" "missing.txt" = false :=
  ⟨Encryption.compare_files_iff Encryption.sampleFiles "a.txt" "b.txt", by decide, by decide,
    by decide⟩

end XorCipher

/-! ## Teardown, program start and the texture array in the composed program -/

section ProgramLifecycle

variable {α : Type}

/-- C22, evaluated where the code departs from it: with two loaded textures
whose recorded names 1 and 2 are the live names, `DestroyGLTextures` runs
`glGenTextures` per loaded entry; afterwards 1 and 2 are still live, the new
names 3 and 4 are live as well, and the entries record 3 and 4. -/
theorem SceneManager.DestroyGLTextures_generates_instead_of_deleting :
    (SceneManager.twoLoaded.m_textureIDs 0).ID = 1
    ∧ (SceneManager.twoLoaded.m_textureIDs 1).ID = 2
    ∧ ∃ (sm1 : SceneManager ℚ) (gl1 : GLState),
      SceneManager.twoLoaded.DestroyGLTextures ⟨[1, 2]⟩ = Except.ok (sm1, gl1)
      ∧ gl1.liveTextures = [1, 2, 3, 4]
      ∧ (sm1.m_textureIDs 0).ID = 3 ∧ (sm1.m_textureIDs 1).ID = 4
      ∧ sm1.m_loadedTextures = 2 :=
  ⟨rfl, rfl, _, _, rfl, rfl, rfl, rfl, rfl⟩

/-- On a freshly constructed scene manager `PrepareScene` runs without fault
and loads as many textures as image loads succeed, at most nine. -/
theorem SceneManager.PrepareScene_fresh (sh : Option (ShaderManager α))
    (env : SceneManager.TextureEnv) :
    ∃ sm1 : SceneManager α,
      (SceneManager.new sh).PrepareScene env = Except.ok sm1
      ∧ sm1.m_loadedTextures
        = (((SceneManager.LoadSceneTextures.calls env).filter
            SceneManager.TextureCall.loads).length : Int)
      ∧ 0 ≤ sm1.m_loadedTextures ∧ sm1.m_loadedTextures ≤ 9 := by
  have hlen : (SceneManager.LoadSceneTextures.calls env).length = 9 := by
    simp [SceneManager.LoadSceneTextures.calls, SceneManager.LoadSceneTextures.files]
  have hle := List.length_filter_le SceneManager.TextureCall.loads
    (SceneManager.LoadSceneTextures.calls env)
  obtain ⟨sm1, hseq, hcount, _, _⟩ :=
    SceneManager.CreateGLTexture.seq_fresh sh (SceneManager.LoadSceneTextures.calls env)
      (by omega)
  refine ⟨sm1, ?_, hcount, by omega, by omega⟩
  simp only [SceneManager.PrepareScene, SceneManager.LoadSceneTextures, hseq]

/-- C21, evaluated where the code departs from it: when GLFW, the window and
GLEW come up and the shader load fails, `Initialize` returns true and `main`
ends with exit code 0; the same happens when it is the window pointer that is
null while `glewInit` reports success. A failure of `glfwInit` or `glewInit`
does give exit code 1. -/
theorem Application.main_exit_code_ignores_shader_and_window :
    (∃ sm1 : SceneManager ℚ,
      Application.Initialize StartupEnv.shaderLoadFails = Except.ok (true, true, some sm1))
    ∧ Application.main StartupEnv.shaderLoadFails = Except.ok 0
    ∧ (∃ sm1 : SceneManager ℚ,
      Application.Initialize { StartupEnv.shaderLoadFails with
          glfwCreateWindow := false, LoadShaders := true }
        = Except.ok (true, false, some sm1))
    ∧ Application.main { StartupEnv.shaderLoadFails with
          glfwCreateWindow := false, LoadShaders := true } = Except.ok 0
    ∧ Application.main { StartupEnv.shaderLoadFails with glfwInit := false } = Except.ok 1
    ∧ Application.main { StartupEnv.shaderLoadFails with glewInit := false } = Except.ok 1
    ∧ Application.main { StartupEnv.shaderLoadFails with LoadShaders := true } = Except.ok 0 := by
  obtain ⟨sm1, hprep, _⟩ := SceneManager.PrepareScene_fresh
    (some (⟨[]⟩ : ShaderManager ℚ)) SceneManager.allReadable
  have hinit : Application.Initialize StartupEnv.shaderLoadFails
      = Except.ok (true, true, some sm1) := by
    simp only [Application.Initialize, Application.InitializeGLFW, Application.InitializeGLEW,
      Application.CreateDisplayWindow, StartupEnv.shaderLoadFails]
    simp [hprep]
  have hinit2 : Application.Initialize { StartupEnv.shaderLoadFails with
      glfwCreateWindow := false, LoadShaders := true } = Except.ok (true, false, some sm1) := by
    simp only [Application.Initialize, Application.InitializeGLFW, Application.InitializeGLEW,
      Application.CreateDisplayWindow, StartupEnv.shaderLoadFails]
    simp [hprep]
  have hinit3 : Application.Initialize { StartupEnv.shaderLoadFails with LoadShaders := true }
      = Except.ok (true, true, some sm1) := by
    simp only [Application.Initialize, Application.InitializeGLFW, Application.InitializeGLEW,
      Application.CreateDisplayWindow, StartupEnv.shaderLoadFails]
    simp [hprep]
  refine ⟨⟨sm1, hinit⟩, ?_, ⟨sm1, hinit2⟩, ?_, ?_, ?_, ?_⟩
  · simp only [Application.main, hinit, EXIT_SUCCESS]
  · simp only [Application.main, hinit2, EXIT_SUCCESS]
  · simp [Application.main, Application.Initialize, Application.InitializeGLFW,
      StartupEnv.shaderLoadFails, EXIT_FAILURE]
  · simp [Application.main, Application.Initialize, Application.InitializeGLFW,
      Application.InitializeGLEW, StartupEnv.shaderLoadFails, EXIT_FAILURE]
  · simp only [Application.main, hinit3, EXIT_SUCCESS]

end ProgramLifecycle

/-! ## The texture array in the composed program -/

section TextureArrayBound

variable {α : Type}

/-- After any prefix of a call list on a fresh registry the count is the number
of loading calls of the prefix, between 0 and the length of the prefix. -/
theorem SceneManager.CreateGLTexture.seq_prefix (sh : Option (ShaderManager α))
    (calls : List SceneManager.TextureCall) (hlen : calls.length ≤ 16) (k : Nat) :
    ∃ smk : SceneManager α,
      SceneManager.CreateGLTexture.seq (SceneManager.new sh) (calls.take k)
        = Except.ok ((calls.take k).map SceneManager.TextureCall.loads, smk)
      ∧ 0 ≤ smk.m_loadedTextures ∧ smk.m_loadedTextures ≤ (k : Int)
      ∧ smk.m_loadedTextures ≤ (calls.length : Int) := by
  have hle := List.length_filter_le SceneManager.TextureCall.loads (calls.take k)
  have htake : (calls.take k).length = min k calls.length := List.length_take k calls
  have hmin1 : min k calls.length ≤ k := Nat.min_le_left _ _
  have hmin2 : min k calls.length ≤ calls.length := Nat.min_le_right _ _
  obtain ⟨smk, hseq, hcount, _, _⟩ :=
    SceneManager.CreateGLTexture.seq_fresh sh (calls.take k) (by omega)
  exact ⟨smk, hseq, by omega, by omega, by omega⟩

/-- With the count inside the array `CreateGLTexture` returns, whatever the
image is. -/
theorem SceneManager.CreateGLTexture_in_bounds (sm : SceneManager α)
    (h : 0 ≤ sm.m_loadedTextures ∧ sm.m_loadedTextures < 16) (image : Option Image)
    (textureID : Nat) (tag : String) :
    ∃ r : Bool × SceneManager α, sm.CreateGLTexture image textureID tag = Except.ok r := by
  unfold SceneManager.CreateGLTexture
  cases image with
  | none => exact ⟨_, rfl⟩
  | some img =>
    simp only [dif_pos h]
    repeat' split
    all_goals exact ⟨_, rfl⟩

/-- C27: on a fresh scene manager, whatever the image loads answer, before each
of the nine `CreateGLTexture` calls of `LoadSceneTextures` the loaded count is
between 0 and the number of calls already made, so the call writes inside the
16-entry array and returns; after `PrepareScene` the count is at most 9, also
when `Application::Initialize` runs it. The same holds with six calls and the
bound 6 in the original project. -/
theorem SceneManager.LoadSceneTextures_count_bounded (sh : Option (ShaderManager α))
    (env : SceneManager.TextureEnv) (start : StartupEnv α) :
    (∀ k : Fin 9, ∃ smk : SceneManager α,
      SceneManager.CreateGLTexture.seq (SceneManager.new sh)
          ((SceneManager.LoadSceneTextures.calls env).take k.val)
        = Except.ok (((SceneManager.LoadSceneTextures.calls env).take k.val).map
            SceneManager.TextureCall.loads, smk)
      ∧ 0 ≤ smk.m_loadedTextures ∧ smk.m_loadedTextures ≤ (k.val : Int)
      ∧ smk.m_loadedTextures < 16
      ∧ ∀ (image : Option Image) (textureID : Nat) (tag : String),
          ∃ r, smk.CreateGLTexture image textureID tag = Except.ok r)
    ∧ (∃ sm1 : SceneManager α,
        (SceneManager.new sh).PrepareScene env = Except.ok sm1
        ∧ 0 ≤ sm1.m_loadedTextures ∧ sm1.m_loadedTextures ≤ 9)
    ∧ (∃ (window : Bool) (sm1 : SceneManager α),
        Application.Initialize { start with glfwInit := true, glewInit := true }
          = Except.ok (true, window, some sm1)
        ∧ 0 ≤ sm1.m_loadedTextures ∧ sm1.m_loadedTextures ≤ 9)
    ∧ (∀ k : Fin 6, ∃ smk : SceneManager α,
      SceneManager.CreateGLTexture.seq (SceneManager.new sh)
          ((SceneManager.Original.LoadSceneTextures.calls env).take k.val)
        = Except.ok (((SceneManager.Original.LoadSceneTextures.calls env).take k.val).map
            SceneManager.TextureCall.loads, smk)
      ∧ 0 ≤ smk.m_loadedTextures ∧ smk.m_loadedTextures ≤ (k.val : Int)
      ∧ smk.m_loadedTextures < 16
      ∧ ∀ (image : Option Image) (textureID : Nat) (tag : String),
          ∃ r, smk.CreateGLTexture image textureID tag = Except.ok r)
    ∧ (∃ sm1 : SceneManager α,
        SceneManager.Original.LoadSceneTextures (SceneManager.new sh) env = Except.ok sm1
        ∧ 0 ≤ sm1.m_loadedTextures ∧ sm1.m_loadedTextures ≤ 6) := by
  have hlen : (SceneManager.LoadSceneTextures.calls env).length = 9 := by
    simp [SceneManager.LoadSceneTextures.calls, SceneManager.LoadSceneTextures.files]
  have hlenO : (SceneManager.Original.LoadSceneTextures.calls env).length = 6 := by
    simp [SceneManager.Original.LoadSceneTextures.calls,
      SceneManager.Original.LoadSceneTextures.files]
  refine ⟨?_, ?_, ?_, ?_, ?_⟩
  · intro k
    obtain ⟨smk, hseq, h0, hk, _⟩ := SceneManager.CreateGLTexture.seq_prefix sh
      (SceneManager.LoadSceneTextures.calls env) (by omega) k.val
    have hk9 := k.isLt
    exact ⟨smk, hseq, h0, hk, by omega, fun image textureID tag =>
      SceneManager.CreateGLTexture_in_bounds smk ⟨h0, by omega⟩ image textureID tag⟩
  · obtain ⟨sm1, hprep, _, h0, h9⟩ := SceneManager.PrepareScene_fresh sh env
    exact ⟨sm1, hprep, h0, h9⟩
  · obtain ⟨sm1, hprep, _, h0, h9⟩ :=
      SceneManager.PrepareScene_fresh (some start.shaderManager) start.textures
    refine ⟨start.glfwCreateWindow, sm1, ?_, h0, h9⟩
    simp only [Application.Initialize, Application.InitializeGLFW, Application.InitializeGLEW,
      Application.CreateDisplayWindow]
    simp [hprep]
  · intro k
    obtain ⟨smk, hseq, h0, hk, _⟩ := SceneManager.CreateGLTexture.seq_prefix sh
      (SceneManager.Original.LoadSceneTextures.calls env) (by omega) k.val
    have hk6 := k.isLt
    exact ⟨smk, hseq, h0, hk, by omega, fun image textureID tag =>
      SceneManager.CreateGLTexture_in_bounds smk ⟨h0, by omega⟩ image textureID tag⟩
  · have hle := List.length_filter_le SceneManager.TextureCall.loads
      (SceneManager.Original.LoadSceneTextures.calls env)
    obtain ⟨sm1, hseq, hcount, _, _⟩ := SceneManager.CreateGLTexture.seq_fresh sh
      (SceneManager.Original.LoadSceneTextures.calls env) (by omega)
    refine ⟨sm1, ?_, by omega, by omega⟩
    simp only [SceneManager.Original.LoadSceneTextures, hseq]

end TextureArrayBound

/-! ## Texture tags of the scene -/

section SceneTextureTags

variable {α : Type}

/-- The slot lookup reads the count and the array only, not the shader manager. -/
theorem SceneManager.FindTextureSlot_shader_irrelevant (sm : SceneManager α)
    (sh : Option (ShaderManager α)) (tag : String) :
    SceneManager.FindTextureSlot { sm with m_pShaderManager := sh } tag
      = sm.FindTextureSlot tag := by
  have hloop : ∀ (fuel : Nat) (index textureSlot : Int) (bFound : Bool),
      SceneManager.FindTextureSlot.loop { sm with m_pShaderManager := sh } tag fuel index
          textureSlot bFound
        = SceneManager.FindTextureSlot.loop sm tag fuel index textureSlot bFound := by
    intro fuel
    induction fuel with
    | zero => intro index textureSlot bFound; rfl
    | succ n ih =>
      intro index textureSlot bFound
      simp only [SceneManager.FindTextureSlot.loop, SceneManager.readTexture, ih]
  exact hloop _ _ _ _

/-- When the loaded entries carry the tags of a duplicate-free list in order,
each tag of the list resolves to its position. -/
theorem SceneManager.FindTextureSlot_registered (sm : SceneManager α) (tags : List String)
    (hnodup : tags.Nodup) (hcount : sm.m_loadedTextures = (tags.length : Int))
    (hids : ∀ (k : Nat) (h16 : k < 16), k < tags.length →
      tags[k]? = some (sm.m_textureIDs ⟨k, h16⟩).tag)
    (hlen : tags.length ≤ 16) (k : Nat) (t : String) (hk : tags[k]? = some t) :
    sm.FindTextureSlot t = Except.ok (k : Int) := by
  have hklen : k < tags.length := by
    by_contra hge
    rw [List.getElem?_eq_none (by omega)] at hk
    exact Option.noConfusion hk
  have h16 : k < 16 := by omega
  have htag : (sm.m_textureIDs ⟨k, h16⟩).tag = t := by
    have h1 := hids k h16 hklen
    rw [hk] at h1
    exact (Option.some.inj h1).symm
  have hloop := SceneManager.FindTextureSlot.loop_slot_first_match sm t ⟨k, h16⟩
    (by simp only [hcount]; omega) htag (-1) sm.m_loadedTextures.toNat 0 (Nat.zero_le _)
    (by simp only [hcount]; omega)
    (by
      intro j _ hjk hjt
      have hjk2 : j.val < k := hjk
      have h2 := hids j.val j.isLt (by omega)
      have h3 : tags[j.val]? = tags[k]? := by
        rw [h2, hk]
        exact congrArg some hjt
      exact (List.nodup_iff_getElem?_ne_getElem?.1 hnodup j.val k hjk2 hklen) h3)
  simpa [SceneManager.FindTextureSlot] using hloop

/-- One call statement of `RenderScene` on a manager without materials whose
texture tag resolves: the registry is unchanged, and the sampler uniform
receives the slot of the tag if the call is `SetShaderTexture`, nothing
otherwise. -/
theorem SceneManager.Call.exec_sampler [Field α] (F : Numerics α)
    (uninitialised : OBJECT_MATERIAL α) (sm : SceneManager α)
    (hmat : sm.m_objectMaterials = []) (slot : String → Int) (sh1 : ShaderManager α)
    (c : SceneManager.Call α)
    (hslot : ∀ t, c.textureTag? = some t → sm.FindTextureSlot t = Except.ok (slot t)) :
    ∃ sh2 : ShaderManager α,
      SceneManager.Call.exec F uninitialised { sm with m_pShaderManager := some sh1 } c
        = Except.ok { sm with m_pShaderManager := some sh2 }
      ∧ SceneManager.samplerWrites sh2
        = SceneManager.samplerWrites sh1 ++ c.textureTag?.toList.map slot := by
  cases c with
  | SetTransformations s x y z p =>
    refine ⟨sh1.setMat4Value g_ModelName (SceneManager.SetTransformations.modelView F s x y z p),
      rfl, ?_⟩
    simp [SceneManager.samplerWrites, ShaderManager.setMat4Value,
      SceneManager.Call.textureTag?]
  | SetShaderTexture t =>
    refine ⟨(sh1.setIntValue g_UseTextureName 1).setSampler2DValue g_TextureValueName (slot t),
      ?_, ?_⟩
    · simp only [SceneManager.Call.exec, SceneManager.SetShaderTexture,
        SceneManager.FindTextureSlot_shader_irrelevant, hslot t rfl]
    · simp [SceneManager.samplerWrites, ShaderManager.setIntValue,
        ShaderManager.setSampler2DValue, SceneManager.Call.textureTag?]
  | SetTextureUVScale u v =>
    refine ⟨sh1.setVec2Value "UVscale" u v, rfl, ?_⟩
    simp [SceneManager.samplerWrites, ShaderManager.setVec2Value,
      SceneManager.Call.textureTag?]
  | SetShaderMaterial m =>
    refine ⟨sh1, ?_, ?_⟩
    · simp [SceneManager.Call.exec, SceneManager.SetShaderMaterial, hmat]
    · simp [SceneManager.Call.textureTag?]
  | DrawPlaneMesh => exact ⟨sh1, rfl, by simp [SceneManager.Call.textureTag?]⟩
  | DrawBoxMesh => exact ⟨sh1, rfl, by simp [SceneManager.Call.textureTag?]⟩
  | DrawCylinderMesh => exact ⟨sh1, rfl, by simp [SceneManager.Call.textureTag?]⟩
  | DrawSphereMesh => exact ⟨sh1, rfl, by simp [SceneManager.Call.textureTag?]⟩
  | DrawTorusMesh => exact ⟨sh1, rfl, by simp [SceneManager.Call.textureTag?]⟩

/-- A list of call statements on a manager without materials whose texture
tags all resolve: the run returns, the registry is unchanged, and the sampler
uniform receives the slots of the tags in call order. -/
theorem SceneManager.Call.execAll_samplers [Field α] (F : Numerics α)
    (uninitialised : OBJECT_MATERIAL α) (sm : SceneManager α)
    (hmat : sm.m_objectMaterials = []) (slot : String → Int) :
    ∀ (calls : List (SceneManager.Call α)) (sh1 : ShaderManager α),
      (∀ t, t ∈ calls.filterMap SceneManager.Call.textureTag? →
        sm.FindTextureSlot t = Except.ok (slot t)) →
      ∃ sh2 : ShaderManager α,
        SceneManager.Call.execAll F uninitialised { sm with m_pShaderManager := some sh1 } calls
          = Except.ok { sm with m_pShaderManager := some sh2 }
        ∧ SceneManager.samplerWrites sh2
          = SceneManager.samplerWrites sh1
            ++ (calls.filterMap SceneManager.Call.textureTag?).map slot := by
  intro calls
  induction calls with
  | nil => intro sh1 _; exact ⟨sh1, rfl, by simp⟩
  | cons c cs ih =>
    intro sh1 hslot
    obtain ⟨sh2, hexec, hw2⟩ := SceneManager.Call.exec_sampler F uninitialised sm hmat slot sh1 c
      (by
        intro t ht
        exact hslot t (by simp [List.filterMap_cons, ht]))
    obtain ⟨sh3, hall, hw3⟩ := ih sh2
      (by
        intro t ht
        apply hslot t
        rw [List.filterMap_cons]
        cases hc : c.textureTag? with
        | none => exact ht
        | some a => exact List.mem_cons_of_mem _ ht)
    refine ⟨sh3, ?_, ?_⟩
    · simp only [SceneManager.Call.execAll, hexec, hall]
    · rw [hw3, hw2, List.filterMap_cons]
      cases hc : c.textureTag? with
      | none => simp
      | some a => simp

end SceneTextureTags
section SceneTextureSlots

variable {α : Type}

/-- The tags of the calls of `LoadSceneTextures` are the tags of its file list. -/
theorem SceneManager.LoadSceneTextures.calls_carry_file_tags (env : SceneManager.TextureEnv) :
    (SceneManager.LoadSceneTextures.calls env).map SceneManager.TextureCall.tag
      = SceneManager.LoadSceneTextures.files.map Prod.snd := rfl

/-- The texture tags that the call statements of `RenderScene` pass, in source
order. -/
theorem SceneManager.RenderScene.calls_texture_tags [Field α] :
    (SceneManager.RenderScene.calls : List (SceneManager.Call α)).filterMap
        SceneManager.Call.textureTag?
      = ["wood", "plastic", "plastic", "metal", "plastic", "wall", "plastic", "plastic",
         "metal", "fabric", "keyboard", "plastic", "plastic", "plastic", "plastic", "mouse",
         "silver", "bottle", "silver", "silver", "silver", "wood", "wood", "wood", "wood"] :=
  rfl

/-- C28: the nine tags of `LoadSceneTextures` are pairwise distinct and every
tag that `RenderScene` passes to `SetShaderTexture` is one of them; when all
nine image loads succeed on a fresh manager, the tags resolve to wood=0,
metal=1, wall=2, fabric=3, plastic=4, keyboard=5, mouse=6, bottle=7, silver=8,
`RenderScene` returns, and the values it writes to the sampler uniform are the
25 slots of its tags, each in [0, 9), none of them -1. -/
theorem SceneManager.RenderScene_textures_resolve [Field α] (F : Numerics α)
    (uninitialised : OBJECT_MATERIAL α) (sh : ShaderManager α) (env : SceneManager.TextureEnv)
    (hall : ∀ c ∈ SceneManager.LoadSceneTextures.calls env, c.loads = true) :
    (SceneManager.LoadSceneTextures.files.map Prod.snd).Nodup
    ∧ (∀ t, SceneManager.Call.SetShaderTexture t
          ∈ (SceneManager.RenderScene.calls : List (SceneManager.Call α)) →
        t ∈ SceneManager.LoadSceneTextures.files.map Prod.snd)
    ∧ ∃ sm1 : SceneManager α,
      (SceneManager.new (some sh)).PrepareScene env = Except.ok sm1
      ∧ sm1.m_loadedTextures = 9
      ∧ sm1.FindTextureSlot "wood" = Except.ok 0
      ∧ sm1.FindTextureSlot "metal" = Except.ok 1
      ∧ sm1.FindTextureSlot "wall" = Except.ok 2
      ∧ sm1.FindTextureSlot "fabric" = Except.ok 3
      ∧ sm1.FindTextureSlot "plastic" = Except.ok 4
      ∧ sm1.FindTextureSlot "keyboard" = Except.ok 5
      ∧ sm1.FindTextureSlot "mouse" = Except.ok 6
      ∧ sm1.FindTextureSlot "bottle" = Except.ok 7
      ∧ sm1.FindTextureSlot "silver" = Except.ok 8
      ∧ ∃ (sm2 : SceneManager α) (sh2 : ShaderManager α),
        sm1.RenderScene F uninitialised = Except.ok sm2
        ∧ sm2.m_pShaderManager = some sh2
        ∧ SceneManager.samplerWrites sh2
          = SceneManager.samplerWrites sh
            ++ [0, 4, 4, 1, 4, 2, 4, 4, 1, 3, 5, 4, 4, 4, 4, 6, 8, 7, 8, 8, 8, 0, 0, 0, 0]
        ∧ ∀ v ∈ (SceneManager.samplerWrites sh2).drop (SceneManager.samplerWrites sh).length,
            0 ≤ v ∧ v < 9 ∧ v ≠ -1 := by
  have hnodup : (SceneManager.LoadSceneTextures.files.map Prod.snd).Nodup := by decide
  have hsub : ∀ t, t ∈ (SceneManager.RenderScene.calls : List (SceneManager.Call α)).filterMap
      SceneManager.Call.textureTag? → t ∈ SceneManager.LoadSceneTextures.files.map Prod.snd := by
    rw [SceneManager.RenderScene.calls_texture_tags]
    decide
  refine ⟨hnodup, fun t ht => hsub t (List.mem_filterMap.2 ⟨_, ht, rfl⟩), ?_⟩
  -- the registry after the nine loads
  have hfilter : (SceneManager.LoadSceneTextures.calls env).filter SceneManager.TextureCall.loads
      = SceneManager.LoadSceneTextures.calls env := List.filter_eq_self.2 hall
  have htags : ((SceneManager.LoadSceneTextures.calls env).filter
      SceneManager.TextureCall.loads).map SceneManager.TextureCall.tag
        = SceneManager.LoadSceneTextures.files.map Prod.snd := by
    rw [hfilter, SceneManager.LoadSceneTextures.calls_carry_file_tags]
  have hlen : ((SceneManager.LoadSceneTextures.calls env).filter
      SceneManager.TextureCall.loads).length = 9 := by
    have h := congrArg List.length htags
    simpa [SceneManager.LoadSceneTextures.files] using h
  obtain ⟨sm1, hseq, hcount, hid, _⟩ := SceneManager.CreateGLTexture.seq_fresh (some sh)
    (SceneManager.LoadSceneTextures.calls env) (by omega)
  obtain ⟨_, hseq2, _, hsh, hmat, _, _⟩ := SceneManager.CreateGLTexture.seq_effect
    (SceneManager.LoadSceneTextures.calls env) (SceneManager.new (some sh)) (le_refl _)
    (by simp only [SceneManager.new]; omega)
  rw [hseq] at hseq2
  obtain rfl : sm1 = _ := (Prod.mk.inj (Except.ok.inj hseq2)).2
  have hcount9 : sm1.m_loadedTextures = 9 := by rw [hcount, hlen]; rfl
  have hslots := SceneManager.FindTextureSlot_registered sm1
    (SceneManager.LoadSceneTextures.files.map Prod.snd) hnodup
    (by rw [hcount9]; rfl)
    (by
      intro k h16 hk
      have hk2 : k < ((SceneManager.LoadSceneTextures.calls env).filter
          SceneManager.TextureCall.loads).length := by
        rw [hlen]; simpa [SceneManager.LoadSceneTextures.files] using hk
      rw [hid k hk2 h16, ← htags, List.getElem?_map, List.getElem?_eq_getElem hk2]
      rfl)
    (by decide)
  have hprep : (SceneManager.new (some sh)).PrepareScene env = Except.ok sm1 := by
    simp only [SceneManager.PrepareScene, SceneManager.LoadSceneTextures, hseq]
  refine ⟨sm1, hprep, hcount9, hslots 0 _ rfl, hslots 1 _ rfl, hslots 2 _ rfl, hslots 3 _ rfl,
    hslots 4 _ rfl, hslots 5 _ rfl, hslots 6 _ rfl, hslots 7 _ rfl, hslots 8 _ rfl, ?_⟩
  -- the run of `RenderScene`
  have hsm1 : sm1 = { sm1 with m_pShaderManager := some sh } := by
    cases sm1
    simp only [SceneManager.new] at hsh
    subst hsh
    rfl
  have hmat1 : sm1.m_objectMaterials = [] := by
    rw [hmat]; rfl
  obtain ⟨sh2, hrun, hw⟩ := SceneManager.Call.execAll_samplers F uninitialised sm1 hmat1
    (fun t => ((SceneManager.LoadSceneTextures.files.map Prod.snd).indexOf t : Int))
    SceneManager.RenderScene.calls sh
    (by
      intro t ht
      have hmem := hsub t ht
      exact hslots _ t (by
        rw [List.getElem?_eq_getElem (List.indexOf_lt_length.2 hmem)]
        exact congrArg some (List.getElem_indexOf _)))
  have hw2 : SceneManager.samplerWrites sh2
      = SceneManager.samplerWrites sh
        ++ [0, 4, 4, 1, 4, 2, 4, 4, 1, 3, 5, 4, 4, 4, 4, 6, 8, 7, 8, 8, 8, 0, 0, 0, 0] := by
    rw [hw, SceneManager.RenderScene.calls_texture_tags]
    exact congrArg _ (by decide)
  refine ⟨{ sm1 with m_pShaderManager := some sh2 }, sh2, ?_, rfl, hw2, ?_⟩
  · rw [SceneManager.RenderScene, hsm1]
    exact hrun
  · rw [hw2, List.drop_left]
    decide

/-- C28 at an environment in which every image file is readable. -/
theorem SceneManager.RenderScene_textures_resolve_witness :
    (∀ c ∈ SceneManager.LoadSceneTextures.calls SceneManager.allReadable, c.loads = true)
    ∧ ∃ sm1 : SceneManager ℚ,
      (SceneManager.new (some ⟨[]⟩)).PrepareScene SceneManager.allReadable = Except.ok sm1
      ∧ sm1.FindTextureSlot "silver" = Except.ok 8 :=
  ⟨by decide,
    (SceneManager.RenderScene_textures_resolve Numerics.rational SceneManager.blankMaterial ⟨[]⟩
      SceneManager.allReadable (by decide)).2.2.imp
      fun _ h => ⟨h.1, h.2.2.2.2.2.2.2.2.2.2.1⟩⟩

end SceneTextureSlots

/-! ## The orthographic projection -/

section OrthographicProjection

variable {α : Type} [Field α]

/-- With a non-null shader manager and a camera, `PrepareSceneView` returns;
the mode afterwards is the one the keys of this frame leave, and the current
value of the uniform "projection" is the projection of that mode. -/
theorem ViewManager.PrepareSceneView_projection_write (env : ViewEnv α) (vm : ViewManager α)
    (sh : ShaderManager α) (cam : Camera α) (time : α) (keys : Keys)
    (hsh : vm.m_pShaderManager = some sh) (hcam : vm.g_pCamera = some cam) :
    ∃ (vm1 : ViewManager α) (cam1 : Camera α) (sh1 : ShaderManager α),
      vm.PrepareSceneView env time keys = Except.ok vm1
      ∧ vm1.g_pCamera = some cam1
      ∧ vm1.bOrthographicProjection
        = (if keys.P then false else if keys.O then true else vm.bOrthographicProjection)
      ∧ vm1.m_pShaderManager = some sh1
      ∧ sh1.value? "projection"
        = some (UniformValue.mat4
            (ViewManager.PrepareSceneView.projection env vm1.bOrthographicProjection cam1)) := by
  have hcam0 : ({ vm with
      gDeltaTime := env.narrow time - vm.gLastFrame
      gLastFrame := env.narrow time } : ViewManager α).g_pCamera = some cam := hcam
  obtain ⟨hkeys, hmode⟩ := ViewManager.ProcessKeyboardEvents_presets env _ cam keys hcam0
  have hshader : (ViewManager.ProcessKeyboardEvents env
      { vm with
        gDeltaTime := env.narrow time - vm.gLastFrame
        gLastFrame := env.narrow time }
      keys).m_pShaderManager = some sh := by
    cases hesc : keys.ESCAPE <;> cases ho : keys.O <;> cases hp : keys.P <;>
      simp [ViewManager.ProcessKeyboardEvents, ViewManager.onCamera, hcam, hsh, hesc, ho, hp]
  simp only [ViewManager.PrepareSceneView, hkeys, hshader]
  refine ⟨_, _, _, rfl, rfl, hmode, rfl, ?_⟩
  simp [ShaderManager.value?, ShaderManager.setMat4Value, ShaderManager.setVec3Value,
    g_ProjectionName]

/-- The local `projection` of `PrepareSceneView` in the two modes, for the
compiled-in window size. -/
theorem ViewManager.PrepareSceneView.projection_modes [CharZero α] (env : ViewEnv α)
    (cam : Camera α) :
    ViewManager.PrepareSceneView.projection env true cam
      = glm.ortho (-5) 5 (env.narrow (-5 * env.narrow (4 / 5)))
          (env.narrow (5 * env.narrow (4 / 5))) (1 / 10) 100
    ∧ ViewManager.PrepareSceneView.projection env false cam
      = glm.perspective env.tan (glm.radians env.numerics cam.Zoom) (5 / 4) (1 / 10) 100 := by
  have h1 : ((800 : α) / 1000) = 4 / 5 := by norm_num
  have h2 : ((1000 : α) / 800) = 5 / 4 := by norm_num
  have h3 : (0.1 : α) = 1 / 10 := by norm_num
  have h4 : (100.0 : α) = 100 := by norm_num
  have h5 : (5.0 : α) = 5 := by norm_num
  constructor
  · simp [ViewManager.PrepareSceneView.projection, WINDOW_WIDTH, WINDOW_HEIGHT, h1, h3, h4, h5]
  · simp [ViewManager.PrepareSceneView.projection, WINDOW_WIDTH, WINDOW_HEIGHT, h2, h3, h4]

/-- C26: when the conversion to `float` gives the products -5 * (float)0.8 and
5 * (float)0.8 the values -4 and 4 (as exact arithmetic and binary32 rounding
both do), the orthographic projection of `PrepareSceneView` for the 1000x800
window is `ortho(-5, 5, -4, 4, 0.1, 100)`, with the near and far planes of the
perspective projection; the branch taken is the one for a window wider than
high, not the zero-extent one; and a frame that ends in orthographic mode
leaves this matrix as the current value of the uniform "projection". -/
theorem ViewManager.PrepareSceneView_orthographic_extents [CharZero α] (env : ViewEnv α)
    (vm : ViewManager α) (sh : ShaderManager α) (cam : Camera α) (time : α) (keys : Keys)
    (hsh : vm.m_pShaderManager = some sh) (hcam : vm.g_pCamera = some cam)
    (hbottom : env.narrow (-5 * env.narrow (4 / 5)) = -4)
    (htop : env.narrow (5 * env.narrow (4 / 5)) = 4) :
    (∀ c : Camera α,
      ViewManager.PrepareSceneView.projection env true c
        = glm.ortho (-5) 5 (-4) 4 (1 / 10) 100)
    ∧ (∀ c : Camera α,
      ViewManager.PrepareSceneView.projection env false c
        = glm.perspective env.tan (glm.radians env.numerics c.Zoom) (5 / 4) (1 / 10) 100)
    ∧ WINDOW_WIDTH > WINDOW_HEIGHT
    ∧ (∀ c : Camera α,
      ViewManager.PrepareSceneView.projection env true c ≠ glm.ortho 0 0 0 0 (1 / 10) 100)
    ∧ (∃ (vm1 : ViewManager α) (sh1 : ShaderManager α),
      ViewManager.PrepareSceneView env { vm with bOrthographicProjection := true } time
          { keys with P := false } = Except.ok vm1
      ∧ vm1.bOrthographicProjection = true
      ∧ vm1.m_pShaderManager = some sh1
      ∧ sh1.value? "projection"
        = some (UniformValue.mat4 (glm.ortho (-5) 5 (-4) 4 (1 / 10) 100)))
    ∧ (∃ (vm1 : ViewManager α) (sh1 : ShaderManager α),
      vm.PrepareSceneView env time { keys with O := true, P := false } = Except.ok vm1
      ∧ vm1.bOrthographicProjection = true
      ∧ vm1.m_pShaderManager = some sh1
      ∧ sh1.value? "projection"
        = some (UniformValue.mat4 (glm.ortho (-5) 5 (-4) 4 (1 / 10) 100))) := by
  have hortho : ∀ c : Camera α, ViewManager.PrepareSceneView.projection env true c
      = glm.ortho (-5) 5 (-4) 4 (1 / 10) 100 := by
    intro c
    rw [(ViewManager.PrepareSceneView.projection_modes env c).1, hbottom, htop]
  refine ⟨hortho, fun c => (ViewManager.PrepareSceneView.projection_modes env c).2,
    by decide, ?_, ?_, ?_⟩
  · intro c h
    rw [hortho c] at h
    have hx := congrArg (fun m : glm.mat4 α => m.c0.x) h
    simp only [glm.ortho] at hx
    norm_num at hx
  · obtain ⟨vm1, cam1, sh1, hrun, _, hmode, hsh1, hval⟩ :=
      ViewManager.PrepareSceneView_projection_write env
        { vm with bOrthographicProjection := true } sh cam time { keys with P := false } hsh hcam
    have hmode1 : vm1.bOrthographicProjection = true := by
      rw [hmode]; simp
    rw [hmode1, hortho cam1] at hval
    exact ⟨vm1, sh1, hrun, hmode1, hsh1, hval⟩
  · obtain ⟨vm1, cam1, sh1, hrun, _, hmode, hsh1, hval⟩ :=
      ViewManager.PrepareSceneView_projection_write env vm sh cam time
        { keys with O := true, P := false } hsh hcam
    have hmode1 : vm1.bOrthographicProjection = true := by
      rw [hmode]; simp
    rw [hmode1, hortho cam1] at hval
    exact ⟨vm1, sh1, hrun, hmode1, hsh1, hval⟩

/-- C26 with binary32 rounding as the conversion to `float`, at the view
manager after construction: (float)0.8 is 13421773/16777216, and the products
with -5 and 5 round to -4 and 4. -/
theorem ViewManager.PrepareSceneView_orthographic_extents_witness :
    ViewManager.initial.m_pShaderManager = some ⟨[]⟩
    ∧ ViewManager.initial.g_pCamera = some Camera.initial
    ∧ ViewEnv.rounding.narrow (4 / 5) = 13421773 / 16777216
    ∧ ViewEnv.rounding.narrow (-5 * ViewEnv.rounding.narrow (4 / 5)) = -4
    ∧ ViewEnv.rounding.narrow (5 * ViewEnv.rounding.narrow (4 / 5)) = 4
    ∧ ∀ c : Camera ℚ,
      ViewManager.PrepareSceneView.projection ViewEnv.rounding true c
        = glm.ortho (-5) 5 (-4) 4 (1 / 10) 100 :=
  ⟨rfl, by decide!, by decide!, by decide!, by decide!,
    (ViewManager.PrepareSceneView_orthographic_extents ViewEnv.rounding ViewManager.initial ⟨[]⟩
      Camera.initial 1 Keys.none rfl (by decide!) (by decide!) (by decide!)).1⟩

end OrthographicProjection

/-! ## Key precedence -/

section KeyPrecedence

variable {α : Type} [Field α]

/-- C29: in one `ProcessKeyboardEvents` call on a state with a camera, whatever
the mode, the elapsed time and the other keys: with P pressed the result is
perspective mode with position (0, 5.5, 8), front (0, -0.5, -2), up (0, 1, 0)
and zoom 125; with O pressed and P not, the result is orthographic mode with
position (-5, 5, 10), front (0, 0, -1), up (0, 1, 0) and the zoom that the
movement keys left. -/
theorem ViewManager.ProcessKeyboardEvents_P_dominates [CharZero α] (env : ViewEnv α)
    (vm : ViewManager α) (cam : Camera α) (keys : Keys) (hcam : vm.g_pCamera = some cam) :
    ((vm.ProcessKeyboardEvents env { keys with P := true }).bOrthographicProjection = false
      ∧ ∃ cam1 : Camera α,
        (vm.ProcessKeyboardEvents env { keys with P := true }).g_pCamera = some cam1
        ∧ cam1.Position = ⟨0, 11 / 2, 8⟩ ∧ cam1.Front = ⟨0, -1 / 2, -2⟩
        ∧ cam1.Up = ⟨0, 1, 0⟩ ∧ cam1.Zoom = 125)
    ∧ ((vm.ProcessKeyboardEvents env { keys with O := true, P := false }).bOrthographicProjection
        = true
      ∧ ∃ cam1 : Camera α,
        (vm.ProcessKeyboardEvents env { keys with O := true, P := false }).g_pCamera = some cam1
        ∧ cam1.Position = ⟨-5, 5, 10⟩ ∧ cam1.Front = ⟨0, 0, -1⟩
        ∧ cam1.Up = ⟨0, 1, 0⟩
        ∧ cam1.Zoom
          = (ViewManager.ProcessKeyboardEvents.movement env vm.gDeltaTime keys cam).Zoom) := by
  obtain ⟨hcP, hmP⟩ :=
    ViewManager.ProcessKeyboardEvents_presets env vm cam { keys with P := true } hcam
  obtain ⟨hcO, hmO⟩ :=
    ViewManager.ProcessKeyboardEvents_presets env vm cam { keys with O := true, P := false } hcam
  refine ⟨⟨by rw [hmP]; rfl, _, hcP, ?_⟩, ⟨by rw [hmO]; rfl, _, hcO, ?_⟩⟩
  · refine ⟨?_, ?_, ?_, rfl⟩ <;> norm_num
  · refine ⟨?_, ?_, ?_, rfl⟩ <;> norm_num

/-- C29 at the view manager after construction with every key pressed. -/
theorem ViewManager.ProcessKeyboardEvents_P_dominates_witness :
    ViewManager.initial.g_pCamera = some Camera.initial
    ∧ (ViewManager.initial.ProcessKeyboardEvents ViewEnv.rational
        { Keys.all with P := true }).bOrthographicProjection = false
    ∧ ∃ cam1 : Camera ℚ,
        (ViewManager.initial.ProcessKeyboardEvents ViewEnv.rational
          { Keys.all with P := true }).g_pCamera = some cam1
        ∧ cam1.Position = ⟨0, 11 / 2, 8⟩ ∧ cam1.Front = ⟨0, -1 / 2, -2⟩
        ∧ cam1.Up = ⟨0, 1, 0⟩ ∧ cam1.Zoom = 125 :=
  ⟨by decide!,
    (ViewManager.ProcessKeyboardEvents_P_dominates ViewEnv.rational ViewManager.initial
      Camera.initial Keys.all (by decide!)).1⟩

end KeyPrecedence

/-! ## Sequences of mouse samples -/

section MouseSequence

variable {α : Type} [Field α]

/-- The locals of `Mouse_Position_Callback` do not depend on the camera
pointer, and the state they leave keeps it. -/
theorem ViewManager.Mouse_Position_Callback.locals_camera (env : ViewEnv α)
    (vm : ViewManager α) (c : Option (Camera α)) (x y : α) :
    ViewManager.Mouse_Position_Callback.locals env { vm with g_pCamera := c } x y
      = ({ (ViewManager.Mouse_Position_Callback.locals env vm x y).1 with g_pCamera := c },
         (ViewManager.Mouse_Position_Callback.locals env vm x y).2) := by
  cases h : vm.gFirstMouse <;> simp [ViewManager.Mouse_Position_Callback.locals, h]

/-- The offsets of a sample sequence do not depend on the camera pointer. -/
theorem ViewManager.Mouse_Position_Callback.offsets_camera (env : ViewEnv α) :
    ∀ (samples : List (α × α)) (vm : ViewManager α) (c : Option (Camera α)),
      ViewManager.Mouse_Position_Callback.offsets env { vm with g_pCamera := c } samples
        = ((ViewManager.Mouse_Position_Callback.offsets env vm samples).1,
           { (ViewManager.Mouse_Position_Callback.offsets env vm samples).2 with
             g_pCamera := c }) := by
  intro samples
  induction samples with
  | nil => intro vm c; rfl
  | cons q qs ih =>
    intro vm c
    obtain ⟨x, y⟩ := q
    have h1 := ViewManager.Mouse_Position_Callback.locals_camera env vm c x y
    have h2 := ih (ViewManager.Mouse_Position_Callback.locals env vm x y).1 c
    show (((ViewManager.Mouse_Position_Callback.locals env { vm with g_pCamera := c } x y).2.1,
        (ViewManager.Mouse_Position_Callback.locals env { vm with g_pCamera := c } x y).2.2)
          :: (ViewManager.Mouse_Position_Callback.offsets env
            (ViewManager.Mouse_Position_Callback.locals env { vm with g_pCamera := c } x y).1
            qs).1,
        (ViewManager.Mouse_Position_Callback.offsets env
          (ViewManager.Mouse_Position_Callback.locals env { vm with g_pCamera := c } x y).1
          qs).2) = _
    rw [h1]
    dsimp only
    rw [h2]
    rfl

/-- With a camera, the calls for a sample sequence all return, and the camera
has received `ProcessMouseMovement` with the offsets of the sequence, in
order. -/
theorem ViewManager.Mouse_Position_Callback.run_offsets (env : ViewEnv α) :
    ∀ (samples : List (α × α)) (vm : ViewManager α) (cam : Camera α),
      vm.g_pCamera = some cam →
      ViewManager.Mouse_Position_Callback.run env vm samples
        = Except.ok
            { (ViewManager.Mouse_Position_Callback.offsets env vm samples).2 with
              g_pCamera :=
                some ((ViewManager.Mouse_Position_Callback.offsets env vm samples).1.foldl
                  (fun c o => env.camera.ProcessMouseMovement c o.1 o.2) cam) } := by
  intro samples
  induction samples with
  | nil =>
    intro vm cam hcam
    cases vm
    simp only at hcam
    subst hcam
    rfl
  | cons q qs ih =>
    intro vm cam hcam
    obtain ⟨x, y⟩ := q
    have hl : (ViewManager.Mouse_Position_Callback.locals env vm x y).1.g_pCamera = some cam := by
      cases h : vm.gFirstMouse <;>
        simp [ViewManager.Mouse_Position_Callback.locals, h, hcam]
    have hcall : vm.Mouse_Position_Callback env x y
        = Except.ok
            { (ViewManager.Mouse_Position_Callback.locals env vm x y).1 with
              g_pCamera := some (env.camera.ProcessMouseMovement cam
                (ViewManager.Mouse_Position_Callback.locals env vm x y).2.1
                (ViewManager.Mouse_Position_Callback.locals env vm x y).2.2) } := by
      simp only [ViewManager.Mouse_Position_Callback, hl]
    simp only [ViewManager.Mouse_Position_Callback.run, hcall]
    rw [ih _ (env.camera.ProcessMouseMovement cam
        (ViewManager.Mouse_Position_Callback.locals env vm x y).2.1
        (ViewManager.Mouse_Position_Callback.locals env vm x y).2.2) rfl,
      ViewManager.Mouse_Position_Callback.offsets_camera env qs
        (ViewManager.Mouse_Position_Callback.locals env vm x y).1]
    rfl

/-- After the first sample, with samples and consecutive differences that the
conversion to `float` keeps, the offsets are the consecutive differences, the
vertical one inverted. -/
theorem ViewManager.Mouse_Position_Callback.offsets_later (env : ViewEnv α) :
    ∀ (samples : List (α × α)) (vm : ViewManager α) (p : α × α),
      vm.gFirstMouse = false → vm.gLastX = p.1 → vm.gLastY = p.2 →
      (∀ q ∈ samples, env.narrow q.1 = q.1 ∧ env.narrow q.2 = q.2) →
      (∀ pq ∈ List.zip (p :: samples) samples,
        env.narrow (pq.2.1 - pq.1.1) = pq.2.1 - pq.1.1
        ∧ env.narrow (pq.1.2 - pq.2.2) = pq.1.2 - pq.2.2) →
      (ViewManager.Mouse_Position_Callback.offsets env vm samples).1
        = List.zipWith (fun p q => (q.1 - p.1, p.2 - q.2)) (p :: samples) samples := by
  intro samples
  induction samples with
  | nil => intro vm p _ _ _ _ _; rfl
  | cons q qs ih =>
    intro vm p hfirst hx hy hrep hdiff
    obtain ⟨x, y⟩ := q
    have hq := hrep (x, y) (List.mem_cons_self _ _)
    have hd := hdiff (p, (x, y)) (by simp)
    simp only at hq hd
    have hstep : ViewManager.Mouse_Position_Callback.locals env vm x y
        = ({ vm with gLastX := x, gLastY := y }, x - p.1, p.2 - y) := by
      simp [ViewManager.Mouse_Position_Callback.locals, hfirst, hx, hy, hq.1, hq.2, hd.1, hd.2]
    have hrest := ih { vm with gLastX := x, gLastY := y } (x, y) hfirst rfl rfl
      (fun r hr => hrep r (List.mem_cons_of_mem _ hr))
      (fun pq hpq => hdiff pq (by
        rw [List.zip_cons_cons]
        exact List.mem_cons_of_mem _ hpq))
    simp only [ViewManager.Mouse_Position_Callback.offsets, hstep, hrest, List.zipWith_cons_cons]

/-- The consecutive differences of a sequence sum to last minus first. -/
theorem ViewManager.Mouse_Position_Callback.differences_sum :
    ∀ (samples : List (α × α)) (p : α × α),
      ((List.zipWith (fun p q => (q.1 - p.1, p.2 - q.2)) (p :: samples) samples).map
          Prod.fst).sum
        = ((p :: samples).getLast (List.cons_ne_nil p samples)).1 - p.1
      ∧ ((List.zipWith (fun p q => (q.1 - p.1, p.2 - q.2)) (p :: samples) samples).map
          Prod.snd).sum
        = p.2 - ((p :: samples).getLast (List.cons_ne_nil p samples)).2 := by
  intro samples
  induction samples with
  | nil => intro p; simp
  | cons q qs ih =>
    intro p
    obtain ⟨h1, h2⟩ := ih q
    rw [List.getLast_cons (List.cons_ne_nil q qs)]
    simp only [List.zipWith_cons_cons, List.map_cons, List.sum_cons, h1, h2]
    constructor <;> ring

/-- After the first sample the offsets are the conversions to `float` of the
differences between each sample and the remembered, converted, previous one,
the vertical one inverted. -/
theorem ViewManager.Mouse_Position_Callback.offsets_later_rounded (env : ViewEnv α) :
    ∀ (samples : List (α × α)) (vm : ViewManager α) (p : α × α),
      vm.gFirstMouse = false → vm.gLastX = env.narrow p.1 → vm.gLastY = env.narrow p.2 →
      (ViewManager.Mouse_Position_Callback.offsets env vm samples).1
        = List.zipWith
            (fun p q => (env.narrow (q.1 - env.narrow p.1), env.narrow (env.narrow p.2 - q.2)))
            (p :: samples) samples := by
  intro samples
  induction samples with
  | nil => intro vm p _ _ _; rfl
  | cons q qs ih =>
    intro vm p hfirst hx hy
    obtain ⟨x, y⟩ := q
    have hstep : ViewManager.Mouse_Position_Callback.locals env vm x y
        = ({ vm with gLastX := env.narrow x, gLastY := env.narrow y },
           env.narrow (x - env.narrow p.1), env.narrow (env.narrow p.2 - y)) := by
      simp [ViewManager.Mouse_Position_Callback.locals, hfirst, hx, hy]
    have hrest := ih { vm with gLastX := env.narrow x, gLastY := env.narrow y } (x, y)
      hfirst rfl rfl
    simp only [ViewManager.Mouse_Position_Callback.offsets, hstep, hrest, List.zipWith_cons_cons]

end MouseSequence
section MouseOffsets

variable {α : Type} [Field α]

/-- C30, as stated, fails: with binary32 rounding as the conversion to `float`
and the samples (400 + 2^-20, 300), (401, 300) from the first-sample state, the
second call hands the camera the x offset 1, not 401 - (400 + 2^-20), and the
x offsets sum to 1 + 2^-20, not to the difference of last and first sample. -/
theorem ViewManager.second_sample_offset_not_difference :
    (ViewManager.new ViewEnv.rounding none).gFirstMouse = true
    ∧ (ViewManager.Mouse_Position_Callback.offsets ViewEnv.rounding
        (ViewManager.new ViewEnv.rounding none)
        [(400 + 1 / 1048576, 300), (401, 300)]).1 = [(1 / 1048576, 0), (1, 0)]
    ∧ (1 : ℚ) ≠ 401 - (400 + 1 / 1048576)
    ∧ ((ViewManager.Mouse_Position_Callback.offsets ViewEnv.rounding
        (ViewManager.new ViewEnv.rounding none)
        [(400 + 1 / 1048576, 300), (401, 300)]).1.map Prod.fst).sum
      ≠ 401 - (400 + 1 / 1048576) :=
  ⟨rfl, by decide!, by decide!, by decide!⟩

/-- C30, amended: from the first-sample state with a camera, for every
sequence of samples all calls return, the first call hands the camera the
offsets ((float)(x_1 - (float)x_1), (float)((float)y_1 - y_1)) and the k-th
call (k >= 2) the offsets ((float)(x_k - (float)x_{k-1}),
(float)((float)y_{k-1} - y_k)), whatever position was remembered initially.
When the coordinates and the consecutive differences are representable as
`float` (the conversion keeps them, and keeps 0), the first offsets are (0, 0),
the k-th are (x_k - x_{k-1}, y_{k-1} - y_k), the x offsets sum to x_n - x_1
and the y offsets to y_1 - y_n. -/
theorem ViewManager.Mouse_Position_Callback_offsets_telescope (env : ViewEnv α)
    (vm : ViewManager α) (cam : Camera α) (s : α × α) (samples : List (α × α))
    (hfirst : vm.gFirstMouse = true) (hcam : vm.g_pCamera = some cam) :
    (ViewManager.Mouse_Position_Callback.offsets env vm (s :: samples)).1
      = (env.narrow (s.1 - env.narrow s.1), env.narrow (env.narrow s.2 - s.2))
        :: List.zipWith
            (fun p q => (env.narrow (q.1 - env.narrow p.1), env.narrow (env.narrow p.2 - q.2)))
            (s :: samples) samples
    ∧ ViewManager.Mouse_Position_Callback.run env vm (s :: samples)
      = Except.ok
          { (ViewManager.Mouse_Position_Callback.offsets env vm (s :: samples)).2 with
            g_pCamera :=
              some (((env.narrow (s.1 - env.narrow s.1), env.narrow (env.narrow s.2 - s.2))
                :: List.zipWith
                    (fun p q =>
                      (env.narrow (q.1 - env.narrow p.1), env.narrow (env.narrow p.2 - q.2)))
                    (s :: samples) samples).foldl
                (fun c o => env.camera.ProcessMouseMovement c o.1 o.2) cam) }
    ∧ (env.narrow 0 = 0 →
      (∀ q ∈ s :: samples, env.narrow q.1 = q.1 ∧ env.narrow q.2 = q.2) →
      (∀ pq ∈ List.zip (s :: samples) samples,
        env.narrow (pq.2.1 - pq.1.1) = pq.2.1 - pq.1.1
        ∧ env.narrow (pq.1.2 - pq.2.2) = pq.1.2 - pq.2.2) →
      (ViewManager.Mouse_Position_Callback.offsets env vm (s :: samples)).1
        = (0, 0) :: List.zipWith (fun p q => (q.1 - p.1, p.2 - q.2)) (s :: samples) samples
      ∧ ViewManager.Mouse_Position_Callback.run env vm (s :: samples)
        = Except.ok
            { (ViewManager.Mouse_Position_Callback.offsets env vm (s :: samples)).2 with
              g_pCamera :=
                some (((0, 0) :: List.zipWith (fun p q => (q.1 - p.1, p.2 - q.2))
                    (s :: samples) samples).foldl
                  (fun c o => env.camera.ProcessMouseMovement c o.1 o.2) cam) }
      ∧ ((ViewManager.Mouse_Position_Callback.offsets env vm (s :: samples)).1.map
          Prod.fst).sum
        = ((s :: samples).getLast (List.cons_ne_nil s samples)).1 - s.1
      ∧ ((ViewManager.Mouse_Position_Callback.offsets env vm (s :: samples)).1.map
          Prod.snd).sum
        = s.2 - ((s :: samples).getLast (List.cons_ne_nil s samples)).2) := by
  have hrun := ViewManager.Mouse_Position_Callback.run_offsets env (s :: samples) vm cam hcam
  have hgeneral : (ViewManager.Mouse_Position_Callback.offsets env vm (s :: samples)).1
      = (env.narrow (s.1 - env.narrow s.1), env.narrow (env.narrow s.2 - s.2))
        :: List.zipWith
            (fun p q => (env.narrow (q.1 - env.narrow p.1), env.narrow (env.narrow p.2 - q.2)))
            (s :: samples) samples := by
    have hstep : ViewManager.Mouse_Position_Callback.locals env vm s.1 s.2
        = ({ vm with gLastX := env.narrow s.1, gLastY := env.narrow s.2, gFirstMouse := false },
           env.narrow (s.1 - env.narrow s.1), env.narrow (env.narrow s.2 - s.2)) := by
      simp [ViewManager.Mouse_Position_Callback.locals, hfirst]
    have hrest := ViewManager.Mouse_Position_Callback.offsets_later_rounded env samples
      { vm with gLastX := env.narrow s.1, gLastY := env.narrow s.2, gFirstMouse := false } s
      rfl rfl rfl
    obtain ⟨x, y⟩ := s
    simp only [ViewManager.Mouse_Position_Callback.offsets]
    simp only at hstep hrest
    rw [hstep]
    simp only [hrest]
  refine ⟨hgeneral, by rw [hrun, hgeneral], ?_⟩
  intro h0 hrep hdiff
  have hs := hrep s (List.mem_cons_self _ _)
  have hstep : ViewManager.Mouse_Position_Callback.locals env vm s.1 s.2
      = ({ vm with gLastX := s.1, gLastY := s.2, gFirstMouse := false }, 0, 0) := by
    simp [ViewManager.Mouse_Position_Callback.locals, hfirst, hs.1, hs.2, h0]
  have hrest := ViewManager.Mouse_Position_Callback.offsets_later env samples
    { vm with gLastX := s.1, gLastY := s.2, gFirstMouse := false } s rfl rfl rfl
    (fun q hq => hrep q (List.mem_cons_of_mem _ hq)) hdiff
  have hoff : (ViewManager.Mouse_Position_Callback.offsets env vm (s :: samples)).1
      = (0, 0) :: List.zipWith (fun p q => (q.1 - p.1, p.2 - q.2)) (s :: samples) samples := by
    obtain ⟨x, y⟩ := s
    simp only [ViewManager.Mouse_Position_Callback.offsets]
    simp only at hstep hrest
    rw [hstep]
    simp only [hrest]
  obtain ⟨hsum1, hsum2⟩ := ViewManager.Mouse_Position_Callback.differences_sum samples s
  refine ⟨hoff, ?_, ?_, ?_⟩
  · rw [hrun, hoff]
  · rw [hoff, List.map_cons, List.sum_cons, hsum1]
    simp
  · rw [hoff, List.map_cons, List.sum_cons, hsum2]
    simp

/-- C30, amended, with binary32 rounding at the view manager after
construction and the samples (512, 384), (520, 380), (500, 400), whose
coordinates and differences are representable. -/
theorem ViewManager.Mouse_Position_Callback_offsets_telescope_witness :
    ViewManager.initial.gFirstMouse = true
    ∧ ViewManager.initial.g_pCamera = some Camera.initial
    ∧ ViewEnv.rounding.narrow 0 = 0
    ∧ (∀ q ∈ (512, 384) :: ViewManager.sampleMouse,
        ViewEnv.rounding.narrow q.1 = q.1 ∧ ViewEnv.rounding.narrow q.2 = q.2)
    ∧ (ViewManager.Mouse_Position_Callback.offsets ViewEnv.rounding ViewManager.initial
        ((512, 384) :: ViewManager.sampleMouse)).1
      = (0, 0) :: List.zipWith (fun p q => (q.1 - p.1, p.2 - q.2))
          ((512, 384) :: ViewManager.sampleMouse) ViewManager.sampleMouse
    ∧ List.zipWith (fun (p q : ℚ × ℚ) => (q.1 - p.1, p.2 - q.2))
          ((512, 384) :: ViewManager.sampleMouse) ViewManager.sampleMouse
      = [(8, 4), (-20, -20)] :=
  ⟨rfl, by decide!, by decide!, by decide!,
    ((ViewManager.Mouse_Position_Callback_offsets_telescope ViewEnv.rounding ViewManager.initial
      Camera.initial (512, 384) ViewManager.sampleMouse rfl (by decide!)).2.2 (by decide!)
      (by decide!) (by decide!)).1,
    by decide!⟩

end MouseOffsets

/-! ## The calls issued by a run of `RenderScene` -/

section RenderTraces

variable {α : Type}

/-- The current value of a uniform is not changed by later writes under other
names. -/
theorem ShaderManager.value?_append_other (ws0 ws : List (String × UniformValue α))
    (name : String) (hother : ∀ w ∈ ws, w.1 ≠ name) :
    ShaderManager.value? ⟨ws0 ++ ws⟩ name = ShaderManager.value? ⟨ws0⟩ name := by
  have hnone : (ws.reverse.find? fun w => w.1 == name) = none := by
    rw [List.find?_eq_none]
    intro w hw
    have := hother w (List.mem_reverse.1 hw)
    simpa using this
  simp only [ShaderManager.value?, List.reverse_append, List.find?_append, hnone,
    Option.none_or]

/-- The current value of a uniform is not changed by a later write under
another name. -/
theorem ShaderManager.value?_append_one_other (ws0 : List (String × UniformValue α))
    (other name : String) (x : UniformValue α) (hother : other ≠ name) :
    ShaderManager.value? ⟨ws0 ++ [(other, x)]⟩ name = ShaderManager.value? ⟨ws0⟩ name := by
  apply ShaderManager.value?_append_other
  intro w hw
  rw [List.mem_singleton.1 hw]
  exact hother

/-- The current value of a uniform after a write under its name is the value
written. -/
theorem ShaderManager.value?_append_same (ws0 : List (String × UniformValue α))
    (name : String) (x : UniformValue α) :
    ShaderManager.value? ⟨ws0 ++ [(name, x)]⟩ name = some x := by
  simp [ShaderManager.value?]

/-- With a count of at most 16 the loop of `FindTextureSlot` returns. -/
theorem SceneManager.FindTextureSlot.loop_slot_returns (sm : SceneManager α) (tag : String)
    (h16 : sm.m_loadedTextures ≤ 16) :
    ∀ (fuel : Nat) (index : Nat) (textureSlot : Int) (bFound : Bool),
      sm.m_loadedTextures.toNat - index ≤ fuel →
      ∃ v : Int, SceneManager.FindTextureSlot.loop sm tag fuel (index : Int) textureSlot bFound
        = Except.ok v := by
  intro fuel
  induction fuel with
  | zero =>
    intro index textureSlot bFound hfuel
    have hge : ¬ ((index : Int) < sm.m_loadedTextures) := by omega
    exact ⟨textureSlot, by simp [SceneManager.FindTextureSlot.loop, hge]⟩
  | succ fuel ih =>
    intro index textureSlot bFound hfuel
    by_cases hcond : (index : Int) < sm.m_loadedTextures ∧ bFound = false
    · have hidx : index < 16 := by omega
      have hread := SceneManager.readTexture_ok sm ⟨index, hidx⟩
      simp only [] at hread
      simp only [SceneManager.FindTextureSlot.loop, hcond, and_self, if_true]
      rw [hread]
      by_cases heq : (sm.m_textureIDs ⟨index, hidx⟩).tag = tag
      · simp only [heq, if_true]
        exact ⟨_, SceneManager.FindTextureSlot.loop_slot_found_flag sm tag fuel _ _⟩
      · simp only [heq, if_false]
        have hrec := ih (index + 1) textureSlot false (by omega)
        exact_mod_cast hrec
    · exact ⟨textureSlot, by simp [SceneManager.FindTextureSlot.loop, hcond]⟩

/-- With a count of at most 16 `FindTextureSlot` returns. -/
theorem SceneManager.FindTextureSlot_returns (sm : SceneManager α) (tag : String)
    (h16 : sm.m_loadedTextures ≤ 16) :
    ∃ v : Int, sm.FindTextureSlot tag = Except.ok v := by
  have h := SceneManager.FindTextureSlot.loop_slot_returns sm tag h16 sm.m_loadedTextures.toNat 0
    (-1) false (by omega)
  simpa [SceneManager.FindTextureSlot] using h

/-- The loop of `FindMaterial` returns when the fuel covers the remaining
entries. -/
theorem SceneManager.FindMaterial.loop_material_returns (mats : List (OBJECT_MATERIAL α))
    (tag : String) :
    ∀ (fuel index : Nat) (bFound : Bool) (material : OBJECT_MATERIAL α),
      mats.length - index ≤ fuel →
      ∃ out : OBJECT_MATERIAL α,
        SceneManager.FindMaterial.loop mats tag fuel index bFound material = Except.ok out := by
  intro fuel
  induction fuel with
  | zero =>
    intro index bFound material hfuel
    have hge : ¬ (index < mats.length) := by omega
    exact ⟨material, by simp [SceneManager.FindMaterial.loop, hge]⟩
  | succ fuel ih =>
    intro index bFound material hfuel
    by_cases hcond : index < mats.length ∧ bFound = false
    · simp only [SceneManager.FindMaterial.loop, dif_pos hcond]
      by_cases heq : (mats.get ⟨index, hcond.1⟩).tag = tag
      · simp only [heq, if_true]
        exact ⟨_, SceneManager.FindMaterial.loop_material_found_flag mats tag fuel index _⟩
      · simp only [heq, if_false]
        exact ih (index + 1) bFound material (by omega)
    · exact ⟨material, by simp [SceneManager.FindMaterial.loop, dif_neg hcond]⟩

/-- With a shader manager `SetShaderMaterial` returns; it changes the shader
manager only, by writes under names of material uniforms. -/
theorem SceneManager.SetShaderMaterial_writes (sm : SceneManager α) (sh : ShaderManager α)
    (materialTag : String) (uninitialised : OBJECT_MATERIAL α) :
    ∃ ws : List (String × UniformValue α),
      SceneManager.SetShaderMaterial { sm with m_pShaderManager := some sh } materialTag
          uninitialised
        = Except.ok { sm with m_pShaderManager := some ⟨sh.writes ++ ws⟩ }
      ∧ ∀ w ∈ ws, w.1 ∈ ["material.ambientColor", "material.ambientStrength",
          "material.diffuseColor", "material.specularColor", "material.shininess"] := by
  by_cases hlen : sm.m_objectMaterials.length > 0
  · have hne : ¬ sm.m_objectMaterials.length = 0 := by omega
    obtain ⟨out, hout⟩ := SceneManager.FindMaterial.loop_material_returns sm.m_objectMaterials
      materialTag sm.m_objectMaterials.length 0 false uninitialised (by omega)
    refine ⟨[("material.ambientColor", UniformValue.vec3 out.ambientColor),
      ("material.ambientStrength", UniformValue.float out.ambientStrength),
      ("material.diffuseColor", UniformValue.vec3 out.diffuseColor),
      ("material.specularColor", UniformValue.vec3 out.specularColor),
      ("material.shininess", UniformValue.float out.shininess)], ?_, ?_⟩
    · simp [SceneManager.SetShaderMaterial, SceneManager.FindMaterial, hlen, hne, hout,
        ShaderManager.setVec3Value, ShaderManager.setFloatValue]
    · intro w hw
      simp only [List.mem_cons, List.mem_singleton, List.not_mem_nil, or_false] at hw
      rcases hw with rfl | rfl | rfl | rfl | rfl <;> simp
  · refine ⟨[], ?_, by simp⟩
    simp only [SceneManager.SetShaderMaterial, hlen, if_false, List.append_nil]

end RenderTraces
section RenderRuns

variable {α : Type} [Field α]

/-- The result of a recorded run is the result of the run. -/
theorem SceneManager.Call.runAll_result (F : Numerics α) (uninitialised : OBJECT_MATERIAL α) :
    ∀ (calls : List (SceneManager.Call α)) (sm : SceneManager α),
      (SceneManager.Call.runAll F uninitialised sm calls).result
        = SceneManager.Call.execAll F uninitialised sm calls := by
  intro calls
  induction calls with
  | nil => intro sm; rfl
  | cons c cs ih =>
    intro sm
    cases h : SceneManager.Call.exec F uninitialised sm c with
    | error e => simp only [SceneManager.Call.runAll, SceneManager.Call.execAll, h]
    | ok sm1 => simp only [SceneManager.Call.runAll, SceneManager.Call.execAll, h, ih]

/-- A recorded run whose first call returns. -/
theorem SceneManager.Call.runAll_cons_ok (F : Numerics α) (uninitialised : OBJECT_MATERIAL α)
    (sm sm1 : SceneManager α) (c : SceneManager.Call α) (cs : List (SceneManager.Call α))
    (h : SceneManager.Call.exec F uninitialised sm c = Except.ok sm1) :
    SceneManager.Call.runAll F uninitialised sm (c :: cs)
      = ⟨c :: (SceneManager.Call.runAll F uninitialised sm1 cs).issued,
         (c.drawEvent? sm).toList ++ (SceneManager.Call.runAll F uninitialised sm1 cs).draws,
         (SceneManager.Call.runAll F uninitialised sm1 cs).result⟩ := by
  simp only [SceneManager.Call.runAll, h]

/-- A recorded run of two lists of calls, the first of which returns, is the
first run followed by the second. -/
theorem SceneManager.Call.runAll_append (F : Numerics α) (uninitialised : OBJECT_MATERIAL α) :
    ∀ (cs ds : List (SceneManager.Call α)) (sm sm1 : SceneManager α),
      (SceneManager.Call.runAll F uninitialised sm cs).result = Except.ok sm1 →
      SceneManager.Call.runAll F uninitialised sm (cs ++ ds)
        = ⟨(SceneManager.Call.runAll F uninitialised sm cs).issued
            ++ (SceneManager.Call.runAll F uninitialised sm1 ds).issued,
           (SceneManager.Call.runAll F uninitialised sm cs).draws
            ++ (SceneManager.Call.runAll F uninitialised sm1 ds).draws,
           (SceneManager.Call.runAll F uninitialised sm1 ds).result⟩ := by
  intro cs
  induction cs with
  | nil =>
    intro ds sm sm1 h
    simp only [SceneManager.Call.runAll] at h
    obtain rfl := Except.ok.inj h
    rfl
  | cons c cs ih =>
    intro ds sm sm1 h
    cases hc : SceneManager.Call.exec F uninitialised sm c with
    | error e =>
      simp only [SceneManager.Call.runAll, hc] at h
      exact Except.noConfusion h
    | ok sm2 =>
      rw [SceneManager.Call.runAll_cons_ok F uninitialised sm sm2 c cs hc] at h
      simp only at h
      rw [List.cons_append, SceneManager.Call.runAll_cons_ok F uninitialised sm sm2 c _ hc,
        ih ds sm2 sm1 h, SceneManager.Call.runAll_cons_ok F uninitialised sm sm2 c cs hc]
      simp only [List.cons_append, List.append_assoc]

/-- A draw call returns and leaves the scene manager as it is; the draw it
makes is of its primitive, with the shader manager as it stands. -/
theorem SceneManager.Primitive.draw_exec (F : Numerics α) (uninitialised : OBJECT_MATERIAL α)
    (sm : SceneManager α) (p : SceneManager.Primitive) :
    SceneManager.Call.exec F uninitialised sm (SceneManager.Primitive.draw p) = Except.ok sm
    ∧ (SceneManager.Primitive.draw p : SceneManager.Call α).drawEvent? sm
      = some ⟨p, sm.m_pShaderManager⟩ := by
  cases p <;> exact ⟨rfl, rfl⟩

end RenderRuns
section RenderGroups

variable {α : Type} [Field α]

/-- The recorded run of the group of one scene object, on a manager with a
shader manager and a count of at most 16: every call of the group is issued,
the run returns with the registry unchanged, and the one draw made shows the
object. -/
theorem SceneManager.Call.runAll_group (F : Numerics α) (uninitialised : OBJECT_MATERIAL α)
    (sm : SceneManager α) (h16 : sm.m_loadedTextures ≤ 16) (sh : ShaderManager α)
    (o : SceneManager.SceneObject α) :
    ∃ (shN : ShaderManager α) (d : SceneManager.DrawEvent α),
      SceneManager.Call.runAll F uninitialised { sm with m_pShaderManager := some sh } o.group
        = ⟨o.group, [d], Except.ok { sm with m_pShaderManager := some shN }⟩
      ∧ SceneManager.SceneObject.DrawnAs F sm o d := by
  obtain ⟨s, x, y, z, p, t, u, v, m, prim⟩ := o
  obtain ⟨slot, hslot⟩ := SceneManager.FindTextureSlot_returns sm t h16
  have e1 : SceneManager.Call.exec F uninitialised { sm with m_pShaderManager := some sh }
      (SceneManager.Call.SetTransformations s x y z p)
      = Except.ok { sm with m_pShaderManager := some ⟨sh.writes
          ++ [(g_ModelName, UniformValue.mat4
            (SceneManager.SetTransformations.modelView F s x y z p))]⟩ } := rfl
  have e2 : ∀ sh1 : ShaderManager α,
      SceneManager.Call.exec F uninitialised { sm with m_pShaderManager := some sh1 }
        (SceneManager.Call.SetShaderTexture t)
      = Except.ok { sm with m_pShaderManager := some ⟨sh1.writes
          ++ [(g_UseTextureName, UniformValue.int 1)]
          ++ [(g_TextureValueName, UniformValue.sampler2D slot)]⟩ } := by
    intro sh1
    simp only [SceneManager.Call.exec, SceneManager.SetShaderTexture,
      SceneManager.FindTextureSlot_shader_irrelevant, hslot, ShaderManager.setIntValue,
      ShaderManager.setSampler2DValue]
  have e3 : ∀ sh1 : ShaderManager α,
      SceneManager.Call.exec F uninitialised { sm with m_pShaderManager := some sh1 }
        (SceneManager.Call.SetTextureUVScale u v)
      = Except.ok { sm with m_pShaderManager := some ⟨sh1.writes
          ++ [("UVscale", UniformValue.vec2 u v)]⟩ } := fun _ => rfl
  have hmodel : ∀ ws W : List (String × UniformValue α),
      W = ((((sh.writes
          ++ [(g_ModelName, UniformValue.mat4
            (SceneManager.SetTransformations.modelView F s x y z p))])
          ++ [(g_UseTextureName, UniformValue.int 1)])
          ++ [(g_TextureValueName, UniformValue.sampler2D slot)])
          ++ [("UVscale", UniformValue.vec2 u v)]) ++ ws →
      (∀ w ∈ ws, w.1 ∈ ["material.ambientColor", "material.ambientStrength",
          "material.diffuseColor", "material.specularColor", "material.shininess"]) →
      SceneManager.SceneObject.DrawnAs F sm ⟨s, x, y, z, p, t, u, v, m, prim⟩
        ⟨prim, some ⟨W⟩⟩ := by
    intro ws W hW hws
    subst hW
    have hnames : ∀ w ∈ ws, w.1 ≠ g_ModelName ∧ w.1 ≠ g_UseTextureName
        ∧ w.1 ≠ g_TextureValueName ∧ w.1 ≠ "UVscale" := by
      intro w hw
      have h := hws w hw
      simp only [List.mem_cons, List.mem_singleton, List.not_mem_nil, or_false] at h
      rcases h with h | h | h | h | h <;> rw [h] <;> decide
    refine ⟨rfl, _, slot, rfl, hslot, ?_, ?_, ?_, ?_⟩
    · rw [ShaderManager.value?_append_other _ ws _ (fun w hw => (hnames w hw).1),
        ShaderManager.value?_append_one_other _ _ _ _ (by decide),
        ShaderManager.value?_append_one_other _ _ _ _ (by decide),
        ShaderManager.value?_append_one_other _ _ _ _ (by decide),
        ShaderManager.value?_append_same]
    · rw [ShaderManager.value?_append_other _ ws _ (fun w hw => (hnames w hw).2.1),
        ShaderManager.value?_append_one_other _ _ _ _ (by decide),
        ShaderManager.value?_append_one_other _ _ _ _ (by decide),
        ShaderManager.value?_append_same]
    · rw [ShaderManager.value?_append_other _ ws _ (fun w hw => (hnames w hw).2.2.1),
        ShaderManager.value?_append_one_other _ _ _ _ (by decide),
        ShaderManager.value?_append_same]
    · rw [ShaderManager.value?_append_other _ ws _ (fun w hw => (hnames w hw).2.2.2),
        ShaderManager.value?_append_same]
  have hdraw := fun sm1 : SceneManager α =>
    SceneManager.Primitive.draw_exec F uninitialised sm1 prim
  cases m with
  | none =>
    refine ⟨⟨((((sh.writes
          ++ [(g_ModelName, UniformValue.mat4
            (SceneManager.SetTransformations.modelView F s x y z p))])
          ++ [(g_UseTextureName, UniformValue.int 1)])
          ++ [(g_TextureValueName, UniformValue.sampler2D slot)])
          ++ [("UVscale", UniformValue.vec2 u v)])⟩,
      ⟨prim, some ⟨((((sh.writes
          ++ [(g_ModelName, UniformValue.mat4
            (SceneManager.SetTransformations.modelView F s x y z p))])
          ++ [(g_UseTextureName, UniformValue.int 1)])
          ++ [(g_TextureValueName, UniformValue.sampler2D slot)])
          ++ [("UVscale", UniformValue.vec2 u v)])⟩⟩, ?_,
      hmodel [] _ (List.append_nil _).symm (by simp)⟩
    simp only [SceneManager.SceneObject.group, List.cons_append, List.nil_append,
      List.append_nil]
    rw [SceneManager.Call.runAll_cons_ok F uninitialised _ _ _ _ e1,
      SceneManager.Call.runAll_cons_ok F uninitialised _ _ _ _ (e2 _),
      SceneManager.Call.runAll_cons_ok F uninitialised _ _ _ _ (e3 _),
      SceneManager.Call.runAll_cons_ok F uninitialised _ _ _ _ (hdraw _).1, (hdraw _).2]
    rfl
  | some mt =>
    obtain ⟨ws, e4, hws⟩ := SceneManager.SetShaderMaterial_writes sm
      ⟨((((sh.writes
          ++ [(g_ModelName, UniformValue.mat4
            (SceneManager.SetTransformations.modelView F s x y z p))])
          ++ [(g_UseTextureName, UniformValue.int 1)])
          ++ [(g_TextureValueName, UniformValue.sampler2D slot)])
          ++ [("UVscale", UniformValue.vec2 u v)])⟩ mt uninitialised
    have e5 : SceneManager.Call.exec F uninitialised
        { sm with m_pShaderManager := some ⟨((((sh.writes
          ++ [(g_ModelName, UniformValue.mat4
            (SceneManager.SetTransformations.modelView F s x y z p))])
          ++ [(g_UseTextureName, UniformValue.int 1)])
          ++ [(g_TextureValueName, UniformValue.sampler2D slot)])
          ++ [("UVscale", UniformValue.vec2 u v)])⟩ }
        (SceneManager.Call.SetShaderMaterial mt)
        = Except.ok { sm with m_pShaderManager := some ⟨((((sh.writes
          ++ [(g_ModelName, UniformValue.mat4
            (SceneManager.SetTransformations.modelView F s x y z p))])
          ++ [(g_UseTextureName, UniformValue.int 1)])
          ++ [(g_TextureValueName, UniformValue.sampler2D slot)])
          ++ [("UVscale", UniformValue.vec2 u v)]) ++ ws⟩ } := e4
    refine ⟨⟨((((sh.writes
          ++ [(g_ModelName, UniformValue.mat4
            (SceneManager.SetTransformations.modelView F s x y z p))])
          ++ [(g_UseTextureName, UniformValue.int 1)])
          ++ [(g_TextureValueName, UniformValue.sampler2D slot)])
          ++ [("UVscale", UniformValue.vec2 u v)]) ++ ws⟩,
      ⟨prim, some ⟨((((sh.writes
          ++ [(g_ModelName, UniformValue.mat4
            (SceneManager.SetTransformations.modelView F s x y z p))])
          ++ [(g_UseTextureName, UniformValue.int 1)])
          ++ [(g_TextureValueName, UniformValue.sampler2D slot)])
          ++ [("UVscale", UniformValue.vec2 u v)]) ++ ws⟩⟩, ?_, hmodel ws _ rfl hws⟩
    simp only [SceneManager.SceneObject.group, List.cons_append, List.nil_append]
    rw [SceneManager.Call.runAll_cons_ok F uninitialised _ _ _ _ e1,
      SceneManager.Call.runAll_cons_ok F uninitialised _ _ _ _ (e2 _),
      SceneManager.Call.runAll_cons_ok F uninitialised _ _ _ _ (e3 _),
      SceneManager.Call.runAll_cons_ok F uninitialised _ _ _ _ e5,
      SceneManager.Call.runAll_cons_ok F uninitialised _ _ _ _ (hdraw _).1, (hdraw _).2]
    rfl

end RenderGroups
section RenderSceneRun

variable {α : Type} [Field α]

/-- The recorded run of the groups of a list of scene objects, on a manager
with a shader manager and a count of at most 16: every call is issued, the
run returns with the registry unchanged, and the draws made show the objects,
one draw per object, in order. -/
theorem SceneManager.Call.runAll_groups (F : Numerics α) (uninitialised : OBJECT_MATERIAL α)
    (sm : SceneManager α) (h16 : sm.m_loadedTextures ≤ 16) :
    ∀ (objs : List (SceneManager.SceneObject α)) (sh : ShaderManager α),
      ∃ (shN : ShaderManager α) (draws : List (SceneManager.DrawEvent α)),
        SceneManager.Call.runAll F uninitialised { sm with m_pShaderManager := some sh }
            (objs.flatMap SceneManager.SceneObject.group)
          = ⟨objs.flatMap SceneManager.SceneObject.group, draws,
             Except.ok { sm with m_pShaderManager := some shN }⟩
        ∧ List.Forall₂ (SceneManager.SceneObject.DrawnAs F sm) objs draws := by
  intro objs
  induction objs with
  | nil => intro sh; exact ⟨sh, [], rfl, List.Forall₂.nil⟩
  | cons o os ih =>
    intro sh
    obtain ⟨sh1, d, hgroup, hd⟩ := SceneManager.Call.runAll_group F uninitialised sm h16 sh o
    obtain ⟨shN, ds, hrest, hall⟩ := ih sh1
    refine ⟨shN, d :: ds, ?_, List.Forall₂.cons hd hall⟩
    rw [List.flatMap_cons, SceneManager.Call.runAll_append F uninitialised o.group _ _
      { sm with m_pShaderManager := some sh1 } (by rw [hgroup]), hgroup, hrest]
    rfl

/-- C14: on a scene manager with a shader manager and at most 16 loaded
textures, one call of `RenderScene` returns and issues exactly the calls of
the groups of the 25 scene objects, group after group, each group being one
`SetTransformations`, one `SetShaderTexture`, one `SetTextureUVScale`, one
`SetShaderMaterial` if the object has a material and none otherwise, then the
draw call; 25 draws are made, the k-th of the primitive of the k-th object,
with the model matrix, the texture slot and the UV scale of that object in
the shader. -/
theorem SceneManager.RenderScene_issues_object_groups (F : Numerics α)
    (uninitialised : OBJECT_MATERIAL α) (sm : SceneManager α) (sh : ShaderManager α)
    (hsh : sm.m_pShaderManager = some sh) (h16 : sm.m_loadedTextures ≤ 16) :
    (SceneManager.RenderScene.run F uninitialised sm).issued
      = (SceneManager.RenderScene.objects).flatMap SceneManager.SceneObject.group
    ∧ (SceneManager.RenderScene.run F uninitialised sm).issued = SceneManager.RenderScene.calls
    ∧ (SceneManager.RenderScene.run F uninitialised sm).result = sm.RenderScene F uninitialised
    ∧ (∃ shN : ShaderManager α,
        sm.RenderScene F uninitialised = Except.ok { sm with m_pShaderManager := some shN })
    ∧ (SceneManager.RenderScene.objects : List (SceneManager.SceneObject α)).length = 25
    ∧ (SceneManager.RenderScene.run F uninitialised sm).draws.length = 25
    ∧ ((SceneManager.RenderScene.run F uninitialised sm).issued.filter
        SceneManager.Call.isDraw).length = 25
    ∧ (SceneManager.RenderScene.run F uninitialised sm).draws.map (fun d => d.primitive)
      = (SceneManager.RenderScene.objects : List (SceneManager.SceneObject α)).map
          (fun o => o.primitive)
    ∧ List.Forall₂ (SceneManager.SceneObject.DrawnAs F sm) SceneManager.RenderScene.objects
        (SceneManager.RenderScene.run F uninitialised sm).draws
    ∧ ∀ o : SceneManager.SceneObject α,
        o.group.head? = some (SceneManager.Call.SetTransformations o.scaleXYZ
          o.XrotationDegrees o.YrotationDegrees o.ZrotationDegrees o.positionXYZ)
        ∧ o.group.filterMap SceneManager.Call.textureTag? = [o.textureTag]
        ∧ o.group.length = (if o.materialTag.isSome then 5 else 4)
        ∧ (o.group.filter SceneManager.Call.isDraw).length = 1
        ∧ o.group.getLast? = some (SceneManager.Primitive.draw o.primitive) := by
  have hsm : sm = { sm with m_pShaderManager := some sh } := by
    cases sm
    simp only at hsh
    subst hsh
    rfl
  have hcalls : (SceneManager.RenderScene.calls : List (SceneManager.Call α))
      = (SceneManager.RenderScene.objects).flatMap SceneManager.SceneObject.group := rfl
  obtain ⟨shN, draws, hrun, hall⟩ :=
    SceneManager.Call.runAll_groups F uninitialised sm h16 SceneManager.RenderScene.objects sh
  have hrun2 : SceneManager.RenderScene.run F uninitialised sm
      = ⟨(SceneManager.RenderScene.objects).flatMap SceneManager.SceneObject.group, draws,
         Except.ok { sm with m_pShaderManager := some shN }⟩ := by
    rw [SceneManager.RenderScene.run, hcalls, hsm]
    exact hrun
  have hresult : (SceneManager.RenderScene.run F uninitialised sm).result
      = sm.RenderScene F uninitialised :=
    SceneManager.Call.runAll_result F uninitialised SceneManager.RenderScene.calls sm
  have hlen : draws.length = 25 := by
    rw [← hall.length_eq]
    rfl
  have hprim : ∀ (objs : List (SceneManager.SceneObject α))
      (ds : List (SceneManager.DrawEvent α)),
      List.Forall₂ (SceneManager.SceneObject.DrawnAs F sm) objs ds →
      ds.map (fun d => d.primitive) = objs.map (fun o => o.primitive) := by
    intro objs ds h
    induction h with
    | nil => rfl
    | cons hd _ ih => simp only [List.map_cons, hd.1, ih]
  refine ⟨by rw [hrun2], by rw [hrun2, hcalls], hresult, ⟨shN, ?_⟩, rfl, by rw [hrun2]; exact hlen,
    ?_, by rw [hrun2]; exact hprim _ _ hall, by rw [hrun2]; exact hall, ?_⟩
  · rw [← hresult, hrun2]
  · rw [hrun2, ← hcalls]
    rfl
  · intro o
    obtain ⟨h1, h2, h3⟩ := SceneManager.SceneObject.group_shape o
    refine ⟨rfl, ?_, h3, h1, h2⟩
    obtain ⟨s, x, y, z, p, t, u, v, m, prim⟩ := o
    cases m <;> cases prim <;> rfl

/-- C14 at the scene as `PrepareScene` leaves it with every image file
readable: nine textures are loaded, and the run issues the 108 calls of the 25
groups and makes 25 draws. -/
theorem SceneManager.RenderScene_issues_object_groups_witness :
    SceneManager.preparedScene.m_pShaderManager = some ⟨[]⟩
    ∧ SceneManager.preparedScene.m_loadedTextures = 9
    ∧ SceneManager.preparedScene.m_loadedTextures ≤ 16
    ∧ (SceneManager.RenderScene.run Numerics.rational SceneManager.blankMaterial
        SceneManager.preparedScene).issued
      = (SceneManager.RenderScene.objects).flatMap SceneManager.SceneObject.group
    ∧ (SceneManager.RenderScene.run Numerics.rational SceneManager.blankMaterial
        SceneManager.preparedScene).draws.length = 25 :=
  ⟨rfl, rfl, by decide,
    (SceneManager.RenderScene_issues_object_groups Numerics.rational
      SceneManager.blankMaterial SceneManager.preparedScene ⟨[]⟩ rfl (by decide)).1,
    (SceneManager.RenderScene_issues_object_groups Numerics.rational
      SceneManager.blankMaterial SceneManager.preparedScene ⟨[]⟩ rfl
      (by decide)).2.2.2.2.2.1⟩

end RenderSceneRun
